import Mathlib

/-!
# Fused Adam / AMSGrad step

A shallow embedding of `csrc/cpu/aten/kernels/optimizer/AdamFusedStepKrnl.cpp`.

* Numbers live in an ordered field `α` (exact arithmetic): the casts
  `scalar_t(x_double)` and the widening bfloat16 -> float are the identity on
  values, `fmadd a b c` is `a * b + c`.
* `std::pow`, `std::sqrt`, `at::parallel_for`, the lane widths and the
  bfloat16 narrowing / packing routines are capabilities of the environment
  and are carried by `Env`.
* A tensor is a scalar type tag, a contiguity flag and a flat list of values.
  A C++ exception is the `error` field of `Outcome`; the tensors an outcome
  carries are the caller-visible tensors at the time of the throw or return.
* The loop bodies of the generic kernel are also given on an arbitrary
  arithmetic `Ops` (`vec_body_ops`, `scalar_body_ops`, `range_body_ops`), in
  which no law relates the operations: there the branch taken and the terms
  added are visible in the result. On the exact arithmetic `fieldOps` these are
  `vec_body`, `scalar_body` and `range_body`.
-/

namespace AdamFusedStep

/-- Runtime element types (`at::ScalarType`), the three the dispatcher knows and two others. -/
inductive ScalarType
  | Float
  | Double
  | BFloat16
  | Half
  | Long
  deriving DecidableEq, Repr

/-- Exceptions of the call. `check msg` is a failed `TORCH_CHECK(cond, msg)`;
`scalar_type_mismatch expected found` is what the typed accessor
`Tensor::data_ptr<T>()` raises: it is given the tensor and `T` only. -/
inductive Error
  | check (msg : String)
  | scalar_type_mismatch (expected found : ScalarType)
  deriving DecidableEq, Repr

/-- A tensor: element type tag, contiguity flag, logical values in flat order. -/
structure Tensor (α : Type) where
  scalar_type : ScalarType
  is_contiguous : Bool
  data : List α
  deriving DecidableEq, Repr

/-- The six tensor arguments of the step. -/
structure Tensors (α : Type) where
  param : Tensor α
  exp_avg : Tensor α
  exp_avg_sq : Tensor α
  max_exp_avg_sq : Tensor α
  grad : Tensor α
  param2 : Tensor α
  deriving DecidableEq, Repr

/-- The six data pointers of a kernel, as flat buffers. -/
structure Bufs (α : Type) where
  param : List α
  exp_avg : List α
  exp_avg_sq : List α
  max_exp_avg_sq : List α
  grad : List α
  param2 : List α
  deriving DecidableEq, Repr

/-- The scalar arguments of a kernel after the cast to the compute type. -/
structure Scalars (α : Type) where
  beta2 : α
  learning_rate : α
  weight_decay : α
  eps : α
  step_size : α
  bias_correction2_sqrt : α
  exp_avg_grad_coefficient : α
  exp_avg_sq_grad_coefficient : α
  deriving DecidableEq, Repr

/-- Result of a call: the exception raised, if any, and the caller-visible tensors. -/
structure Outcome (α : Type) where
  error : Option Error
  mem : Tensors α
  deriving DecidableEq, Repr

/-- Capabilities consumed from the environment. `parallel_for b e grain` is the
list of `(begin, end)` chunks the scheduler hands to the range body;
`fVec_size` and `dVec_size` are `Vectorized<float>::size()` and
`Vectorized<double>::size()`; `convert_float_bfloat16` is one lane of the vector
narrowing, `to_BFloat16` the scalar constructor `at::BFloat16(float)`;
`pack_bfloat16_float hi lo` rebuilds a float from a split parameter and
`unpack_float_bfloat16 x` splits it. -/
structure Env (α : Type) where
  pow : α → α → α
  sqrt : α → α
  parallel_for : Nat → Nat → Nat → List (Nat × Nat)
  fVec_size : Nat
  dVec_size : Nat
  convert_float_bfloat16 : α → α
  to_BFloat16 : α → α
  pack_bfloat16_float : α → α → α
  unpack_float_bfloat16 : α → α × α

/-- The two instantiations `<float, float>` and `<double, double>` of the generic kernel template. -/
inductive PlainType
  | float
  | double
  deriving DecidableEq, Repr

/-- The `at::ScalarType` of a template parameter `scalar_t`. -/
def PlainType.toScalarType : PlainType → ScalarType
  | .float => .Float
  | .double => .Double

/-- Lane count `Vectorized<scalar_t>::size()`. -/
def Env.Vec_size {α : Type} (env : Env α) : PlainType → Nat
  | .float => env.fVec_size
  | .double => env.dVec_size

/-- Lane count `Vectorized<at::BFloat16>::size()`: a bfloat16 vector widens to two float vectors. -/
def Env.bVec_size {α : Type} (env : Env α) : Nat := 2 * env.fVec_size

section Tensor

variable {α : Type}

/-- Number of elements `numel()`. -/
def Tensor.numel (t : Tensor α) : Nat := t.data.length

/-- The working tensor `t.contiguous()`: `t` itself when it is contiguous, a contiguous copy otherwise. -/
def Tensor.contiguous (t : Tensor α) : Tensor α :=
  if t.is_contiguous then t else { t with is_contiguous := true }

/-- In-place copy `dst.copy_(src)`. -/
def Tensor.copy_ (dst src : Tensor α) : Tensor α := { dst with data := src.data }

/-- What the caller sees of `orig` once the working tensor `orig.contiguous()` holds `work`:
a contiguous original shares its storage with the working tensor, a non-contiguous one
is a separate storage that only `copy_` changes. -/
def Tensor.view_after (orig work : Tensor α) : Tensor α :=
  if orig.is_contiguous then { orig with data := work.data } else orig

/-- The typed accessor `t.data_ptr<T>()`. -/
def data_ptr (T : ScalarType) (t : Tensor α) : Except Error (List α) :=
  if t.scalar_type = T then .ok t.data else .error (.scalar_type_mismatch T t.scalar_type)

/-- The guard `TORCH_CHECK(cond, msg)`. -/
def TORCH_CHECK (cond : Bool) (msg : String) : Except Error Unit :=
  if cond then .ok () else .error (.check msg)

end Tensor

section Vec

variable {α : Type}

/-- Read `ptr[i]`; outside the buffer the read is undefined in the source and yields `0` here. -/
def rd [Zero α] (buf : List α) (i : Nat) : α := buf.getD i 0

/-- A vector register: lane index to value. -/
abbrev Vec (α : Type) := Nat → α

/-- Broadcast `Vec(c)`. -/
def Vec.const (c : α) : Vec α := fun _ => c

/-- Unaligned load `Vec::loadu(ptr)` with `ptr = buf + p`. -/
def Vec.loadu [Zero α] (buf : List α) (p : Nat) : Vec α := fun k => rd buf (p + k)

/-- Store `v.store(ptr)` of `n` lanes at `ptr = buf + p`. -/
def Vec.store (v : Vec α) (buf : List α) (p : Nat) : Nat → List α
  | 0 => buf
  | n + 1 => (Vec.store v buf p n).set (p + n) (v n)

/-- Lane-wise absolute value. -/
def Vec.abs [LinearOrderedField α] (v : Vec α) : Vec α := fun k => |v k|

/-- Lane-wise `a < b`, the selection mask. -/
def Vec.lt [LinearOrderedField α] (a b : Vec α) : Nat → Bool := fun k => decide (a k < b k)

/-- Blend `Vec::blendv(a, b, mask)`: lane of `b` where the mask is set, of `a` elsewhere. -/
def Vec.blendv (a b : Vec α) (mask : Nat → Bool) : Vec α := fun k => if mask k then b k else a k

/-- Fused multiply-add `fmadd(a, b, c)`. -/
def Vec.fmadd [LinearOrderedField α] (a b c : Vec α) : Vec α := a * b + c

/-- Lane-wise `maximum(a, b)`. -/
def Vec.maximum [LinearOrderedField α] (a b : Vec α) : Vec α := fun k => max (a k) (b k)

/-- Lane-wise square root. -/
def Vec.sqrt (env : Env α) (v : Vec α) : Vec α := fun k => env.sqrt (v k)

/-- Scalar `std::max(a, b)`. -/
def std_max [LinearOrderedField α] (a b : α) : α := if a < b then b else a

/-- Widening `convert_bfloat16_float(v)`: the low and the high half of the lanes. -/
def Vec.convert_bfloat16_float (F : Nat) (v : Vec α) : Vec α × Vec α :=
  (fun k => v k, fun k => v (F + k))

/-- Vector `at::vec::pack_bfloat16_float(a, b)`: two float vectors from a split parameter. -/
def Vec.pack_bfloat16_float (env : Env α) (F : Nat) (a b : Vec α) : Vec α × Vec α :=
  (fun k => env.pack_bfloat16_float (a k) (b k),
   fun k => env.pack_bfloat16_float (a (F + k)) (b (F + k)))

/-- Vector `at::vec::unpack_float_bfloat16(x, y)`: the two bfloat16 vectors of a pair of float vectors. -/
def Vec.unpack_float_bfloat16 (env : Env α) (F : Nat) (x y : Vec α) : Vec α × Vec α :=
  (fun k => if k < F then (env.unpack_float_bfloat16 (x k)).1
            else (env.unpack_float_bfloat16 (y (k - F))).1,
   fun k => if k < F then (env.unpack_float_bfloat16 (x k)).2
            else (env.unpack_float_bfloat16 (y (k - F))).2)

/-- Vector narrowing `convert_float_bfloat16(x, y)`. -/
def Vec.convert_float_bfloat16 (env : Env α) (F : Nat) (x y : Vec α) : Vec α :=
  fun k => if k < F then env.convert_float_bfloat16 (x k)
           else env.convert_float_bfloat16 (y (k - F))

end Vec

section Loops

variable {α : Type}

/-- The vectorized `for (; d < size - (size % L); d += L)` loop: returns the final `d`
and the buffers. `fuel` bounds the number of iterations. -/
def vec_loop (body : Nat → Bufs α → Bufs α) (size L : Nat) : Nat → Nat → Bufs α → Nat × Bufs α
  | 0, d, m => (d, m)
  | fuel + 1, d, m =>
    if d < size - size % L then vec_loop body size L fuel (d + L) (body d m) else (d, m)

/-- The remainder `for (; d < size; d++)` loop. `fuel` bounds the number of iterations. -/
def scalar_loop (body : Nat → Bufs α → Bufs α) (size : Nat) : Nat → Nat → Bufs α → Bufs α
  | 0, _, m => m
  | fuel + 1, d, m =>
    if d < size then scalar_loop body size fuel (d + 1) (body d m) else m

/-- The range body handed to `at::parallel_for`: vectorized loop from `d = 0`, then the
remainder loop from where it stopped. Each loop advances `d` by at least one per
iteration, so `size` iterations are enough for either. -/
def range_loops (vbody sbody : Nat → Bufs α → Bufs α) (L : Nat) (begin_ end_ : Nat)
    (m : Bufs α) : Bufs α :=
  let size := end_ - begin_
  let r := vec_loop vbody size L size 0 m
  scalar_loop sbody size size r.1 r.2

/-- Execution of `at::parallel_for(b, e, grain, f)`: `f` on every chunk of the schedule. -/
def run_parallel_for (env : Env α) (b e grain : Nat) (f : Nat → Nat → Bufs α → Bufs α)
    (m : Bufs α) : Bufs α :=
  (env.parallel_for b e grain).foldl (fun acc c => f c.1 c.2 acc) m

/-- The data pointers of the six tensors. -/
def Tensors.bufs (t : Tensors α) : Bufs α :=
  { param := t.param.data, exp_avg := t.exp_avg.data, exp_avg_sq := t.exp_avg_sq.data,
    max_exp_avg_sq := t.max_exp_avg_sq.data, grad := t.grad.data, param2 := t.param2.data }

/-- The six tensors once their storage holds `m`. -/
def Tensors.with_bufs (t : Tensors α) (m : Bufs α) : Tensors α :=
  { param := { t.param with data := m.param },
    exp_avg := { t.exp_avg with data := m.exp_avg },
    exp_avg_sq := { t.exp_avg_sq with data := m.exp_avg_sq },
    max_exp_avg_sq := { t.max_exp_avg_sq with data := m.max_exp_avg_sq },
    grad := { t.grad with data := m.grad },
    param2 := { t.param2 with data := m.param2 } }

end Loops

section Generic

variable {α : Type} [LinearOrderedField α]

/-- Generic kernel, one iteration of the vectorized loop (source lines 65-100), `L` lanes,
local pointers `ptr = data + begin_`. -/
def vec_body (env : Env α) (L : Nat) (s : Scalars α) (amsgrad : Bool) (begin_ d : Nat)
    (m : Bufs α) : Bufs α :=
  let p := begin_ + d
  let param_vec : Vec α := Vec.loadu m.param p
  let grad_vec : Vec α := Vec.loadu m.grad p
  let grad_vec : Vec α :=
    if s.weight_decay ≠ 0 then grad_vec + param_vec * Vec.const s.weight_decay else grad_vec
  let exp_avg_vec : Vec α := Vec.loadu m.exp_avg p
  let lerp_weight : Vec α := Vec.const s.exp_avg_grad_coefficient
  let mask := Vec.lt (Vec.abs lerp_weight) (Vec.const (1 / 2))
  let coeff := Vec.blendv (lerp_weight - Vec.const 1) lerp_weight mask
  let base := Vec.blendv grad_vec exp_avg_vec mask
  let exp_avg_vec : Vec α := Vec.fmadd coeff (grad_vec - exp_avg_vec) base
  let exp_avg_sq_vec : Vec α :=
    Vec.loadu m.exp_avg_sq p * Vec.const s.beta2 +
      Vec.const s.exp_avg_sq_grad_coefficient * grad_vec * grad_vec
  let m := { m with exp_avg := Vec.store exp_avg_vec m.exp_avg p L }
  let m := { m with exp_avg_sq := Vec.store exp_avg_sq_vec m.exp_avg_sq p L }
  if amsgrad then
    let max_exp_avg_sq_vec : Vec α :=
      Vec.maximum (Vec.loadu m.max_exp_avg_sq p) exp_avg_sq_vec
    let m := { m with max_exp_avg_sq := Vec.store max_exp_avg_sq_vec m.max_exp_avg_sq p L }
    let denom_vec : Vec α :=
      Vec.sqrt env max_exp_avg_sq_vec / Vec.const s.bias_correction2_sqrt + Vec.const s.eps
    let param_vec : Vec α := param_vec - Vec.const s.step_size * exp_avg_vec / denom_vec
    { m with param := Vec.store param_vec m.param p L }
  else
    let denom_vec : Vec α :=
      Vec.sqrt env exp_avg_sq_vec / Vec.const s.bias_correction2_sqrt + Vec.const s.eps
    let param_vec : Vec α := param_vec - Vec.const s.step_size * exp_avg_vec / denom_vec
    { m with param := Vec.store param_vec m.param p L }

/-- Generic kernel, one iteration of the remainder loop (source lines 103-132). -/
def scalar_body (env : Env α) (s : Scalars α) (amsgrad : Bool) (begin_ d : Nat)
    (m : Bufs α) : Bufs α :=
  let i := begin_ + d
  let grad_val := rd m.grad i
  let grad_val := if s.weight_decay ≠ 0 then grad_val + rd m.param i * s.weight_decay else grad_val
  let is_lerp_weight_small : Bool := decide (|s.exp_avg_grad_coefficient| < 1 / 2)
  let m :=
    if is_lerp_weight_small then
      let v := rd m.exp_avg i + s.exp_avg_grad_coefficient * (grad_val - rd m.exp_avg i)
      { m with exp_avg := m.exp_avg.set i v }
    else
      let v := grad_val - (grad_val - rd m.exp_avg i) * (1 - s.exp_avg_grad_coefficient)
      { m with exp_avg := m.exp_avg.set i v }
  let v := rd m.exp_avg_sq i * s.beta2 + s.exp_avg_sq_grad_coefficient * grad_val * grad_val
  let m := { m with exp_avg_sq := m.exp_avg_sq.set i v }
  if amsgrad then
    let v := std_max (rd m.max_exp_avg_sq i) (rd m.exp_avg_sq i)
    let m := { m with max_exp_avg_sq := m.max_exp_avg_sq.set i v }
    let demon_val := env.sqrt (rd m.max_exp_avg_sq i) / s.bias_correction2_sqrt + s.eps
    { m with param := m.param.set i (rd m.param i - s.step_size * rd m.exp_avg i / demon_val) }
  else
    let demon_val := env.sqrt (rd m.exp_avg_sq i) / s.bias_correction2_sqrt + s.eps
    { m with param := m.param.set i (rd m.param i - s.step_size * rd m.exp_avg i / demon_val) }

/-- Generic kernel, the lambda given to `at::parallel_for` (source lines 53-134). -/
def range_body (env : Env α) (scalar_t : PlainType) (s : Scalars α) (amsgrad : Bool)
    (begin_ end_ : Nat) (m : Bufs α) : Bufs α :=
  range_loops (vec_body env (env.Vec_size scalar_t) s amsgrad begin_)
    (scalar_body env s amsgrad begin_) (env.Vec_size scalar_t) begin_ end_ m

/-- Generic kernel, the typed accesses of source lines 30-34, in order. -/
def generic_data_ptrs (scalar_t : PlainType) (t : Tensors α) : Except Error Unit := do
  let _ ← data_ptr scalar_t.toScalarType t.param
  let _ ← data_ptr scalar_t.toScalarType t.exp_avg
  let _ ← data_ptr scalar_t.toScalarType t.exp_avg_sq
  let _ ← data_ptr scalar_t.toScalarType t.max_exp_avg_sq
  let _ ← data_ptr scalar_t.toScalarType t.grad
  pure ()

/-- The generic `adam_fused_step_kernel<scalar_t, grad_t>` on the working tensors `t`:
the exception raised, if any, and the working tensors afterwards. -/
def adam_fused_step_kernel (env : Env α) (scalar_t : PlainType) (t : Tensors α)
    (amsgrad : Bool) (s : Scalars α) : Option Error × Tensors α :=
  match generic_data_ptrs scalar_t t with
  | .error e => (some e, t)
  | .ok _ =>
    (none, t.with_bufs
      (run_parallel_for env 0 t.param.numel 512 (range_body env scalar_t s amsgrad) t.bufs))

end Generic

section Reduced

variable {α : Type} [LinearOrderedField α]

/-- The six `TORCH_CHECK`s that open a reduced-precision kernel (source lines 154-171 and
338-355), in order; `param_t` is the scalar type expected of `param`. -/
def reduced_checks (param_t : ScalarType) (param_name : String) (t : Tensors α) :
    Except Error Unit := do
  TORCH_CHECK (t.param.scalar_type = param_t)
    ("adam_fused_step_kernel: expect param to be " ++ param_name)
  TORCH_CHECK (t.grad.scalar_type = ScalarType.BFloat16)
    "adam_fused_step_kernel: expect grad to be at::BFloat16"
  TORCH_CHECK (t.exp_avg.scalar_type = ScalarType.Float)
    "adam_fused_step_kernel: expect exp_avg to be float32"
  TORCH_CHECK (t.exp_avg_sq.scalar_type = ScalarType.Float)
    "adam_fused_step_kernel: expect exp_avg_sq to be float32"
  TORCH_CHECK (t.max_exp_avg_sq.scalar_type = ScalarType.Float)
    "adam_fused_step_kernel: expect max_exp_avg_sq to be float32"
  TORCH_CHECK (t.param2.scalar_type = ScalarType.BFloat16)
    "adam_fused_step_kernel: expect param2 to be at::BFloat16"

/-- The typed accesses that follow the checks of a reduced-precision kernel (source lines
173-178 and 357-362), in order. -/
def reduced_data_ptrs (param_t : ScalarType) (t : Tensors α) : Except Error Unit := do
  let _ ← data_ptr param_t t.param
  let _ ← data_ptr ScalarType.Float t.exp_avg
  let _ ← data_ptr ScalarType.Float t.exp_avg_sq
  let _ ← data_ptr ScalarType.Float t.max_exp_avg_sq
  let _ ← data_ptr ScalarType.BFloat16 t.grad
  let _ ← data_ptr ScalarType.BFloat16 t.param2
  pure ()

/-- Kernel `<at::BFloat16, at::BFloat16>`, one iteration of the vectorized loop (source lines
209-280): `2 * F` lanes of bfloat16, processed as two float vectors of `F` lanes. -/
def vec_body_bf16 (env : Env α) (s : Scalars α) (amsgrad : Bool) (begin_ d : Nat)
    (m : Bufs α) : Bufs α :=
  let F := env.fVec_size
  let p := begin_ + d
  let grad_bvec : Vec α := Vec.loadu m.grad p
  let grad_f := Vec.convert_bfloat16_float F grad_bvec
  let param_bvec : Vec α := Vec.loadu m.param p
  let param2_bvec : Vec α := Vec.loadu m.param2 p
  let param_f := Vec.pack_bfloat16_float env F param_bvec param2_bvec
  let param_fvec : Vec α := param_f.1
  let param_fvec2 : Vec α := param_f.2
  let grad_w : Vec α × Vec α :=
    if s.weight_decay ≠ 0 then
      (grad_f.1 + param_fvec * Vec.const s.weight_decay,
       grad_f.2 + param_fvec2 * Vec.const s.weight_decay)
    else grad_f
  let grad_fvec : Vec α := grad_w.1
  let grad_fvec2 : Vec α := grad_w.2
  let exp_avg_fvec : Vec α := Vec.loadu m.exp_avg p
  let exp_avg_fvec2 : Vec α := Vec.loadu m.exp_avg (p + F)
  let lerp_weight : Vec α := Vec.const s.exp_avg_grad_coefficient
  let mask := Vec.lt (Vec.abs lerp_weight) (Vec.const (1 / 2))
  let coeff := Vec.blendv (lerp_weight - Vec.const 1) lerp_weight mask
  let base := Vec.blendv grad_fvec exp_avg_fvec mask
  let exp_avg_fvec : Vec α := Vec.fmadd coeff (grad_fvec - exp_avg_fvec) base
  let base2 := Vec.blendv grad_fvec2 exp_avg_fvec2 mask
  let exp_avg_fvec2 : Vec α := Vec.fmadd coeff (grad_fvec2 - exp_avg_fvec2) base2
  let m := { m with exp_avg := Vec.store exp_avg_fvec m.exp_avg p F }
  let m := { m with exp_avg := Vec.store exp_avg_fvec2 m.exp_avg (p + F) F }
  let exp_avg_sq_fvec : Vec α :=
    Vec.loadu m.exp_avg_sq p * Vec.const s.beta2 +
      Vec.const s.exp_avg_sq_grad_coefficient * grad_fvec * grad_fvec
  let exp_avg_sq_fvec2 : Vec α :=
    Vec.loadu m.exp_avg_sq (p + F) * Vec.const s.beta2 +
      Vec.const s.exp_avg_sq_grad_coefficient * grad_fvec2 * grad_fvec2
  let m := { m with exp_avg_sq := Vec.store exp_avg_sq_fvec m.exp_avg_sq p F }
  let m := { m with exp_avg_sq := Vec.store exp_avg_sq_fvec2 m.exp_avg_sq (p + F) F }
  if amsgrad then
    let max_exp_avg_sq_fvec : Vec α :=
      Vec.maximum (Vec.loadu m.max_exp_avg_sq p) exp_avg_sq_fvec
    let max_exp_avg_sq_fvec2 : Vec α :=
      Vec.maximum (Vec.loadu m.max_exp_avg_sq (p + F)) exp_avg_sq_fvec2
    let m := { m with max_exp_avg_sq := Vec.store max_exp_avg_sq_fvec m.max_exp_avg_sq p F }
    let m := { m with
      max_exp_avg_sq := Vec.store max_exp_avg_sq_fvec2 m.max_exp_avg_sq (p + F) F }
    let denom_fvec : Vec α :=
      Vec.sqrt env max_exp_avg_sq_fvec / Vec.const s.bias_correction2_sqrt + Vec.const s.eps
    let denom_fvec2 : Vec α :=
      Vec.sqrt env max_exp_avg_sq_fvec2 / Vec.const s.bias_correction2_sqrt + Vec.const s.eps
    let param_fvec : Vec α := param_fvec - Vec.const s.step_size * exp_avg_fvec / denom_fvec
    let param_fvec2 : Vec α := param_fvec2 - Vec.const s.step_size * exp_avg_fvec2 / denom_fvec2
    let param_b := Vec.unpack_float_bfloat16 env F param_fvec param_fvec2
    let m := { m with param := Vec.store param_b.1 m.param p (2 * F) }
    { m with param2 := Vec.store param_b.2 m.param2 p (2 * F) }
  else
    let denom_fvec : Vec α :=
      Vec.sqrt env exp_avg_sq_fvec / Vec.const s.bias_correction2_sqrt + Vec.const s.eps
    let denom_fvec2 : Vec α :=
      Vec.sqrt env exp_avg_sq_fvec2 / Vec.const s.bias_correction2_sqrt + Vec.const s.eps
    let param_fvec : Vec α := param_fvec - Vec.const s.step_size * exp_avg_fvec / denom_fvec
    let param_fvec2 : Vec α := param_fvec2 - Vec.const s.step_size * exp_avg_fvec2 / denom_fvec2
    let param_b := Vec.unpack_float_bfloat16 env F param_fvec param_fvec2
    let m := { m with param := Vec.store param_b.1 m.param p (2 * F) }
    { m with param2 := Vec.store param_b.2 m.param2 p (2 * F) }

/-- Kernel `<at::BFloat16, at::BFloat16>`, one iteration of the remainder loop (source lines
283-316). -/
def scalar_body_bf16 (env : Env α) (s : Scalars α) (amsgrad : Bool) (begin_ d : Nat)
    (m : Bufs α) : Bufs α :=
  let i := begin_ + d
  let param_val := env.pack_bfloat16_float (rd m.param i) (rd m.param2 i)
  let grad_val := rd m.grad i
  let grad_val := if s.weight_decay ≠ 0 then grad_val + param_val * s.weight_decay else grad_val
  let is_lerp_weight_small : Bool := decide (|s.exp_avg_grad_coefficient| < 1 / 2)
  let m :=
    if is_lerp_weight_small then
      let v := rd m.exp_avg i + s.exp_avg_grad_coefficient * (grad_val - rd m.exp_avg i)
      { m with exp_avg := m.exp_avg.set i v }
    else
      let v := grad_val - (grad_val - rd m.exp_avg i) * (1 - s.exp_avg_grad_coefficient)
      { m with exp_avg := m.exp_avg.set i v }
  let v := rd m.exp_avg_sq i * s.beta2 + s.exp_avg_sq_grad_coefficient * grad_val * grad_val
  let m := { m with exp_avg_sq := m.exp_avg_sq.set i v }
  if amsgrad then
    let v := std_max (rd m.max_exp_avg_sq i) (rd m.exp_avg_sq i)
    let m := { m with max_exp_avg_sq := m.max_exp_avg_sq.set i v }
    let demon_val := env.sqrt (rd m.max_exp_avg_sq i) / s.bias_correction2_sqrt + s.eps
    let param_val := param_val - s.step_size * rd m.exp_avg i / demon_val
    let pr := env.unpack_float_bfloat16 param_val
    let m := { m with param := m.param.set i pr.1 }
    { m with param2 := m.param2.set i pr.2 }
  else
    let demon_val := env.sqrt (rd m.exp_avg_sq i) / s.bias_correction2_sqrt + s.eps
    let param_val := param_val - s.step_size * rd m.exp_avg i / demon_val
    let pr := env.unpack_float_bfloat16 param_val
    let m := { m with param := m.param.set i pr.1 }
    { m with param2 := m.param2.set i pr.2 }

/-- Kernel `<at::BFloat16, at::BFloat16>`, the lambda given to `at::parallel_for`. -/
def range_body_bf16 (env : Env α) (s : Scalars α) (amsgrad : Bool)
    (begin_ end_ : Nat) (m : Bufs α) : Bufs α :=
  range_loops (vec_body_bf16 env s amsgrad begin_) (scalar_body_bf16 env s amsgrad begin_)
    env.bVec_size begin_ end_ m

/-- The specialization `adam_fused_step_kernel<at::BFloat16, at::BFloat16>` on the working
tensors `t` (source lines 137-319). -/
def adam_fused_step_kernel_bf16 (env : Env α) (t : Tensors α)
    (amsgrad : Bool) (s : Scalars α) : Option Error × Tensors α :=
  match reduced_checks ScalarType.BFloat16 "at::BFloat16" t with
  | .error e => (some e, t)
  | .ok _ =>
    match reduced_data_ptrs ScalarType.BFloat16 t with
    | .error e => (some e, t)
    | .ok _ =>
      (none, t.with_bufs
        (run_parallel_for env 0 t.param.numel 512 (range_body_bf16 env s amsgrad) t.bufs))

/-- Kernel `<float, at::BFloat16>`, one iteration of the vectorized loop (source lines
393-461): float parameter, bfloat16 gradient, `param2` kept as the bfloat16 image of `param`. -/
def vec_body_float_bf16 (env : Env α) (s : Scalars α) (amsgrad : Bool) (begin_ d : Nat)
    (m : Bufs α) : Bufs α :=
  let F := env.fVec_size
  let p := begin_ + d
  let grad_bvec : Vec α := Vec.loadu m.grad p
  let grad_f := Vec.convert_bfloat16_float F grad_bvec
  let param_fvec : Vec α := Vec.loadu m.param p
  let param_fvec2 : Vec α := Vec.loadu m.param (p + F)
  let grad_w : Vec α × Vec α :=
    if s.weight_decay ≠ 0 then
      (grad_f.1 + param_fvec * Vec.const s.weight_decay,
       grad_f.2 + param_fvec2 * Vec.const s.weight_decay)
    else grad_f
  let grad_fvec : Vec α := grad_w.1
  let grad_fvec2 : Vec α := grad_w.2
  let exp_avg_fvec : Vec α := Vec.loadu m.exp_avg p
  let exp_avg_fvec2 : Vec α := Vec.loadu m.exp_avg (p + F)
  let lerp_weight : Vec α := Vec.const s.exp_avg_grad_coefficient
  let mask := Vec.lt (Vec.abs lerp_weight) (Vec.const (1 / 2))
  let coeff := Vec.blendv (lerp_weight - Vec.const 1) lerp_weight mask
  let base := Vec.blendv grad_fvec exp_avg_fvec mask
  let exp_avg_fvec : Vec α := Vec.fmadd coeff (grad_fvec - exp_avg_fvec) base
  let base2 := Vec.blendv grad_fvec2 exp_avg_fvec2 mask
  let exp_avg_fvec2 : Vec α := Vec.fmadd coeff (grad_fvec2 - exp_avg_fvec2) base2
  let m := { m with exp_avg := Vec.store exp_avg_fvec m.exp_avg p F }
  let m := { m with exp_avg := Vec.store exp_avg_fvec2 m.exp_avg (p + F) F }
  let exp_avg_sq_fvec : Vec α :=
    Vec.loadu m.exp_avg_sq p * Vec.const s.beta2 +
      Vec.const s.exp_avg_sq_grad_coefficient * grad_fvec * grad_fvec
  let exp_avg_sq_fvec2 : Vec α :=
    Vec.loadu m.exp_avg_sq (p + F) * Vec.const s.beta2 +
      Vec.const s.exp_avg_sq_grad_coefficient * grad_fvec2 * grad_fvec2
  let m := { m with exp_avg_sq := Vec.store exp_avg_sq_fvec m.exp_avg_sq p F }
  let m := { m with exp_avg_sq := Vec.store exp_avg_sq_fvec2 m.exp_avg_sq (p + F) F }
  if amsgrad then
    let max_exp_avg_sq_fvec : Vec α :=
      Vec.maximum (Vec.loadu m.max_exp_avg_sq p) exp_avg_sq_fvec
    let max_exp_avg_sq_fvec2 : Vec α :=
      Vec.maximum (Vec.loadu m.max_exp_avg_sq (p + F)) exp_avg_sq_fvec2
    let m := { m with max_exp_avg_sq := Vec.store max_exp_avg_sq_fvec m.max_exp_avg_sq p F }
    let m := { m with
      max_exp_avg_sq := Vec.store max_exp_avg_sq_fvec2 m.max_exp_avg_sq (p + F) F }
    let denom_fvec : Vec α :=
      Vec.sqrt env max_exp_avg_sq_fvec / Vec.const s.bias_correction2_sqrt + Vec.const s.eps
    let denom_fvec2 : Vec α :=
      Vec.sqrt env max_exp_avg_sq_fvec2 / Vec.const s.bias_correction2_sqrt + Vec.const s.eps
    let param_fvec : Vec α := param_fvec - Vec.const s.step_size * exp_avg_fvec / denom_fvec
    let param_fvec2 : Vec α := param_fvec2 - Vec.const s.step_size * exp_avg_fvec2 / denom_fvec2
    let m := { m with param := Vec.store param_fvec m.param p F }
    let m := { m with param := Vec.store param_fvec2 m.param (p + F) F }
    let param2_bvec := Vec.convert_float_bfloat16 env F param_fvec param_fvec2
    { m with param2 := Vec.store param2_bvec m.param2 p (2 * F) }
  else
    let denom_fvec : Vec α :=
      Vec.sqrt env exp_avg_sq_fvec / Vec.const s.bias_correction2_sqrt + Vec.const s.eps
    let denom_fvec2 : Vec α :=
      Vec.sqrt env exp_avg_sq_fvec2 / Vec.const s.bias_correction2_sqrt + Vec.const s.eps
    let param_fvec : Vec α := param_fvec - Vec.const s.step_size * exp_avg_fvec / denom_fvec
    let param_fvec2 : Vec α := param_fvec2 - Vec.const s.step_size * exp_avg_fvec2 / denom_fvec2
    let m := { m with param := Vec.store param_fvec m.param p F }
    let m := { m with param := Vec.store param_fvec2 m.param (p + F) F }
    let param2_bvec := Vec.convert_float_bfloat16 env F param_fvec param_fvec2
    { m with param2 := Vec.store param2_bvec m.param2 p (2 * F) }

/-- Kernel `<float, at::BFloat16>`, one iteration of the remainder loop (source lines
464-494). -/
def scalar_body_float_bf16 (env : Env α) (s : Scalars α) (amsgrad : Bool) (begin_ d : Nat)
    (m : Bufs α) : Bufs α :=
  let i := begin_ + d
  let grad_val := rd m.grad i
  let grad_val := if s.weight_decay ≠ 0 then grad_val + rd m.param i * s.weight_decay else grad_val
  let is_lerp_weight_small : Bool := decide (|s.exp_avg_grad_coefficient| < 1 / 2)
  let m :=
    if is_lerp_weight_small then
      let v := rd m.exp_avg i + s.exp_avg_grad_coefficient * (grad_val - rd m.exp_avg i)
      { m with exp_avg := m.exp_avg.set i v }
    else
      let v := grad_val - (grad_val - rd m.exp_avg i) * (1 - s.exp_avg_grad_coefficient)
      { m with exp_avg := m.exp_avg.set i v }
  let v := rd m.exp_avg_sq i * s.beta2 + s.exp_avg_sq_grad_coefficient * grad_val * grad_val
  let m := { m with exp_avg_sq := m.exp_avg_sq.set i v }
  if amsgrad then
    let v := std_max (rd m.max_exp_avg_sq i) (rd m.exp_avg_sq i)
    let m := { m with max_exp_avg_sq := m.max_exp_avg_sq.set i v }
    let demon_val := env.sqrt (rd m.max_exp_avg_sq i) / s.bias_correction2_sqrt + s.eps
    let m := { m with
      param := m.param.set i (rd m.param i - s.step_size * rd m.exp_avg i / demon_val) }
    { m with param2 := m.param2.set i (env.to_BFloat16 (rd m.param i)) }
  else
    let demon_val := env.sqrt (rd m.exp_avg_sq i) / s.bias_correction2_sqrt + s.eps
    let m := { m with
      param := m.param.set i (rd m.param i - s.step_size * rd m.exp_avg i / demon_val) }
    { m with param2 := m.param2.set i (env.to_BFloat16 (rd m.param i)) }

/-- Kernel `<float, at::BFloat16>`, the lambda given to `at::parallel_for`. -/
def range_body_float_bf16 (env : Env α) (s : Scalars α) (amsgrad : Bool)
    (begin_ end_ : Nat) (m : Bufs α) : Bufs α :=
  range_loops (vec_body_float_bf16 env s amsgrad begin_)
    (scalar_body_float_bf16 env s amsgrad begin_) env.bVec_size begin_ end_ m

/-- The specialization `adam_fused_step_kernel<float, at::BFloat16>` on the working tensors
`t` (source lines 321-497). -/
def adam_fused_step_kernel_float_bf16 (env : Env α) (t : Tensors α)
    (amsgrad : Bool) (s : Scalars α) : Option Error × Tensors α :=
  match reduced_checks ScalarType.Float "at::Float" t with
  | .error e => (some e, t)
  | .ok _ =>
    match reduced_data_ptrs ScalarType.Float t with
    | .error e => (some e, t)
    | .ok _ =>
      (none, t.with_bufs
        (run_parallel_for env 0 t.param.numel 512 (range_body_float_bf16 env s amsgrad) t.bufs))

end Reduced

section Dispatch

variable {α : Type} [LinearOrderedField α]

/-- The four kernel instantiations, named by their template arguments. -/
inductive Variant
  | float_float
  | double_double
  | bfloat16_bfloat16
  | float_bfloat16
  deriving DecidableEq, Repr

/-- The `if` / `else if` chain of the dispatcher (source lines 531-605): the kernel it
calls, or `none` when it reaches the final `TORCH_CHECK(false, ...)`. -/
def select_kernel (grad_dtype param_dtype : ScalarType) : Option Variant :=
  if ScalarType.Float = grad_dtype then some .float_float
  else if ScalarType.Double = grad_dtype then some .double_double
  else if ScalarType.BFloat16 = grad_dtype ∧ ScalarType.BFloat16 = param_dtype then
    some .bfloat16_bfloat16
  else if ScalarType.BFloat16 = grad_dtype ∧ ScalarType.Float = param_dtype then
    some .float_bfloat16
  else none

/-- Call of the kernel instantiation `v`. -/
def run_kernel (env : Env α) (v : Variant) (t : Tensors α) (amsgrad : Bool) (s : Scalars α) :
    Option Error × Tensors α :=
  match v with
  | .float_float => adam_fused_step_kernel env .float t amsgrad s
  | .double_double => adam_fused_step_kernel env .double t amsgrad s
  | .bfloat16_bfloat16 => adam_fused_step_kernel_bf16 env t amsgrad s
  | .float_bfloat16 => adam_fused_step_kernel_float_bf16 env t amsgrad s

/-- Local `bias_correction1` of the dispatcher (source line 524). -/
def bias_correction1 (env : Env α) (beta1 step : α) : α := 1 - env.pow beta1 step

/-- Local `step_size` of the dispatcher (source line 525). -/
def step_size (env : Env α) (learning_rate beta1 step : α) : α :=
  learning_rate / bias_correction1 env beta1 step

/-- Local `bias_correction2` of the dispatcher (source line 526). -/
def bias_correction2 (env : Env α) (beta2 step : α) : α := 1 - env.pow beta2 step

/-- Local `bias_correction2_sqrt` of the dispatcher (source line 527). -/
def bias_correction2_sqrt (env : Env α) (beta2 step : α) : α :=
  env.sqrt (bias_correction2 env beta2 step)

/-- The scalar arguments the dispatcher hands to whichever kernel it selects
(source lines 540-547 and the three sibling calls). -/
def kernel_scalars (env : Env α) (step beta1 beta2 learning_rate weight_decay eps : α) :
    Scalars α :=
  { beta2 := beta2
    learning_rate := learning_rate
    weight_decay := weight_decay
    eps := eps
    step_size := step_size env learning_rate beta1 step
    bias_correction2_sqrt := bias_correction2_sqrt env beta2 step
    exp_avg_grad_coefficient := 1 - beta1
    exp_avg_sq_grad_coefficient := 1 - beta2 }

/-- The working tensors of the dispatcher (source lines 513-518). -/
def Tensors.contiguous (t : Tensors α) : Tensors α :=
  { param := t.param.contiguous, exp_avg := t.exp_avg.contiguous,
    exp_avg_sq := t.exp_avg_sq.contiguous, max_exp_avg_sq := t.max_exp_avg_sq.contiguous,
    grad := t.grad.contiguous, param2 := t.param2.contiguous }

/-- The conditional copy `if (!orig.is_contiguous()) orig.copy_(work)` applied to what the
caller sees of `orig`. -/
def copy_back (orig work : Tensor α) : Tensor α :=
  if !orig.is_contiguous then (orig.view_after work).copy_ work else orig.view_after work

/-- The caller-visible tensors after the kernel returned or threw with working tensors `w`:
after a throw the copies of source lines 607-621 are not reached; `grad_` is never copied. -/
def caller_view (t_ : Tensors α) (r : Option Error × Tensors α) : Outcome α :=
  match r.1 with
  | some e =>
    { error := some e
      mem :=
        { param := t_.param.view_after r.2.param
          exp_avg := t_.exp_avg.view_after r.2.exp_avg
          exp_avg_sq := t_.exp_avg_sq.view_after r.2.exp_avg_sq
          max_exp_avg_sq := t_.max_exp_avg_sq.view_after r.2.max_exp_avg_sq
          grad := t_.grad.view_after r.2.grad
          param2 := t_.param2.view_after r.2.param2 } }
  | none =>
    { error := none
      mem :=
        { param := copy_back t_.param r.2.param
          exp_avg := copy_back t_.exp_avg r.2.exp_avg
          exp_avg_sq := copy_back t_.exp_avg_sq r.2.exp_avg_sq
          max_exp_avg_sq := copy_back t_.max_exp_avg_sq r.2.max_exp_avg_sq
          grad := t_.grad.view_after r.2.grad
          param2 := copy_back t_.param2 r.2.param2 } }

/-- The dispatcher `adam_fused_step_kernel_impl` (source lines 499-622). -/
def adam_fused_step_kernel_impl (env : Env α) (t_ : Tensors α) (amsgrad : Bool)
    (step beta1 beta2 learning_rate weight_decay eps : α) : Outcome α :=
  let t := t_.contiguous
  let grad_dtype := t_.grad.scalar_type
  let param_dtype := t_.param.scalar_type
  let s := kernel_scalars env step beta1 beta2 learning_rate weight_decay eps
  match select_kernel grad_dtype param_dtype with
  | some v => caller_view t_ (run_kernel env v t amsgrad s)
  | none => caller_view t_ (some (.check "expect bfloat16 or float or double param"), t)

end Dispatch

section Reference

/-- Rational square root used by the executable reference environment: exact on squares of
rationals, rounded down otherwise. -/
def qsqrt (x : ℚ) : ℚ := (Nat.sqrt (x.num.toNat * x.den) : ℚ) / x.den

/-- Rounding to a multiple of `1 / 256`, the reduced-precision format of the executable
reference environment. -/
def qround (x : ℚ) : ℚ := (⌊x * 256⌋ : ℚ) / 256

/-- An executable environment over `ℚ` on which the kernels can be run: integer powers,
`qsqrt`, a scheduler that hands over the whole range as one chunk, two float lanes and one
double lane, and a split representation `x = hi + lo` with `hi = qround x`. -/
def refEnv : Env ℚ :=
  { pow := fun b e => b ^ e.floor.toNat
    sqrt := qsqrt
    parallel_for := fun b e _ => if b < e then [(b, e)] else []
    fVec_size := 2
    dVec_size := 1
    convert_float_bfloat16 := qround
    to_BFloat16 := qround
    pack_bfloat16_float := fun hi lo => hi + lo
    unpack_float_bfloat16 := fun x => (qround x, x - qround x) }

/-- A contiguous tensor of the given scalar type. -/
def Tensor.of (ty : ScalarType) (data : List ℚ) : Tensor ℚ :=
  { scalar_type := ty, is_contiguous := true, data := data }

end Reference

section ElementValues

variable {α : Type} [LinearOrderedField α]

/-- The local `grad_val` of element `i` after the weight-decay statement (source lines
103-108), as an expression of the buffers read. -/
def grad_val (s : Scalars α) (m : Bufs α) (i : Nat) : α :=
  if s.weight_decay ≠ 0 then rd m.grad i + rd m.param i * s.weight_decay else rd m.grad i

/-- The value assigned to `exp_avg_ptr[d]` for element `i` (source lines 112-119). -/
def new_exp_avg (s : Scalars α) (m : Bufs α) (i : Nat) : α :=
  if |s.exp_avg_grad_coefficient| < 1 / 2 then
    rd m.exp_avg i + s.exp_avg_grad_coefficient * (grad_val s m i - rd m.exp_avg i)
  else
    grad_val s m i - (grad_val s m i - rd m.exp_avg i) * (1 - s.exp_avg_grad_coefficient)

/-- The value assigned to `exp_avg_sq_ptr[d]` for element `i` (source lines 120-121). -/
def new_exp_avg_sq (s : Scalars α) (m : Bufs α) (i : Nat) : α :=
  rd m.exp_avg_sq i * s.beta2 + s.exp_avg_sq_grad_coefficient * grad_val s m i * grad_val s m i

/-- The value assigned to `max_exp_avg_sq_ptr[d]` for element `i` under amsgrad (source
lines 124-125). -/
def new_max_exp_avg_sq (s : Scalars α) (m : Bufs α) (i : Nat) : α :=
  std_max (rd m.max_exp_avg_sq i) (new_exp_avg_sq s m i)

/-- The local `demon_val` of element `i` (source lines 126-130). -/
def demon_val (env : Env α) (s : Scalars α) (amsgrad : Bool) (m : Bufs α) (i : Nat) : α :=
  if amsgrad then env.sqrt (new_max_exp_avg_sq s m i) / s.bias_correction2_sqrt + s.eps
  else env.sqrt (new_exp_avg_sq s m i) / s.bias_correction2_sqrt + s.eps

/-- The value assigned to `param_ptr[d]` for element `i` (source line 132). -/
def new_param (env : Env α) (s : Scalars α) (amsgrad : Bool) (m : Bufs α) (i : Nat) : α :=
  rd m.param i - s.step_size * new_exp_avg s m i / demon_val env s amsgrad m i

/-- The buffers `m` are the buffers `m0` with the elements `lo ≤ i < hi` updated by the
generic kernel and every other element, `grad` and `param2` left as they were. -/
def Updated (env : Env α) (s : Scalars α) (amsgrad : Bool) (lo hi : Nat) (m0 m : Bufs α) :
    Prop :=
  m.grad = m0.grad ∧ m.param2 = m0.param2 ∧
  m.param.length = m0.param.length ∧ m.exp_avg.length = m0.exp_avg.length ∧
  m.exp_avg_sq.length = m0.exp_avg_sq.length ∧
  m.max_exp_avg_sq.length = m0.max_exp_avg_sq.length ∧
  (amsgrad = false → m.max_exp_avg_sq = m0.max_exp_avg_sq) ∧
  ∀ i,
    rd m.param i = (if lo ≤ i ∧ i < hi then new_param env s amsgrad m0 i else rd m0.param i) ∧
    rd m.exp_avg i = (if lo ≤ i ∧ i < hi then new_exp_avg s m0 i else rd m0.exp_avg i) ∧
    rd m.exp_avg_sq i =
      (if lo ≤ i ∧ i < hi then new_exp_avg_sq s m0 i else rd m0.exp_avg_sq i) ∧
    rd m.max_exp_avg_sq i =
      (if amsgrad = true ∧ lo ≤ i ∧ i < hi then new_max_exp_avg_sq s m0 i
       else rd m0.max_exp_avg_sq i)

end ElementValues

section ReferenceData

/-- Three elements on which the kernels are run in the concrete instances below: with two
float lanes, elements 0 and 1 go through the vectorized loop and element 2 through the
remainder loop. -/
def refBufs : Bufs ℚ :=
  { param := [1, 2, 3]
    exp_avg := [0, 1 / 10, 0]
    exp_avg_sq := [0, 0, 1 / 100]
    max_exp_avg_sq := [0, 0, 1]
    grad := [1 / 2, 1, -1]
    param2 := [0, 0, 0] }

/-- The single element of the scenario `param = 1`, `grad = 0.5`, zero state. -/
def oneBufs (α : Type) [LinearOrderedField α] : Bufs α :=
  { param := [1], exp_avg := [0], exp_avg_sq := [0], max_exp_avg_sq := [0],
    grad := [1 / 2], param2 := [] }

end ReferenceData

section VariantView

variable {α : Type} [LinearOrderedField α]

/-- The checks and typed accesses that open the kernel instantiation `v`, in source order. -/
def variant_checks (v : Variant) (t : Tensors α) : Except Error Unit :=
  match v with
  | .float_float => generic_data_ptrs .float t
  | .double_double => generic_data_ptrs .double t
  | .bfloat16_bfloat16 =>
    match reduced_checks ScalarType.BFloat16 "at::BFloat16" t with
    | .error e => .error e
    | .ok _ => reduced_data_ptrs ScalarType.BFloat16 t
  | .float_bfloat16 =>
    match reduced_checks ScalarType.Float "at::Float" t with
    | .error e => .error e
    | .ok _ => reduced_data_ptrs ScalarType.Float t

/-- The lambda the kernel instantiation `v` gives to `at::parallel_for`. -/
def variant_range_body (env : Env α) (v : Variant) (s : Scalars α) (amsgrad : Bool) :
    Nat → Nat → Bufs α → Bufs α :=
  match v with
  | .float_float => range_body env .float s amsgrad
  | .double_double => range_body env .double s amsgrad
  | .bfloat16_bfloat16 => range_body_bf16 env s amsgrad
  | .float_bfloat16 => range_body_float_bf16 env s amsgrad

end VariantView

section Calls

variable {α : Type} [LinearOrderedField α]

/-- The arguments that change from one step to the next: the gradient, the amsgrad flag and
the six scalars. -/
structure Call (α : Type) where
  grad : Tensor α
  amsgrad : Bool
  step : α
  beta1 : α
  beta2 : α
  learning_rate : α
  weight_decay : α
  eps : α

/-- A caller issuing a sequence of steps on the same state tensors, as the optimizer loop
around this kernel does; the tensors after the last call. -/
def run_calls (env : Env α) : Tensors α → List (Call α) → Tensors α
  | t, [] => t
  | t, c :: cs =>
    run_calls env
      (adam_fused_step_kernel_impl env { t with grad := c.grad } c.amsgrad c.step c.beta1
        c.beta2 c.learning_rate c.weight_decay c.eps).mem cs

end Calls

section Rules

variable {α : Type} [LinearOrderedField α]

/-- The values one element has in the five buffers a kernel may write. -/
@[ext]
structure Elem (α : Type) where
  param : α
  exp_avg : α
  exp_avg_sq : α
  max_exp_avg_sq : α
  param2 : α

/-- Element `i` of the five writable buffers. -/
def Bufs.elem (m : Bufs α) (i : Nat) : Elem α :=
  { param := rd m.param i
    exp_avg := rd m.exp_avg i
    exp_avg_sq := rd m.exp_avg_sq i
    max_exp_avg_sq := rd m.max_exp_avg_sq i
    param2 := rd m.param2 i }

/-- One iteration of the generic remainder loop (source lines 103-132) as a function of the
element's old values `e` and its gradient `g`. -/
def generic_rule (env : Env α) (s : Scalars α) (amsgrad : Bool) (e : Elem α) (g : α) :
    Elem α :=
  let grad_val := if s.weight_decay ≠ 0 then g + e.param * s.weight_decay else g
  let exp_avg :=
    if |s.exp_avg_grad_coefficient| < 1 / 2 then
      e.exp_avg + s.exp_avg_grad_coefficient * (grad_val - e.exp_avg)
    else grad_val - (grad_val - e.exp_avg) * (1 - s.exp_avg_grad_coefficient)
  let exp_avg_sq := e.exp_avg_sq * s.beta2 + s.exp_avg_sq_grad_coefficient * grad_val * grad_val
  let max_exp_avg_sq :=
    if amsgrad then std_max e.max_exp_avg_sq exp_avg_sq else e.max_exp_avg_sq
  let demon_val :=
    if amsgrad then env.sqrt max_exp_avg_sq / s.bias_correction2_sqrt + s.eps
    else env.sqrt exp_avg_sq / s.bias_correction2_sqrt + s.eps
  { param := e.param - s.step_size * exp_avg / demon_val
    exp_avg := exp_avg
    exp_avg_sq := exp_avg_sq
    max_exp_avg_sq := max_exp_avg_sq
    param2 := e.param2 }

/-- One iteration of the remainder loop of the `<at::BFloat16, at::BFloat16>` kernel (source
lines 283-316): the generic iteration on the float rebuilt from `(param, param2)`, the result
split again into the two buffers. -/
def bf16_rule (env : Env α) (s : Scalars α) (amsgrad : Bool) (e : Elem α) (g : α) : Elem α :=
  let r := generic_rule env s amsgrad
    { e with param := env.pack_bfloat16_float e.param e.param2 } g
  { r with
    param := (env.unpack_float_bfloat16 r.param).1
    param2 := (env.unpack_float_bfloat16 r.param).2 }

/-- One iteration of the `<float, at::BFloat16>` kernel (source lines 464-494, and 393-461
lane by lane): the generic iteration, then `param2` set to the narrowing `conv` of the new
parameter; `conv` is `at::BFloat16(float)` in the remainder loop and a lane of
`convert_float_bfloat16` in the vectorized loop. -/
def float_bf16_rule (env : Env α) (conv : α → α) (s : Scalars α) (amsgrad : Bool)
    (e : Elem α) (g : α) : Elem α :=
  let r := generic_rule env s amsgrad e g
  { r with param2 := conv r.param }

/-- The five writable buffers of `m` and `m'` have the same lengths. -/
def SameLengths (m m' : Bufs α) : Prop :=
  m.param.length = m'.param.length ∧ m.exp_avg.length = m'.exp_avg.length ∧
  m.exp_avg_sq.length = m'.exp_avg_sq.length ∧
  m.max_exp_avg_sq.length = m'.max_exp_avg_sq.length ∧
  m.param2.length = m'.param2.length

/-- The buffers `m` are the buffers `m0` with every element `i` of the index set `S`
replaced by `R i` of its old values, all other elements and `grad` being as in `m0`. -/
def UpdatedOn (R : Nat → Elem α → α → Elem α) (S : Nat → Prop) (m0 m : Bufs α) : Prop :=
  m.grad = m0.grad ∧ SameLengths m m0 ∧
  ∀ i, (S i → m.elem i = R i (m0.elem i) (rd m0.grad i)) ∧ (¬ S i → m.elem i = m0.elem i)

/-- The indices below `hi` lie within every buffer the kernel writes: `param`, `exp_avg`,
`exp_avg_sq`, `max_exp_avg_sq` under amsgrad, and `param2` in a reduced-precision kernel. -/
def Fits (amsgrad split : Bool) (hi : Nat) (m : Bufs α) : Prop :=
  hi ≤ m.param.length ∧ hi ≤ m.exp_avg.length ∧ hi ≤ m.exp_avg_sq.length ∧
  (amsgrad = true → hi ≤ m.max_exp_avg_sq.length) ∧
  (split = true → hi ≤ m.param2.length)

/-- The chunks `(begin, end)` are disjoint contiguous sub-ranges of `[0, N)` that together
cover it, in any order. -/
def IsPartition (N : Nat) (chunks : List (Nat × Nat)) : Prop :=
  (∀ c ∈ chunks, c.1 ≤ c.2 ∧ c.2 ≤ N) ∧
  chunks.Pairwise (fun c c' => c.2 ≤ c'.1 ∨ c'.2 ≤ c.1) ∧
  ∀ i, i < N → ∃ c ∈ chunks, c.1 ≤ i ∧ i < c.2

end Rules

section VariantRules

variable {α : Type} [LinearOrderedField α]

/-- Whether the kernel instantiation `v` reads or writes through its `param2` pointer: the
generic template ignores the argument, the two bfloat16 specializations take its data
pointer (source lines 178 and 362). -/
def Variant.uses_param2 : Variant → Bool
  | .float_float => false
  | .double_double => false
  | .bfloat16_bfloat16 => true
  | .float_bfloat16 => true

/-- One iteration of the remainder loop of the kernel instantiation `v` as a function of the
element's old values and its gradient. -/
def variant_rule (env : Env α) (v : Variant) (s : Scalars α) (amsgrad : Bool) :
    Elem α → α → Elem α :=
  match v with
  | .float_float => generic_rule env s amsgrad
  | .double_double => generic_rule env s amsgrad
  | .bfloat16_bfloat16 => bf16_rule env s amsgrad
  | .float_bfloat16 => float_bf16_rule env env.to_BFloat16 s amsgrad

end VariantRules

section ReferenceTensors

/-- The buffers `refBufs` as contiguous tensors of a reduced-precision call: `param` of the
given scalar type, float32 state, bfloat16 `grad` and `param2`. -/
def refTensors (param_t : ScalarType) : Tensors ℚ :=
  { param := Tensor.of param_t refBufs.param
    exp_avg := Tensor.of ScalarType.Float refBufs.exp_avg
    exp_avg_sq := Tensor.of ScalarType.Float refBufs.exp_avg_sq
    max_exp_avg_sq := Tensor.of ScalarType.Float refBufs.max_exp_avg_sq
    grad := Tensor.of ScalarType.BFloat16 refBufs.grad
    param2 := Tensor.of ScalarType.BFloat16 refBufs.param2 }

end ReferenceTensors

section Lanes

variable {α : Type}

/-- The arithmetic of `scalar_t` as the generic kernel uses it, one field per operator or
literal of the source, with no law assumed: `ne` is `!=`, `lt` is `<`, `abs` is `std::abs`
and `Vec::abs`, `std_max` is `std::max`, `maximum` is `at::vec::maximum`, `fmadd` is
`at::vec::fmadd`, and `zero`, `one`, `half` are the literals `0.f`, `1` and `0.5`. What holds
for every `Ops` holds whether or not `x + p * 0` is `x` and whether or not the two forms of
the interpolation agree. -/
structure Ops (α : Type) where
  add : α → α → α
  sub : α → α → α
  mul : α → α → α
  div : α → α → α
  abs : α → α
  lt : α → α → Bool
  ne : α → α → Bool
  std_max : α → α → α
  maximum : α → α → α
  fmadd : α → α → α → α
  zero : α
  one : α
  half : α

/-- A unary operation applied lane by lane. -/
def Vec.lift1 (f : α → α) (a : Vec α) : Vec α := fun k => f (a k)

/-- A binary operation applied lane by lane. -/
def Vec.lift2 (f : α → α → α) (a b : Vec α) : Vec α := fun k => f (a k) (b k)

/-- A ternary operation applied lane by lane. -/
def Vec.lift3 (f : α → α → α → α) (a b c : Vec α) : Vec α := fun k => f (a k) (b k) (c k)

/-- A comparison applied lane by lane: the selection mask. -/
def Vec.mask (f : α → α → Bool) (a b : Vec α) : Nat → Bool := fun k => f (a k) (b k)

end Lanes

section Operations

variable {α : Type} [LinearOrderedField α]

/-- The exact arithmetic of the ordered field `α`. -/
def fieldOps (α : Type) [LinearOrderedField α] : Ops α :=
  { add := fun a b => a + b
    sub := fun a b => a - b
    mul := fun a b => a * b
    div := fun a b => a / b
    abs := fun a => |a|
    lt := fun a b => decide (a < b)
    ne := fun a b => decide (a ≠ b)
    std_max := std_max
    maximum := max
    fmadd := fun a b c => a * b + c
    zero := 0
    one := 1
    half := 1 / 2 }

/-- Generic kernel, one iteration of the vectorized loop (source lines 65-100) on the
operations `A`: `L` lanes, local pointers `ptr = data + begin_`. -/
def vec_body_ops (A : Ops α) (env : Env α) (L : Nat) (s : Scalars α) (amsgrad : Bool)
    (begin_ d : Nat) (m : Bufs α) : Bufs α :=
  let p := begin_ + d
  let param_vec : Vec α := Vec.loadu m.param p
  let grad_vec : Vec α := Vec.loadu m.grad p
  let grad_vec : Vec α :=
    if A.ne s.weight_decay A.zero then
      Vec.lift2 A.add grad_vec (Vec.lift2 A.mul param_vec (Vec.const s.weight_decay))
    else grad_vec
  let exp_avg_vec : Vec α := Vec.loadu m.exp_avg p
  let lerp_weight : Vec α := Vec.const s.exp_avg_grad_coefficient
  let mask := Vec.mask A.lt (Vec.lift1 A.abs lerp_weight) (Vec.const A.half)
  let coeff := Vec.blendv (Vec.lift2 A.sub lerp_weight (Vec.const A.one)) lerp_weight mask
  let base := Vec.blendv grad_vec exp_avg_vec mask
  let exp_avg_vec : Vec α :=
    Vec.lift3 A.fmadd coeff (Vec.lift2 A.sub grad_vec exp_avg_vec) base
  let exp_avg_sq_vec : Vec α :=
    Vec.lift2 A.add (Vec.lift2 A.mul (Vec.loadu m.exp_avg_sq p) (Vec.const s.beta2))
      (Vec.lift2 A.mul (Vec.lift2 A.mul (Vec.const s.exp_avg_sq_grad_coefficient) grad_vec)
        grad_vec)
  let m := { m with exp_avg := Vec.store exp_avg_vec m.exp_avg p L }
  let m := { m with exp_avg_sq := Vec.store exp_avg_sq_vec m.exp_avg_sq p L }
  if amsgrad then
    let max_exp_avg_sq_vec : Vec α :=
      Vec.lift2 A.maximum (Vec.loadu m.max_exp_avg_sq p) exp_avg_sq_vec
    let m := { m with max_exp_avg_sq := Vec.store max_exp_avg_sq_vec m.max_exp_avg_sq p L }
    let denom_vec : Vec α :=
      Vec.lift2 A.add
        (Vec.lift2 A.div (Vec.sqrt env max_exp_avg_sq_vec) (Vec.const s.bias_correction2_sqrt))
        (Vec.const s.eps)
    let param_vec : Vec α :=
      Vec.lift2 A.sub param_vec
        (Vec.lift2 A.div (Vec.lift2 A.mul (Vec.const s.step_size) exp_avg_vec) denom_vec)
    { m with param := Vec.store param_vec m.param p L }
  else
    let denom_vec : Vec α :=
      Vec.lift2 A.add
        (Vec.lift2 A.div (Vec.sqrt env exp_avg_sq_vec) (Vec.const s.bias_correction2_sqrt))
        (Vec.const s.eps)
    let param_vec : Vec α :=
      Vec.lift2 A.sub param_vec
        (Vec.lift2 A.div (Vec.lift2 A.mul (Vec.const s.step_size) exp_avg_vec) denom_vec)
    { m with param := Vec.store param_vec m.param p L }

/-- Generic kernel, one iteration of the remainder loop (source lines 103-132) on the
operations `A`. -/
def scalar_body_ops (A : Ops α) (env : Env α) (s : Scalars α) (amsgrad : Bool)
    (begin_ d : Nat) (m : Bufs α) : Bufs α :=
  let i := begin_ + d
  let grad_val := rd m.grad i
  let grad_val :=
    if A.ne s.weight_decay A.zero then A.add grad_val (A.mul (rd m.param i) s.weight_decay)
    else grad_val
  let is_lerp_weight_small : Bool := A.lt (A.abs s.exp_avg_grad_coefficient) A.half
  let m :=
    if is_lerp_weight_small then
      let v := A.add (rd m.exp_avg i)
        (A.mul s.exp_avg_grad_coefficient (A.sub grad_val (rd m.exp_avg i)))
      { m with exp_avg := m.exp_avg.set i v }
    else
      let v := A.sub grad_val
        (A.mul (A.sub grad_val (rd m.exp_avg i)) (A.sub A.one s.exp_avg_grad_coefficient))
      { m with exp_avg := m.exp_avg.set i v }
  let v := A.add (A.mul (rd m.exp_avg_sq i) s.beta2)
    (A.mul (A.mul s.exp_avg_sq_grad_coefficient grad_val) grad_val)
  let m := { m with exp_avg_sq := m.exp_avg_sq.set i v }
  if amsgrad then
    let v := A.std_max (rd m.max_exp_avg_sq i) (rd m.exp_avg_sq i)
    let m := { m with max_exp_avg_sq := m.max_exp_avg_sq.set i v }
    let demon_val :=
      A.add (A.div (env.sqrt (rd m.max_exp_avg_sq i)) s.bias_correction2_sqrt) s.eps
    { m with
      param := m.param.set i
        (A.sub (rd m.param i) (A.div (A.mul s.step_size (rd m.exp_avg i)) demon_val)) }
  else
    let demon_val :=
      A.add (A.div (env.sqrt (rd m.exp_avg_sq i)) s.bias_correction2_sqrt) s.eps
    { m with
      param := m.param.set i
        (A.sub (rd m.param i) (A.div (A.mul s.step_size (rd m.exp_avg i)) demon_val)) }

/-- Generic kernel, the lambda given to `at::parallel_for` (source lines 53-134) on the
operations `A`. -/
def range_body_ops (A : Ops α) (env : Env α) (scalar_t : PlainType) (s : Scalars α)
    (amsgrad : Bool) (begin_ end_ : Nat) (m : Bufs α) : Bufs α :=
  range_loops (vec_body_ops A env (env.Vec_size scalar_t) s amsgrad begin_)
    (scalar_body_ops A env s amsgrad begin_) (env.Vec_size scalar_t) begin_ end_ m

/-- The local `grad_val` after the weight-decay statement (source lines 66-71 and 103-108) on
the operations `A`, from the values `param` and `grad` of the element. -/
def ops_grad_val (A : Ops α) (s : Scalars α) (param grad : α) : α :=
  if A.ne s.weight_decay A.zero then A.add grad (A.mul param s.weight_decay) else grad

/-- The statements of the remainder loop after the weight decay (source lines 109-132) as a
function of the element's old values `e` and the local `grad_val`. -/
def scalar_steps (A : Ops α) (env : Env α) (s : Scalars α) (amsgrad : Bool) (e : Elem α)
    (grad_val : α) : Elem α :=
  let exp_avg :=
    if A.lt (A.abs s.exp_avg_grad_coefficient) A.half then
      A.add e.exp_avg (A.mul s.exp_avg_grad_coefficient (A.sub grad_val e.exp_avg))
    else A.sub grad_val (A.mul (A.sub grad_val e.exp_avg) (A.sub A.one s.exp_avg_grad_coefficient))
  let exp_avg_sq := A.add (A.mul e.exp_avg_sq s.beta2)
    (A.mul (A.mul s.exp_avg_sq_grad_coefficient grad_val) grad_val)
  let max_exp_avg_sq :=
    if amsgrad then A.std_max e.max_exp_avg_sq exp_avg_sq else e.max_exp_avg_sq
  let demon_val :=
    if amsgrad then A.add (A.div (env.sqrt max_exp_avg_sq) s.bias_correction2_sqrt) s.eps
    else A.add (A.div (env.sqrt exp_avg_sq) s.bias_correction2_sqrt) s.eps
  { param := A.sub e.param (A.div (A.mul s.step_size exp_avg) demon_val)
    exp_avg := exp_avg
    exp_avg_sq := exp_avg_sq
    max_exp_avg_sq := max_exp_avg_sq
    param2 := e.param2 }

/-- The statements of the vectorized loop after the weight decay (source lines 73-100), one
lane, as a function of the element's old values `e` and its lane of `grad_vec`. -/
def vec_steps (A : Ops α) (env : Env α) (s : Scalars α) (amsgrad : Bool) (e : Elem α)
    (grad_val : α) : Elem α :=
  let mask := A.lt (A.abs s.exp_avg_grad_coefficient) A.half
  let coeff :=
    if mask then s.exp_avg_grad_coefficient else A.sub s.exp_avg_grad_coefficient A.one
  let base := if mask then e.exp_avg else grad_val
  let exp_avg := A.fmadd coeff (A.sub grad_val e.exp_avg) base
  let exp_avg_sq := A.add (A.mul e.exp_avg_sq s.beta2)
    (A.mul (A.mul s.exp_avg_sq_grad_coefficient grad_val) grad_val)
  let max_exp_avg_sq :=
    if amsgrad then A.maximum e.max_exp_avg_sq exp_avg_sq else e.max_exp_avg_sq
  let demon_val :=
    if amsgrad then A.add (A.div (env.sqrt max_exp_avg_sq) s.bias_correction2_sqrt) s.eps
    else A.add (A.div (env.sqrt exp_avg_sq) s.bias_correction2_sqrt) s.eps
  { param := A.sub e.param (A.div (A.mul s.step_size exp_avg) demon_val)
    exp_avg := exp_avg
    exp_avg_sq := exp_avg_sq
    max_exp_avg_sq := max_exp_avg_sq
    param2 := e.param2 }

end Operations

/-! ## Lemmas and theorems -/

section BufferLemmas

variable {α : Type}

theorem rd_set [Zero α] (buf : List α) (i j : Nat) (v : α) :
    rd (buf.set i v) j = if i = j ∧ j < buf.length then v else rd buf j := by
  unfold rd
  by_cases h : i = j
  · subst h
    by_cases hl : i < buf.length
    · simp [List.getD_eq_getElem?_getD, List.getElem?_set, hl]
    · have hn : buf[i]? = none := List.getElem?_eq_none (by omega)
      simp [List.getD_eq_getElem?_getD, List.getElem?_set, hl, hn]
  · simp [List.getD_eq_getElem?_getD, List.getElem?_set, h]

theorem length_store (v : Vec α) (buf : List α) (p n : Nat) :
    (Vec.store v buf p n).length = buf.length := by
  induction n with
  | zero => rfl
  | succ n ih => simp [Vec.store, ih]

theorem rd_store [Zero α] (v : Vec α) (buf : List α) (p n j : Nat) :
    rd (Vec.store v buf p n) j =
      if p ≤ j ∧ j < p + n ∧ j < buf.length then v (j - p) else rd buf j := by
  induction n with
  | zero =>
    have h : ¬ (p ≤ j ∧ j < p + 0 ∧ j < buf.length) := by omega
    simp only [Vec.store, if_neg h]
  | succ n ih =>
    simp only [Vec.store, rd_set, length_store, ih]
    by_cases h1 : p + n = j
    · subst h1
      by_cases hl : p + n < buf.length
      · simp [hl]
      · simp [hl]
    · by_cases h2 : p ≤ j ∧ j < p + n ∧ j < buf.length
      · have h3 : p ≤ j ∧ j < p + (n + 1) ∧ j < buf.length := ⟨h2.1, by omega, h2.2.2⟩
        simp [h1, h2, h3]
      · have h3 : ¬ (p ≤ j ∧ j < p + (n + 1) ∧ j < buf.length) := by
          intro h; apply h2; exact ⟨h.1, by omega, h.2.2⟩
        simp [h1, h2, h3]

end BufferLemmas

section DispatcherScalars

/-- C1: the dispatcher computes `bias_correction1 = 1 - beta1^step`,
`step_size = learning_rate / bias_correction1`, `bias_correction2 = 1 - beta2^step`,
`bias_correction2_sqrt = sqrt bias_correction2` and the coefficients `1 - beta1`, `1 - beta2`
once, and the call is the selected kernel run on exactly these scalars; with real powers,
`step = 1`, `beta1 = 0.9`, `beta2 = 0.999`, `learning_rate = 0.001` they are `0.1`, `0.01`
and `0.001`. -/
theorem C1_shared_coefficients :
    (∀ (α : Type) [LinearOrderedField α] (env : Env α) (t_ : Tensors α) (amsgrad : Bool)
        (step beta1 beta2 learning_rate weight_decay eps : α),
      bias_correction1 env beta1 step = 1 - env.pow beta1 step ∧
      step_size env learning_rate beta1 step = learning_rate / bias_correction1 env beta1 step ∧
      bias_correction2 env beta2 step = 1 - env.pow beta2 step ∧
      bias_correction2_sqrt env beta2 step = env.sqrt (bias_correction2 env beta2 step) ∧
      adam_fused_step_kernel_impl env t_ amsgrad step beta1 beta2 learning_rate weight_decay eps =
        (match select_kernel t_.grad.scalar_type t_.param.scalar_type with
         | some v =>
           caller_view t_ (run_kernel env v t_.contiguous amsgrad
             { beta2 := beta2
               learning_rate := learning_rate
               weight_decay := weight_decay
               eps := eps
               step_size := learning_rate / (1 - env.pow beta1 step)
               bias_correction2_sqrt := env.sqrt (1 - env.pow beta2 step)
               exp_avg_grad_coefficient := 1 - beta1
               exp_avg_sq_grad_coefficient := 1 - beta2 })
         | none =>
           caller_view t_
             (some (Error.check "expect bfloat16 or float or double param"), t_.contiguous))) ∧
    (∀ env : Env ℝ,
      bias_correction1 { env with pow := Real.rpow } (9 / 10) 1 = 1 / 10 ∧
      step_size { env with pow := Real.rpow } (1 / 1000) (9 / 10) 1 = 1 / 100 ∧
      bias_correction2 { env with pow := Real.rpow } (999 / 1000) 1 = 1 / 1000) := by
  refine ⟨?_, ?_⟩
  · intro α _ env t_ amsgrad step beta1 beta2 learning_rate weight_decay eps
    exact ⟨rfl, rfl, rfl, rfl, rfl⟩
  · intro env
    simp only [bias_correction1, step_size, bias_correction2, Real.rpow_eq_pow, Real.rpow_one]
    norm_num

end DispatcherScalars

section LoopLemmas

variable {α : Type}

theorem vec_loop_pres (Q : Bufs α → Prop) (body : Nat → Bufs α → Bufs α)
    (hb : ∀ d m, Q m → Q (body d m)) (size L : Nat) :
    ∀ fuel d m, Q m → Q (vec_loop body size L fuel d m).2 := by
  intro fuel
  induction fuel with
  | zero => intro d m h; exact h
  | succ fuel ih =>
    intro d m h
    unfold vec_loop
    split
    · exact ih _ _ (hb d m h)
    · exact h

theorem scalar_loop_pres (Q : Bufs α → Prop) (body : Nat → Bufs α → Bufs α)
    (hb : ∀ d m, Q m → Q (body d m)) (size : Nat) :
    ∀ fuel d m, Q m → Q (scalar_loop body size fuel d m) := by
  intro fuel
  induction fuel with
  | zero => intro d m h; exact h
  | succ fuel ih =>
    intro d m h
    unfold scalar_loop
    split
    · exact ih _ _ (hb d m h)
    · exact h

theorem range_loops_pres (Q : Bufs α → Prop) (vbody sbody : Nat → Bufs α → Bufs α)
    (hv : ∀ d m, Q m → Q (vbody d m)) (hs : ∀ d m, Q m → Q (sbody d m))
    (L begin_ end_ : Nat) (m : Bufs α) (h : Q m) :
    Q (range_loops vbody sbody L begin_ end_ m) := by
  unfold range_loops
  exact scalar_loop_pres Q sbody hs _ _ _ _ (vec_loop_pres Q vbody hv _ _ _ _ _ h)

theorem run_parallel_for_pres (Q : Bufs α → Prop) (env : Env α)
    (f : Nat → Nat → Bufs α → Bufs α) (hf : ∀ b e m, Q m → Q (f b e m))
    (b e grain : Nat) (m : Bufs α) (h : Q m) :
    Q (run_parallel_for env b e grain f m) := by
  unfold run_parallel_for
  generalize env.parallel_for b e grain = chunks
  induction chunks generalizing m with
  | nil => exact h
  | cons c cs ih => exact ih _ (hf c.1 c.2 m h)

end LoopLemmas

section Frame

variable {α : Type} [LinearOrderedField α]

theorem vec_body_grad (env : Env α) (L : Nat) (s : Scalars α) (amsgrad : Bool)
    (begin_ d : Nat) (m : Bufs α) : (vec_body env L s amsgrad begin_ d m).grad = m.grad := by
  cases amsgrad <;> rfl

theorem scalar_body_grad (env : Env α) (s : Scalars α) (amsgrad : Bool)
    (begin_ d : Nat) (m : Bufs α) : (scalar_body env s amsgrad begin_ d m).grad = m.grad := by
  unfold scalar_body
  by_cases h : |s.exp_avg_grad_coefficient| < 1 / 2 <;> cases amsgrad <;>
    simp only [h, decide_True, decide_False, if_true, if_false, Bool.false_eq_true]

theorem vec_body_bf16_grad (env : Env α) (s : Scalars α) (amsgrad : Bool)
    (begin_ d : Nat) (m : Bufs α) : (vec_body_bf16 env s amsgrad begin_ d m).grad = m.grad := by
  cases amsgrad <;> rfl

theorem scalar_body_bf16_grad (env : Env α) (s : Scalars α) (amsgrad : Bool)
    (begin_ d : Nat) (m : Bufs α) :
    (scalar_body_bf16 env s amsgrad begin_ d m).grad = m.grad := by
  unfold scalar_body_bf16
  by_cases h : |s.exp_avg_grad_coefficient| < 1 / 2 <;> cases amsgrad <;>
    simp only [h, decide_True, decide_False, if_true, if_false, Bool.false_eq_true]

theorem vec_body_float_bf16_grad (env : Env α) (s : Scalars α) (amsgrad : Bool)
    (begin_ d : Nat) (m : Bufs α) :
    (vec_body_float_bf16 env s amsgrad begin_ d m).grad = m.grad := by
  cases amsgrad <;> rfl

theorem scalar_body_float_bf16_grad (env : Env α) (s : Scalars α) (amsgrad : Bool)
    (begin_ d : Nat) (m : Bufs α) :
    (scalar_body_float_bf16 env s amsgrad begin_ d m).grad = m.grad := by
  unfold scalar_body_float_bf16
  by_cases h : |s.exp_avg_grad_coefficient| < 1 / 2 <;> cases amsgrad <;>
    simp only [h, decide_True, decide_False, if_true, if_false, Bool.false_eq_true]

end Frame

section NormalForms

variable {α : Type} [LinearOrderedField α]

theorem std_max_eq_max (a b : α) : std_max a b = max a b := by
  unfold std_max
  split
  · rename_i h; exact (max_eq_right (le_of_lt h)).symm
  · rename_i h; exact (max_eq_left (not_lt.mp h)).symm

/-- One lane of the blend / fused-multiply-add form of the first-moment update. -/
theorem lerp_lane (s : Scalars α) (m : Bufs α) (i : Nat) :
    (if |s.exp_avg_grad_coefficient| < 1 / 2 then s.exp_avg_grad_coefficient
      else s.exp_avg_grad_coefficient - 1) * (grad_val s m i - rd m.exp_avg i) +
      (if |s.exp_avg_grad_coefficient| < 1 / 2 then rd m.exp_avg i else grad_val s m i) =
    new_exp_avg s m i := by
  unfold new_exp_avg
  split <;> ring

theorem vec_grad_lane (s : Scalars α) (m : Bufs α) (p k : Nat) :
    (if s.weight_decay ≠ 0 then
        (Vec.loadu m.grad p + Vec.loadu m.param p * Vec.const s.weight_decay : Vec α)
      else Vec.loadu m.grad p) k = grad_val s m (p + k) := by
  unfold grad_val
  split <;> simp [Vec.loadu, Vec.const]

theorem vec_body_eq (env : Env α) (L : Nat) (s : Scalars α) (amsgrad : Bool)
    (begin_ d : Nat) (m : Bufs α) :
    vec_body env L s amsgrad begin_ d m =
      { param := Vec.store (fun k => new_param env s amsgrad m (begin_ + d + k))
          m.param (begin_ + d) L
        exp_avg := Vec.store (fun k => new_exp_avg s m (begin_ + d + k)) m.exp_avg (begin_ + d) L
        exp_avg_sq :=
          Vec.store (fun k => new_exp_avg_sq s m (begin_ + d + k)) m.exp_avg_sq (begin_ + d) L
        max_exp_avg_sq :=
          if amsgrad then
            Vec.store (fun k => new_max_exp_avg_sq s m (begin_ + d + k))
              m.max_exp_avg_sq (begin_ + d) L
          else m.max_exp_avg_sq
        grad := m.grad
        param2 := m.param2 } := by
  have hea : (Vec.fmadd
      (Vec.blendv (Vec.const s.exp_avg_grad_coefficient - Vec.const 1)
        (Vec.const s.exp_avg_grad_coefficient)
        (Vec.lt (Vec.abs (Vec.const s.exp_avg_grad_coefficient)) (Vec.const (1 / 2))))
      ((if s.weight_decay ≠ 0 then
          (Vec.loadu m.grad (begin_ + d) +
            Vec.loadu m.param (begin_ + d) * Vec.const s.weight_decay : Vec α)
        else Vec.loadu m.grad (begin_ + d)) - Vec.loadu m.exp_avg (begin_ + d))
      (Vec.blendv
        (if s.weight_decay ≠ 0 then
          (Vec.loadu m.grad (begin_ + d) +
            Vec.loadu m.param (begin_ + d) * Vec.const s.weight_decay : Vec α)
        else Vec.loadu m.grad (begin_ + d))
        (Vec.loadu m.exp_avg (begin_ + d))
        (Vec.lt (Vec.abs (Vec.const s.exp_avg_grad_coefficient)) (Vec.const (1 / 2))))) =
      fun k => new_exp_avg s m (begin_ + d + k) := by
    funext k
    rw [← lerp_lane]
    simp only [Vec.fmadd, Vec.blendv, Vec.lt, Vec.abs, Vec.const, Pi.add_apply, Pi.mul_apply,
      Pi.sub_apply, vec_grad_lane, decide_eq_true_eq]
    have : Vec.loadu m.exp_avg (begin_ + d) k = rd m.exp_avg (begin_ + d + k) := rfl
    rw [this]
  have hes : (Vec.loadu m.exp_avg_sq (begin_ + d) * Vec.const s.beta2 +
        Vec.const s.exp_avg_sq_grad_coefficient *
          (if s.weight_decay ≠ 0 then
            (Vec.loadu m.grad (begin_ + d) +
              Vec.loadu m.param (begin_ + d) * Vec.const s.weight_decay : Vec α)
          else Vec.loadu m.grad (begin_ + d)) *
          (if s.weight_decay ≠ 0 then
            (Vec.loadu m.grad (begin_ + d) +
              Vec.loadu m.param (begin_ + d) * Vec.const s.weight_decay : Vec α)
          else Vec.loadu m.grad (begin_ + d)) : Vec α) =
      fun k => new_exp_avg_sq s m (begin_ + d + k) := by
    funext k
    simp only [Pi.add_apply, Pi.mul_apply, vec_grad_lane, new_exp_avg_sq, Vec.const]
    rfl
  have hmx : Vec.maximum (Vec.loadu m.max_exp_avg_sq (begin_ + d))
      (fun k => new_exp_avg_sq s m (begin_ + d + k)) =
      fun k => new_max_exp_avg_sq s m (begin_ + d + k) := by
    funext k
    simp only [Vec.maximum, new_max_exp_avg_sq, std_max_eq_max]
    rfl
  cases amsgrad
  · simp only [vec_body, hea, hes, Bool.false_eq_true, if_false]
    rfl
  · simp only [vec_body, hea, hes, hmx, if_true]
    rfl

end NormalForms

section ScalarAsLane

theorem store_one {α : Type} (v : Vec α) (buf : List α) (p : Nat) :
    Vec.store v buf p 1 = buf.set p (v 0) := rfl

variable {α : Type} [LinearOrderedField α]

/-- Within the buffers, one iteration of the remainder loop is one iteration of the
vectorized loop with a single lane. -/
theorem scalar_body_eq_vec_body (env : Env α) (s : Scalars α) (amsgrad : Bool)
    (begin_ d : Nat) (m : Bufs α)
    (h1 : begin_ + d < m.exp_avg.length) (h2 : begin_ + d < m.exp_avg_sq.length)
    (h3 : amsgrad = true → begin_ + d < m.max_exp_avg_sq.length) :
    scalar_body env s amsgrad begin_ d m = vec_body env 1 s amsgrad begin_ d m := by
  rw [vec_body_eq]
  unfold scalar_body
  by_cases h : |s.exp_avg_grad_coefficient| < 1 / 2 <;> cases amsgrad <;>
    simp only [h, decide_True, decide_False, if_true, if_false, Bool.false_eq_true,
      store_one, rd_set, h1, h2, and_self, true_and, Nat.add_zero, new_param, demon_val,
      new_max_exp_avg_sq, new_exp_avg_sq, new_exp_avg, grad_val]
  all_goals simp only [h3 rfl, if_true]

end ScalarAsLane

section LoopInvariants

variable {α : Type}

theorem vec_bound_dvd (size L : Nat) : L ∣ size - size % L :=
  ⟨size / L, by have := Nat.div_add_mod size L; omega⟩

theorem vec_bound_step (size L d : Nat) (hd : L ∣ d) (hlt : d < size - size % L) :
    d + L ≤ size - size % L := by
  obtain ⟨k, rfl⟩ := hd
  obtain ⟨q, hq⟩ := vec_bound_dvd size L
  rw [hq] at hlt ⊢
  have hkq : k < q := by
    by_contra hc
    have : L * q ≤ L * k := Nat.mul_le_mul_left L (by omega)
    omega
  calc L * k + L = L * (k + 1) := by ring
    _ ≤ L * q := Nat.mul_le_mul_left L hkq

/-- Invariant rule for the vectorized loop: with enough fuel it stops at
`d = size - size % L`, and an invariant kept by every full block holds there. -/
theorem vec_loop_inv (P : Nat → Bufs α → Prop) (body : Nat → Bufs α → Bufs α) (size L : Nat)
    (hstep : ∀ d m, P d m → d + L ≤ size → P (d + L) (body d m)) :
    ∀ fuel d m, L ∣ d → d ≤ size - size % L → size - size % L - d ≤ fuel * L → P d m →
      (vec_loop body size L fuel d m).1 = size - size % L ∧
      P (size - size % L) (vec_loop body size L fuel d m).2 := by
  intro fuel
  induction fuel with
  | zero =>
    intro d m _ hle hf hP
    have hd : d = size - size % L := by omega
    subst hd
    exact ⟨rfl, hP⟩
  | succ fuel ih =>
    intro d m hdvd hle hf hP
    unfold vec_loop
    split
    · rename_i hlt
      have h1 := vec_bound_step size L d hdvd hlt
      have h2 : d + L ≤ size := le_trans h1 (Nat.sub_le _ _)
      refine ih (d + L) (body d m) (Dvd.dvd.add hdvd (dvd_refl L)) h1 ?_ (hstep d m hP h2)
      have : (fuel + 1) * L = fuel * L + L := by ring
      omega
    · rename_i hlt
      have hd : d = size - size % L := by omega
      subst hd
      exact ⟨rfl, hP⟩

/-- Invariant rule for the remainder loop: with enough fuel it runs up to `d = size`. -/
theorem scalar_loop_inv (P : Nat → Bufs α → Prop) (body : Nat → Bufs α → Bufs α) (size : Nat)
    (hstep : ∀ d m, P d m → d < size → P (d + 1) (body d m)) :
    ∀ fuel d m, d ≤ size → size - d ≤ fuel → P d m →
      P size (scalar_loop body size fuel d m) := by
  intro fuel
  induction fuel with
  | zero =>
    intro d m hle hf hP
    have hd : d = size := by omega
    subst hd
    exact hP
  | succ fuel ih =>
    intro d m hle hf hP
    unfold scalar_loop
    split
    · rename_i hlt
      exact ih (d + 1) (body d m) hlt (by omega) (hstep d m hP hlt)
    · rename_i hlt
      have hd : d = size := by omega
      subst hd
      exact hP

/-- Invariant rule for the range body: the fuel it gives its two loops is enough, and an
invariant kept by every vector block and every remainder element holds at the end of the
range. -/
theorem range_loops_inv (P : Nat → Bufs α → Prop) (vbody sbody : Nat → Bufs α → Bufs α)
    (L begin_ end_ : Nat)
    (hv : ∀ d m, P d m → d + L ≤ end_ - begin_ → P (d + L) (vbody d m))
    (hs : ∀ d m, P d m → d < end_ - begin_ → P (d + 1) (sbody d m))
    (m : Bufs α) (h0 : P 0 m) :
    P (end_ - begin_) (range_loops vbody sbody L begin_ end_ m) := by
  unfold range_loops
  have hfuel : end_ - begin_ - (end_ - begin_) % L - 0 ≤ (end_ - begin_) * L := by
    rcases Nat.eq_zero_or_pos L with hL | hL
    · subst hL; simp
    · calc end_ - begin_ - (end_ - begin_) % L - 0 ≤ end_ - begin_ := by omega
        _ ≤ (end_ - begin_) * L := Nat.le_mul_of_pos_right _ hL
  obtain ⟨h1, h2⟩ := vec_loop_inv P vbody (end_ - begin_) L hv (end_ - begin_) 0 m
    (dvd_zero L) (Nat.zero_le _) hfuel h0
  simp only []
  refine scalar_loop_inv P sbody (end_ - begin_) hs (end_ - begin_) _ _ ?_ ?_ ?_
  · rw [h1]; exact Nat.sub_le _ _
  · omega
  · rw [h1]; exact h2

end LoopInvariants

section UpdatedLemmas

variable {α : Type} [LinearOrderedField α]

theorem Updated.refl (env : Env α) (s : Scalars α) (amsgrad : Bool) (lo : Nat) (m0 : Bufs α) :
    Updated env s amsgrad lo lo m0 m0 := by
  refine ⟨rfl, rfl, rfl, rfl, rfl, rfl, fun _ => rfl, fun i => ?_⟩
  have h : ¬ (lo ≤ i ∧ i < lo) := by omega
  have h' : ¬ (amsgrad = true ∧ lo ≤ i ∧ i < lo) := by omega
  simp only [if_neg h, if_neg h', and_self]

/-- The values written for element `i` depend on the buffers through element `i` only. -/
theorem new_values_congr (env : Env α) (s : Scalars α) (amsgrad : Bool) (m m0 : Bufs α)
    (i : Nat) (hg : rd m.grad i = rd m0.grad i) (hp : rd m.param i = rd m0.param i)
    (ha : rd m.exp_avg i = rd m0.exp_avg i) (hq : rd m.exp_avg_sq i = rd m0.exp_avg_sq i)
    (hx : rd m.max_exp_avg_sq i = rd m0.max_exp_avg_sq i) :
    new_param env s amsgrad m i = new_param env s amsgrad m0 i ∧
    new_exp_avg s m i = new_exp_avg s m0 i ∧
    new_exp_avg_sq s m i = new_exp_avg_sq s m0 i ∧
    new_max_exp_avg_sq s m i = new_max_exp_avg_sq s m0 i := by
  simp only [new_param, demon_val, new_max_exp_avg_sq, new_exp_avg_sq, new_exp_avg, grad_val,
    hg, hp, ha, hq, hx, and_self]

/-- A vector block of `L` lanes at offset `d` extends the updated part of the range from
`[lo, lo + d)` to `[lo, lo + d + L)`. -/
theorem vec_body_updated (env : Env α) (L : Nat) (s : Scalars α) (amsgrad : Bool)
    (lo d : Nat) (m0 m : Bufs α) (hU : Updated env s amsgrad lo (lo + d) m0 m)
    (hp : lo + d + L ≤ m0.param.length) (ha : lo + d + L ≤ m0.exp_avg.length)
    (hq : lo + d + L ≤ m0.exp_avg_sq.length)
    (hx : amsgrad = true → lo + d + L ≤ m0.max_exp_avg_sq.length) :
    Updated env s amsgrad lo (lo + (d + L)) m0 (vec_body env L s amsgrad lo d m) := by
  obtain ⟨h1, h2, h3, h4, h5, h6, h7, h8⟩ := hU
  rw [vec_body_eq]
  refine ⟨h1, h2, ?_, ?_, ?_, ?_, ?_, ?_⟩
  · simp only [length_store, h3]
  · simp only [length_store, h4]
  · simp only [length_store, h5]
  · cases amsgrad
    · simpa using h6
    · simp only [if_true, length_store, h6]
  · intro hf
    subst hf
    simpa using h7 rfl
  · intro i
    obtain ⟨e1, e2, e3, e4⟩ := h8 i
    by_cases hin : lo + d ≤ i ∧ i < lo + d + L
    · -- element written by this block
      have hlo : ¬ (lo ≤ i ∧ i < lo + d) := by omega
      have hlo' : ¬ (amsgrad = true ∧ lo ≤ i ∧ i < lo + d) := by omega
      have hhi : lo ≤ i ∧ i < lo + (d + L) := by omega
      rw [if_neg hlo] at e1 e2 e3
      rw [if_neg hlo'] at e4
      have hidx : lo + d + (i - (lo + d)) = i := by omega
      obtain ⟨c1, c2, c3, c4⟩ := new_values_congr env s amsgrad m m0 i (by rw [h1]) e1 e2 e3 e4
      have b1 : lo + d ≤ i ∧ i < lo + d + L ∧ i < m.param.length := by omega
      have b2 : lo + d ≤ i ∧ i < lo + d + L ∧ i < m.exp_avg.length := by omega
      have b3 : lo + d ≤ i ∧ i < lo + d + L ∧ i < m.exp_avg_sq.length := by omega
      refine ⟨?_, ?_, ?_, ?_⟩
      · simp only [rd_store, if_pos b1, if_pos hhi, hidx, c1]
      · simp only [rd_store, if_pos b2, if_pos hhi, hidx, c2]
      · simp only [rd_store, if_pos b3, if_pos hhi, hidx, c3]
      · cases amsgrad
        · simpa using e4
        · have b4 : lo + d ≤ i ∧ i < lo + d + L ∧ i < m.max_exp_avg_sq.length := by
            have := hx rfl
            omega
          simp only [if_true, rd_store, if_pos b4, hidx, c4, true_and, if_pos hhi]
    · -- element outside this block
      have n1 : ¬ (lo + d ≤ i ∧ i < lo + d + L ∧ i < m.param.length) := by omega
      have n2 : ¬ (lo + d ≤ i ∧ i < lo + d + L ∧ i < m.exp_avg.length) := by omega
      have n3 : ¬ (lo + d ≤ i ∧ i < lo + d + L ∧ i < m.exp_avg_sq.length) := by omega
      have n4 : ¬ (lo + d ≤ i ∧ i < lo + d + L ∧ i < m.max_exp_avg_sq.length) := by omega
      have hiff : (lo ≤ i ∧ i < lo + (d + L)) ↔ (lo ≤ i ∧ i < lo + d) := by omega
      refine ⟨?_, ?_, ?_, ?_⟩
      · simp only [rd_store, if_neg n1, e1, hiff]
      · simp only [rd_store, if_neg n2, e2, hiff]
      · simp only [rd_store, if_neg n3, e3, hiff]
      · cases amsgrad
        · simpa using e4
        · simp only [if_true, rd_store, if_neg n4, e4, hiff]

end UpdatedLemmas

section RangeBody

variable {α : Type} [LinearOrderedField α]

theorem Updated.of_same_range (env : Env α) (s : Scalars α) (amsgrad : Bool)
    (lo hi hi' : Nat) (m0 m : Bufs α) (hr : ∀ i, (lo ≤ i ∧ i < hi) ↔ (lo ≤ i ∧ i < hi'))
    (hU : Updated env s amsgrad lo hi m0 m) : Updated env s amsgrad lo hi' m0 m := by
  obtain ⟨h1, h2, h3, h4, h5, h6, h7, h8⟩ := hU
  refine ⟨h1, h2, h3, h4, h5, h6, h7, fun i => ?_⟩
  have := h8 i
  simpa only [hr i] using this

/-- A remainder iteration at offset `d` extends the updated part of the range from
`[lo, lo + d)` to `[lo, lo + d + 1)`. -/
theorem scalar_body_updated (env : Env α) (s : Scalars α) (amsgrad : Bool)
    (lo d : Nat) (m0 m : Bufs α) (hU : Updated env s amsgrad lo (lo + d) m0 m)
    (hp : lo + d + 1 ≤ m0.param.length) (ha : lo + d + 1 ≤ m0.exp_avg.length)
    (hq : lo + d + 1 ≤ m0.exp_avg_sq.length)
    (hx : amsgrad = true → lo + d + 1 ≤ m0.max_exp_avg_sq.length) :
    Updated env s amsgrad lo (lo + (d + 1)) m0 (scalar_body env s amsgrad lo d m) := by
  have h4 := hU.2.2.2.1
  have h5 := hU.2.2.2.2.1
  have h6 := hU.2.2.2.2.2.1
  rw [scalar_body_eq_vec_body env s amsgrad lo d m (by omega) (by omega)
    (fun h => by have := hx h; omega)]
  exact vec_body_updated env 1 s amsgrad lo d m0 m hU hp ha hq hx

/-- The range body of the generic kernel updates exactly the elements of `[begin_, end_)`,
each from its own old values, provided the range lies within the buffers it writes. -/
theorem range_body_updated (env : Env α) (scalar_t : PlainType) (s : Scalars α)
    (amsgrad : Bool) (begin_ end_ : Nat) (m : Bufs α) (hbe : begin_ ≤ end_)
    (hp : end_ ≤ m.param.length) (ha : end_ ≤ m.exp_avg.length)
    (hq : end_ ≤ m.exp_avg_sq.length)
    (hx : amsgrad = true → end_ ≤ m.max_exp_avg_sq.length) :
    Updated env s amsgrad begin_ end_ m (range_body env scalar_t s amsgrad begin_ end_ m) := by
  have key := range_loops_inv (fun d m' => Updated env s amsgrad begin_ (begin_ + d) m m')
    (vec_body env (env.Vec_size scalar_t) s amsgrad begin_) (scalar_body env s amsgrad begin_)
    (env.Vec_size scalar_t) begin_ end_
    (fun d m' hU hd => vec_body_updated env _ s amsgrad begin_ d m m' hU
      (by omega) (by omega) (by omega) (fun h => by have := hx h; omega))
    (fun d m' hU hd => scalar_body_updated env s amsgrad begin_ d m m' hU
      (by omega) (by omega) (by omega) (fun h => by have := hx h; omega))
    m (Updated.refl env s amsgrad begin_ m)
  exact Updated.of_same_range env s amsgrad begin_ _ end_ m _ (fun i => by omega) key

end RangeBody

section FirstMoment

variable {α : Type} [LinearOrderedField α]

/-- The remainder iteration writes `new_exp_avg` to element `begin_ + d` of `exp_avg`. -/
theorem scalar_body_exp_avg (env : Env α) (s : Scalars α) (amsgrad : Bool)
    (begin_ d : Nat) (m : Bufs α) :
    (scalar_body env s amsgrad begin_ d m).exp_avg =
      m.exp_avg.set (begin_ + d) (new_exp_avg s m (begin_ + d)) := by
  unfold scalar_body new_exp_avg grad_val
  by_cases h : |s.exp_avg_grad_coefficient| < 1 / 2 <;> cases amsgrad <;>
    simp only [h, decide_True, decide_False, if_true, if_false, Bool.false_eq_true]

end FirstMoment

section FirstMomentAgree

variable {α : Type} [LinearOrderedField α]

/-- Whatever the branch, the value written to `exp_avg` is the linear interpolation. -/
theorem new_exp_avg_eq_lerp (s : Scalars α) (m : Bufs α) (i : Nat) :
    new_exp_avg s m i =
      rd m.exp_avg i + s.exp_avg_grad_coefficient * (grad_val s m i - rd m.exp_avg i) := by
  unfold new_exp_avg
  split
  · rfl
  · ring

/-- C3: in exact arithmetic the two branches of the first-moment update are one function:
for all values `a + w * (g - a) = g - (g - a) * (1 - w)` with `w = 1 - beta1`, and the
element the remainder loop writes is `exp_avg + (1 - beta1) * (g - exp_avg)` on either side
of `|w| < 1/2`. -/
theorem C3_first_moment_branch_independent (env : Env α) (amsgrad : Bool)
    (step beta1 beta2 learning_rate weight_decay eps : α) (begin_ d : Nat) (m : Bufs α)
    (h : begin_ + d < m.exp_avg.length) :
    (∀ a g : α, a + (1 - beta1) * (g - a) = g - (g - a) * (1 - (1 - beta1))) ∧
    rd (scalar_body env (kernel_scalars env step beta1 beta2 learning_rate weight_decay eps)
        amsgrad begin_ d m).exp_avg (begin_ + d) =
      rd m.exp_avg (begin_ + d) + (1 - beta1) *
        ((if weight_decay ≠ 0 then
            rd m.grad (begin_ + d) + rd m.param (begin_ + d) * weight_decay
          else rd m.grad (begin_ + d)) - rd m.exp_avg (begin_ + d)) := by
  refine ⟨fun a g => by ring, ?_⟩
  rw [scalar_body_exp_avg, rd_set, new_exp_avg_eq_lerp]
  simp only [h, and_self, if_true, grad_val, kernel_scalars]

/-- C3, on a concrete input with `|w| ≥ 1/2` (`beta1 = 1/4`, `w = 3/4`). -/
theorem C3_first_moment_branch_independent_witness :
    (0 + 1 < ([0, 2] : List ℚ).length) ∧
    rd (scalar_body refEnv
        (kernel_scalars refEnv 1 (1 / 4) (999 / 1000) (1 / 1000) (1 / 100) (1 / 100000000))
        true 0 1
        { param := [1, 3], exp_avg := [0, 2], exp_avg_sq := [0, 0], max_exp_avg_sq := [0, 0],
          grad := [1 / 2, 1], param2 := [] }).exp_avg (0 + 1) =
      rd [(0 : ℚ), 2] (0 + 1) + (1 - 1 / 4) *
        ((if (1 / 100 : ℚ) ≠ 0 then
            rd [(1 / 2 : ℚ), 1] (0 + 1) + rd [(1 : ℚ), 3] (0 + 1) * (1 / 100)
          else rd [(1 / 2 : ℚ), 1] (0 + 1)) - rd [(0 : ℚ), 2] (0 + 1)) :=
  ⟨by decide,
   (C3_first_moment_branch_independent refEnv true 1 (1 / 4) (999 / 1000) (1 / 1000) (1 / 100)
      (1 / 100000000) 0 1
      { param := [1, 3], exp_avg := [0, 2], exp_avg_sq := [0, 0], max_exp_avg_sq := [0, 0],
        grad := [1 / 2, 1], param2 := [] } (by decide)).2⟩

end FirstMomentAgree

section PerElement

variable {α : Type} [LinearOrderedField α]

/-- Every element of the range holds, after the range body, the values the remainder
iteration assigns from that element's old values. -/
theorem range_body_rd (env : Env α) (scalar_t : PlainType) (s : Scalars α)
    (amsgrad : Bool) (begin_ end_ i : Nat) (m : Bufs α) (hlo : begin_ ≤ i) (hhi : i < end_)
    (hp : end_ ≤ m.param.length) (ha : end_ ≤ m.exp_avg.length)
    (hq : end_ ≤ m.exp_avg_sq.length)
    (hx : amsgrad = true → end_ ≤ m.max_exp_avg_sq.length) :
    rd (range_body env scalar_t s amsgrad begin_ end_ m).param i = new_param env s amsgrad m i ∧
    rd (range_body env scalar_t s amsgrad begin_ end_ m).exp_avg i = new_exp_avg s m i ∧
    rd (range_body env scalar_t s amsgrad begin_ end_ m).exp_avg_sq i = new_exp_avg_sq s m i ∧
    rd (range_body env scalar_t s amsgrad begin_ end_ m).max_exp_avg_sq i =
      (if amsgrad = true then new_max_exp_avg_sq s m i else rd m.max_exp_avg_sq i) := by
  have hU := range_body_updated env scalar_t s amsgrad begin_ end_ m (by omega) hp ha hq hx
  obtain ⟨e1, e2, e3, e4⟩ := hU.2.2.2.2.2.2.2 i
  have hin : begin_ ≤ i ∧ i < end_ := ⟨hlo, hhi⟩
  rw [if_pos hin] at e1 e2 e3
  refine ⟨e1, e2, e3, ?_⟩
  rw [e4]
  cases amsgrad
  · simp
  · simp [hin]

end PerElement

section SecondMomentAndParam

variable {α : Type} [LinearOrderedField α]

/-- C5: for every element `i` of a range processed by the generic kernel, `exp_avg_sq[i]`
becomes `exp_avg_sq_old * beta2 + (1 - beta2) * g * g` with `g` the weight-decayed gradient;
for `exp_avg_sq = 0`, `g = 0.5`, `beta2 = 0.999` the result is `0.00025`. -/
theorem C5_second_moment (env : Env α) (scalar_t : PlainType) (amsgrad : Bool)
    (step beta1 beta2 learning_rate weight_decay eps : α) (begin_ end_ i : Nat) (m : Bufs α)
    (hlo : begin_ ≤ i) (hhi : i < end_)
    (hp : end_ ≤ m.param.length) (ha : end_ ≤ m.exp_avg.length)
    (hq : end_ ≤ m.exp_avg_sq.length)
    (hx : amsgrad = true → end_ ≤ m.max_exp_avg_sq.length) :
    (kernel_scalars env step beta1 beta2 learning_rate weight_decay eps).exp_avg_sq_grad_coefficient
      = 1 - beta2 ∧
    rd (range_body env scalar_t
        (kernel_scalars env step beta1 beta2 learning_rate weight_decay eps)
        amsgrad begin_ end_ m).exp_avg_sq i =
      rd m.exp_avg_sq i * beta2 + (1 - beta2) *
        (if weight_decay ≠ 0 then rd m.grad i + rd m.param i * weight_decay
          else rd m.grad i) *
        (if weight_decay ≠ 0 then rd m.grad i + rd m.param i * weight_decay
          else rd m.grad i) ∧
    rd (range_body refEnv PlainType.float
        (kernel_scalars refEnv 1 (9 / 10) (999 / 1000) (1 / 1000) 0 (1 / 100000000))
        false 0 1 (oneBufs ℚ)).exp_avg_sq 0 = 25 / 100000 := by
  refine ⟨rfl, ?_, ?_⟩
  · rw [(range_body_rd env scalar_t _ amsgrad begin_ end_ i m hlo hhi hp ha hq hx).2.2.1]
    rfl
  · rw [(range_body_rd refEnv PlainType.float _ false 0 1 0 (oneBufs ℚ) (by decide) (by decide)
      (by decide) (by decide) (by decide) (fun h => by cases h)).2.2.1]
    simp only [new_exp_avg_sq, grad_val, kernel_scalars, oneBufs, rd]
    norm_num

/-- C5, on a concrete input: element 1 (vectorized loop) of `refBufs`. -/
theorem C5_second_moment_witness :
    (0 ≤ 1 ∧ 1 < 3 ∧ 3 ≤ refBufs.exp_avg_sq.length) ∧
    rd (range_body refEnv PlainType.float
        (kernel_scalars refEnv 1 (9 / 10) (999 / 1000) (1 / 1000) (1 / 100) (1 / 100000000))
        true 0 3 refBufs).exp_avg_sq 1 =
      rd refBufs.exp_avg_sq 1 * (999 / 1000) + (1 - 999 / 1000) *
        (if (1 / 100 : ℚ) ≠ 0 then rd refBufs.grad 1 + rd refBufs.param 1 * (1 / 100)
          else rd refBufs.grad 1) *
        (if (1 / 100 : ℚ) ≠ 0 then rd refBufs.grad 1 + rd refBufs.param 1 * (1 / 100)
          else rd refBufs.grad 1) :=
  ⟨by decide,
   (C5_second_moment refEnv PlainType.float true 1 (9 / 10) (999 / 1000) (1 / 1000)
      (1 / 100) (1 / 100000000) 0 3 1 refBufs (by decide) (by decide) (by decide)
      (by decide) (by decide) (fun _ => by decide)).2.1⟩

theorem sqrt_scenario : Real.sqrt (1 / 4000) / Real.sqrt (1 / 1000) = 1 / 2 := by
  rw [← Real.sqrt_div (by norm_num)]
  have h : (1 / 4000 : ℝ) / (1 / 1000) = (1 / 2) ^ 2 := by norm_num
  rw [h, Real.sqrt_sq (by norm_num)]

/-- C6: for every element `i` of a range processed by the generic kernel,
`param[i]` becomes `param_old - step_size * m / denom` with `m` the updated `exp_avg[i]` and
`denom = sqrt v / bias_correction2_sqrt + eps`, where `v` is the updated `exp_avg_sq[i]`
without amsgrad and `v = max(max_exp_avg_sq_old, updated exp_avg_sq)`, the value also stored
in `max_exp_avg_sq[i]`, with amsgrad; in the single-element scenario over the reals
`denom = 0.5 + 1e-8` and `param_new = 1 - 0.0005 / (0.5 + 1e-8)`. -/
theorem C6_param_update (env : Env α) (scalar_t : PlainType) (amsgrad : Bool)
    (step beta1 beta2 learning_rate weight_decay eps : α) (begin_ end_ i : Nat) (m : Bufs α)
    (hlo : begin_ ≤ i) (hhi : i < end_)
    (hp : end_ ≤ m.param.length) (ha : end_ ≤ m.exp_avg.length)
    (hq : end_ ≤ m.exp_avg_sq.length)
    (hx : amsgrad = true → end_ ≤ m.max_exp_avg_sq.length) :
    rd (range_body env scalar_t
        (kernel_scalars env step beta1 beta2 learning_rate weight_decay eps)
        amsgrad begin_ end_ m).max_exp_avg_sq i =
      (if amsgrad = true then
        max (rd m.max_exp_avg_sq i)
          (rd (range_body env scalar_t
            (kernel_scalars env step beta1 beta2 learning_rate weight_decay eps)
            amsgrad begin_ end_ m).exp_avg_sq i)
       else rd m.max_exp_avg_sq i) ∧
    rd (range_body env scalar_t
        (kernel_scalars env step beta1 beta2 learning_rate weight_decay eps)
        amsgrad begin_ end_ m).param i =
      rd m.param i -
        step_size env learning_rate beta1 step *
          rd (range_body env scalar_t
            (kernel_scalars env step beta1 beta2 learning_rate weight_decay eps)
            amsgrad begin_ end_ m).exp_avg i /
        (env.sqrt
            (if amsgrad = true then
              rd (range_body env scalar_t
                (kernel_scalars env step beta1 beta2 learning_rate weight_decay eps)
                amsgrad begin_ end_ m).max_exp_avg_sq i
             else
              rd (range_body env scalar_t
                (kernel_scalars env step beta1 beta2 learning_rate weight_decay eps)
                amsgrad begin_ end_ m).exp_avg_sq i) /
          bias_correction2_sqrt env beta2 step + eps) ∧
    (∀ envR : Env ℝ,
      demon_val { envR with pow := Real.rpow, sqrt := Real.sqrt }
        (kernel_scalars { envR with pow := Real.rpow, sqrt := Real.sqrt }
          1 (9 / 10) (999 / 1000) (1 / 1000) 0 (1 / 100000000))
        false (oneBufs ℝ) 0 = 1 / 2 + 1 / 100000000 ∧
      rd (range_body { envR with pow := Real.rpow, sqrt := Real.sqrt } PlainType.float
        (kernel_scalars { envR with pow := Real.rpow, sqrt := Real.sqrt }
          1 (9 / 10) (999 / 1000) (1 / 1000) 0 (1 / 100000000))
        false 0 1 (oneBufs ℝ)).param 0 = 1 - (5 / 10000) / (1 / 2 + 1 / 100000000)) := by
  have k := range_body_rd env scalar_t
    (kernel_scalars env step beta1 beta2 learning_rate weight_decay eps) amsgrad
    begin_ end_ i m hlo hhi hp ha hq hx
  refine ⟨?_, ?_, ?_⟩
  · rw [k.2.2.2, k.2.2.1]
    cases amsgrad
    · simp
    · simp [new_max_exp_avg_sq, std_max_eq_max]
  · rw [k.1, k.2.1, k.2.2.1, k.2.2.2]
    cases amsgrad
    · simp [new_param, demon_val, kernel_scalars]
    · simp [new_param, demon_val, kernel_scalars]
  · intro envR
    have hd : demon_val { envR with pow := Real.rpow, sqrt := Real.sqrt }
        (kernel_scalars { envR with pow := Real.rpow, sqrt := Real.sqrt }
          1 (9 / 10) (999 / 1000) (1 / 1000) 0 (1 / 100000000))
        false (oneBufs ℝ) 0 = 1 / 2 + 1 / 100000000 := by
      have e1 : (0 : ℝ) * (999 / 1000) + 1 / 1000 * (1 / 2) * (1 / 2) = 1 / 4000 := by
        norm_num
      have e2 : (1 : ℝ) - 999 / 1000 = 1 / 1000 := by norm_num
      simp only [demon_val, new_exp_avg_sq, grad_val, kernel_scalars, bias_correction2_sqrt,
        bias_correction2, oneBufs, rd, Real.rpow_eq_pow, Real.rpow_one, Bool.false_eq_true,
        if_false, ne_eq, not_true_eq_false, List.getD_cons_zero, e1, e2, sqrt_scenario]
    refine ⟨hd, ?_⟩
    rw [(range_body_rd _ PlainType.float _ false 0 1 0 (oneBufs ℝ) (by decide) (by decide)
      (by simp [oneBufs]) (by simp [oneBufs]) (by simp [oneBufs]) (fun h => by cases h)).1]
    unfold new_param
    rw [hd]
    have hw : |(1 : ℝ) - 9 / 10| < 1 / 2 := by
      rw [abs_of_pos (by norm_num)]; norm_num
    simp only [new_exp_avg, grad_val, kernel_scalars, step_size, bias_correction1, oneBufs, rd,
      Real.rpow_eq_pow, Real.rpow_one, if_pos hw, ne_eq, not_true_eq_false, if_false,
      List.getD_cons_zero]
    norm_num

/-- C6, on a concrete input: element 2 (remainder loop) of `refBufs` under amsgrad. -/
theorem C6_param_update_witness :
    (0 ≤ 2 ∧ 2 < 3 ∧ 3 ≤ refBufs.param.length ∧ 3 ≤ refBufs.max_exp_avg_sq.length) ∧
    rd (range_body refEnv PlainType.float
        (kernel_scalars refEnv 1 (9 / 10) (999 / 1000) (1 / 1000) (1 / 100) (1 / 100000000))
        true 0 3 refBufs).max_exp_avg_sq 2 =
      (if true = true then
        max (rd refBufs.max_exp_avg_sq 2)
          (rd (range_body refEnv PlainType.float
            (kernel_scalars refEnv 1 (9 / 10) (999 / 1000) (1 / 1000) (1 / 100)
              (1 / 100000000))
            true 0 3 refBufs).exp_avg_sq 2)
       else rd refBufs.max_exp_avg_sq 2) :=
  ⟨by decide,
   (C6_param_update refEnv PlainType.float true 1 (9 / 10) (999 / 1000) (1 / 1000)
      (1 / 100) (1 / 100000000) 0 3 2 refBufs (by decide) (by decide) (by decide)
      (by decide) (by decide) (fun _ => by decide)).1⟩

end SecondMomentAndParam

section GradFrame

theorem view_after_contiguous_self {α : Type} (t : Tensor α) :
    t.view_after t.contiguous = t := by
  cases t with
  | mk ty c data =>
    cases c <;> rfl

theorem caller_view_grad {α : Type} (t_ : Tensors α) (r : Option Error × Tensors α) :
    (caller_view t_ r).mem.grad = t_.grad.view_after r.2.grad := by
  unfold caller_view
  split <;> rfl

/-- A range body that never writes `grad` leaves the `grad` tensor as it was, whatever the
schedule. -/
theorem with_bufs_run_grad {α : Type} (env : Env α) (t : Tensors α) (f : Nat → Nat → Bufs α → Bufs α)
    (hf : ∀ b e m, (f b e m).grad = m.grad) (b e grain : Nat) :
    (t.with_bufs (run_parallel_for env b e grain f t.bufs)).grad = t.grad := by
  have h : (run_parallel_for env b e grain f t.bufs).grad = t.bufs.grad :=
    run_parallel_for_pres (fun m' => m'.grad = t.bufs.grad) env f
      (fun b e m h => (hf b e m).trans h) b e grain t.bufs rfl
  show ({ t.grad with data := (run_parallel_for env b e grain f t.bufs).grad } : Tensor α) =
    t.grad
  rw [h]
  rfl

variable {α : Type} [LinearOrderedField α]

theorem range_body_grad (env : Env α) (scalar_t : PlainType) (s : Scalars α) (amsgrad : Bool)
    (begin_ end_ : Nat) (m : Bufs α) :
    (range_body env scalar_t s amsgrad begin_ end_ m).grad = m.grad := by
  unfold range_body
  exact range_loops_pres (fun m' => m'.grad = m.grad) _ _
    (fun d m' h => (vec_body_grad env _ s amsgrad begin_ d m').trans h)
    (fun d m' h => (scalar_body_grad env s amsgrad begin_ d m').trans h) _ _ _ m rfl

theorem range_body_bf16_grad (env : Env α) (s : Scalars α) (amsgrad : Bool)
    (begin_ end_ : Nat) (m : Bufs α) :
    (range_body_bf16 env s amsgrad begin_ end_ m).grad = m.grad := by
  unfold range_body_bf16
  exact range_loops_pres (fun m' => m'.grad = m.grad) _ _
    (fun d m' h => (vec_body_bf16_grad env s amsgrad begin_ d m').trans h)
    (fun d m' h => (scalar_body_bf16_grad env s amsgrad begin_ d m').trans h) _ _ _ m rfl

theorem range_body_float_bf16_grad (env : Env α) (s : Scalars α) (amsgrad : Bool)
    (begin_ end_ : Nat) (m : Bufs α) :
    (range_body_float_bf16 env s amsgrad begin_ end_ m).grad = m.grad := by
  unfold range_body_float_bf16
  exact range_loops_pres (fun m' => m'.grad = m.grad) _ _
    (fun d m' h => (vec_body_float_bf16_grad env s amsgrad begin_ d m').trans h)
    (fun d m' h => (scalar_body_float_bf16_grad env s amsgrad begin_ d m').trans h) _ _ _ m rfl

theorem run_kernel_grad (env : Env α) (v : Variant) (t : Tensors α) (amsgrad : Bool)
    (s : Scalars α) : (run_kernel env v t amsgrad s).2.grad = t.grad := by
  cases v
  · simp only [run_kernel, adam_fused_step_kernel]
    split
    · rfl
    · exact with_bufs_run_grad env t _ (range_body_grad env _ s amsgrad) _ _ _
  · simp only [run_kernel, adam_fused_step_kernel]
    split
    · rfl
    · exact with_bufs_run_grad env t _ (range_body_grad env _ s amsgrad) _ _ _
  · simp only [run_kernel, adam_fused_step_kernel_bf16]
    split
    · rfl
    · split
      · rfl
      · exact with_bufs_run_grad env t _ (range_body_bf16_grad env s amsgrad) _ _ _
  · simp only [run_kernel, adam_fused_step_kernel_float_bf16]
    split
    · rfl
    · split
      · rfl
      · exact with_bufs_run_grad env t _ (range_body_float_bf16_grad env s amsgrad) _ _ _

/-- C7: for every input, each of the four kernel instantiations leaves the `grad` working
tensor as it found it, and after the dispatcher call the caller's `grad` tensor equals the
one passed in, for every `weight_decay`; on the two-element buffers `param = [1, 2]`,
`grad = [1/2, 1]` with `weight_decay = 0.01` the first moment is computed from the adjusted
gradient (`exp_avg = [0.051, 0.102]`) while `grad` is still `[1/2, 1]`. -/
theorem C7_grad_unchanged (env : Env α) (t_ : Tensors α) (amsgrad : Bool)
    (step beta1 beta2 learning_rate weight_decay eps : α) :
    (∀ (v : Variant) (t : Tensors α) (s : Scalars α),
      (run_kernel env v t amsgrad s).2.grad = t.grad) ∧
    (adam_fused_step_kernel_impl env t_ amsgrad step beta1 beta2 learning_rate weight_decay
      eps).mem.grad = t_.grad ∧
    (adam_fused_step_kernel_impl refEnv
      { param := Tensor.of ScalarType.Float [1, 2]
        exp_avg := Tensor.of ScalarType.Float [0, 0]
        exp_avg_sq := Tensor.of ScalarType.Float [0, 0]
        max_exp_avg_sq := Tensor.of ScalarType.Float [0, 0]
        grad := Tensor.of ScalarType.Float [1 / 2, 1]
        param2 := Tensor.of ScalarType.Float [] }
      false 1 (9 / 10) (999 / 1000) (1 / 1000) (1 / 100) (1 / 100000000)).mem.exp_avg.data =
        [51 / 1000, 102 / 1000] ∧
    (adam_fused_step_kernel_impl refEnv
      { param := Tensor.of ScalarType.Float [1, 2]
        exp_avg := Tensor.of ScalarType.Float [0, 0]
        exp_avg_sq := Tensor.of ScalarType.Float [0, 0]
        max_exp_avg_sq := Tensor.of ScalarType.Float [0, 0]
        grad := Tensor.of ScalarType.Float [1 / 2, 1]
        param2 := Tensor.of ScalarType.Float [] }
      false 1 (9 / 10) (999 / 1000) (1 / 1000) (1 / 100) (1 / 100000000)).mem.grad.data =
        [1 / 2, 1] := by
  refine ⟨fun v t s => run_kernel_grad env v t amsgrad s, ?_, by decide!, by decide!⟩
  unfold adam_fused_step_kernel_impl
  simp only []
  split
  · rw [caller_view_grad, run_kernel_grad]
    exact view_after_contiguous_self t_.grad
  · rw [caller_view_grad]
    exact view_after_contiguous_self t_.grad

end GradFrame

section Checks

variable {α : Type}

/-- The six checks of a reduced-precision kernel as one decision chain. -/
theorem reduced_checks_eq (param_t : ScalarType) (param_name : String) (t : Tensors α) :
    reduced_checks param_t param_name t =
      if t.param.scalar_type ≠ param_t then
        .error (.check ("adam_fused_step_kernel: expect param to be " ++ param_name))
      else if t.grad.scalar_type ≠ ScalarType.BFloat16 then
        .error (.check "adam_fused_step_kernel: expect grad to be at::BFloat16")
      else if t.exp_avg.scalar_type ≠ ScalarType.Float then
        .error (.check "adam_fused_step_kernel: expect exp_avg to be float32")
      else if t.exp_avg_sq.scalar_type ≠ ScalarType.Float then
        .error (.check "adam_fused_step_kernel: expect exp_avg_sq to be float32")
      else if t.max_exp_avg_sq.scalar_type ≠ ScalarType.Float then
        .error (.check "adam_fused_step_kernel: expect max_exp_avg_sq to be float32")
      else if t.param2.scalar_type ≠ ScalarType.BFloat16 then
        .error (.check "adam_fused_step_kernel: expect param2 to be at::BFloat16")
      else .ok () := by
  unfold reduced_checks TORCH_CHECK
  by_cases h1 : t.param.scalar_type = param_t <;>
  by_cases h2 : t.grad.scalar_type = ScalarType.BFloat16 <;>
  by_cases h3 : t.exp_avg.scalar_type = ScalarType.Float <;>
  by_cases h4 : t.exp_avg_sq.scalar_type = ScalarType.Float <;>
  by_cases h5 : t.max_exp_avg_sq.scalar_type = ScalarType.Float <;>
  by_cases h6 : t.param2.scalar_type = ScalarType.BFloat16 <;>
  simp [h1, h2, h3, h4, h5, h6, bind, Except.bind]

/-- Once its checks passed, the typed accesses of a reduced-precision kernel succeed. -/
theorem reduced_data_ptrs_ok (param_t : ScalarType) (param_name : String) (t : Tensors α)
    (h : reduced_checks param_t param_name t = .ok ()) :
    reduced_data_ptrs param_t t = .ok () := by
  rw [reduced_checks_eq] at h
  by_cases h1 : t.param.scalar_type = param_t <;>
  by_cases h2 : t.grad.scalar_type = ScalarType.BFloat16 <;>
  by_cases h3 : t.exp_avg.scalar_type = ScalarType.Float <;>
  by_cases h4 : t.exp_avg_sq.scalar_type = ScalarType.Float <;>
  by_cases h5 : t.max_exp_avg_sq.scalar_type = ScalarType.Float <;>
  by_cases h6 : t.param2.scalar_type = ScalarType.BFloat16 <;>
  simp [h1, h2, h3, h4, h5, h6] at h
  simp [reduced_data_ptrs, data_ptr, h1, h2, h3, h4, h5, h6, bind, Except.bind, pure,
    Except.pure]

/-- The five typed accesses of the generic kernel as one decision chain. -/
theorem generic_data_ptrs_eq (scalar_t : PlainType) (t : Tensors α) :
    generic_data_ptrs scalar_t t =
      if t.param.scalar_type ≠ scalar_t.toScalarType then
        .error (.scalar_type_mismatch scalar_t.toScalarType t.param.scalar_type)
      else if t.exp_avg.scalar_type ≠ scalar_t.toScalarType then
        .error (.scalar_type_mismatch scalar_t.toScalarType t.exp_avg.scalar_type)
      else if t.exp_avg_sq.scalar_type ≠ scalar_t.toScalarType then
        .error (.scalar_type_mismatch scalar_t.toScalarType t.exp_avg_sq.scalar_type)
      else if t.max_exp_avg_sq.scalar_type ≠ scalar_t.toScalarType then
        .error (.scalar_type_mismatch scalar_t.toScalarType t.max_exp_avg_sq.scalar_type)
      else if t.grad.scalar_type ≠ scalar_t.toScalarType then
        .error (.scalar_type_mismatch scalar_t.toScalarType t.grad.scalar_type)
      else .ok () := by
  unfold generic_data_ptrs data_ptr
  by_cases h1 : t.param.scalar_type = scalar_t.toScalarType <;>
  by_cases h2 : t.exp_avg.scalar_type = scalar_t.toScalarType <;>
  by_cases h3 : t.exp_avg_sq.scalar_type = scalar_t.toScalarType <;>
  by_cases h4 : t.max_exp_avg_sq.scalar_type = scalar_t.toScalarType <;>
  by_cases h5 : t.grad.scalar_type = scalar_t.toScalarType <;>
  simp [h1, h2, h3, h4, h5, bind, Except.bind, pure, Except.pure]

end Checks

section Failure

theorem caller_view_error {α : Type} (t_ : Tensors α) (r : Option Error × Tensors α) :
    (caller_view t_ r).error = r.1 := by
  unfold caller_view
  split
  · rename_i e h; exact h.symm
  · rename_i h; exact h.symm

/-- After a throw the caller sees the tensors it passed in, provided the working tensors
still hold what `contiguous()` gave them. -/
theorem caller_view_mem_of_error {α : Type} (t_ : Tensors α) (e : Error) :
    (caller_view t_ (some e, t_.contiguous)).mem = t_ := by
  simp only [caller_view, Tensors.contiguous, view_after_contiguous_self]

variable {α : Type} [LinearOrderedField α]

/-- A kernel that throws has not written to any working tensor: every check and typed access
precedes the parallel loop. -/
theorem run_kernel_error_mem (env : Env α) (v : Variant) (t : Tensors α) (amsgrad : Bool)
    (s : Scalars α) (h : (run_kernel env v t amsgrad s).1 ≠ none) :
    (run_kernel env v t amsgrad s).2 = t := by
  cases v
  · simp only [run_kernel, adam_fused_step_kernel] at h ⊢
    split
    · rfl
    · rename_i h'; rw [h'] at h; exact absurd rfl h
  · simp only [run_kernel, adam_fused_step_kernel] at h ⊢
    split
    · rfl
    · rename_i h'; rw [h'] at h; exact absurd rfl h
  · simp only [run_kernel, adam_fused_step_kernel_bf16] at h ⊢
    split
    · rfl
    · rename_i h1
      rw [h1] at h
      split
      · rfl
      · rename_i h2; simp only [h2] at h; exact absurd rfl h
  · simp only [run_kernel, adam_fused_step_kernel_float_bf16] at h ⊢
    split
    · rfl
    · rename_i h1
      rw [h1] at h
      split
      · rfl
      · rename_i h2; simp only [h2] at h; exact absurd rfl h

/-- A failed dispatcher call leaves the caller's tensors as they were passed in. -/
theorem impl_mem_of_error (env : Env α) (t_ : Tensors α) (amsgrad : Bool)
    (step beta1 beta2 learning_rate weight_decay eps : α)
    (h : (adam_fused_step_kernel_impl env t_ amsgrad step beta1 beta2 learning_rate
      weight_decay eps).error ≠ none) :
    (adam_fused_step_kernel_impl env t_ amsgrad step beta1 beta2 learning_rate
      weight_decay eps).mem = t_ := by
  unfold adam_fused_step_kernel_impl at h ⊢
  simp only [] at h ⊢
  split at h
  · rename_i v hv
    rw [caller_view_error] at h
    have hm := run_kernel_error_mem env v t_.contiguous amsgrad _ h
    obtain ⟨e, he⟩ := Option.ne_none_iff_exists'.mp h
    have hr : run_kernel env v t_.contiguous amsgrad
        (kernel_scalars env step beta1 beta2 learning_rate weight_decay eps) =
        (some e, t_.contiguous) := Prod.ext he hm
    rw [hr]
    exact caller_view_mem_of_error t_ e
  · exact caller_view_mem_of_error t_ _

/-- C9: whenever the dispatcher call fails, by its own unsupported-dtype check or by a check
or typed access of the selected kernel, the caller's six tensors are exactly the ones passed
in: every check runs before the first element is written. -/
theorem C9_failure_leaves_buffers (env : Env α) (t_ : Tensors α) (amsgrad : Bool)
    (step beta1 beta2 learning_rate weight_decay eps : α)
    (h : (adam_fused_step_kernel_impl env t_ amsgrad step beta1 beta2 learning_rate
      weight_decay eps).error ≠ none) :
    (adam_fused_step_kernel_impl env t_ amsgrad step beta1 beta2 learning_rate
      weight_decay eps).mem = t_ :=
  impl_mem_of_error env t_ amsgrad step beta1 beta2 learning_rate weight_decay eps h

/-- C9, on concrete inputs: a call with a 16-bit float gradient (no kernel selected). -/
theorem C9_failure_leaves_buffers_witness :
    (adam_fused_step_kernel_impl refEnv
      { param := Tensor.of ScalarType.Float [1, 2]
        exp_avg := Tensor.of ScalarType.Float [0, 0]
        exp_avg_sq := Tensor.of ScalarType.Float [0, 0]
        max_exp_avg_sq := Tensor.of ScalarType.Float [0, 0]
        grad := Tensor.of ScalarType.Half [1 / 2, 1]
        param2 := Tensor.of ScalarType.BFloat16 [0, 0] }
      false 1 (9 / 10) (999 / 1000) (1 / 1000) (1 / 100) (1 / 100000000)).mem =
      { param := Tensor.of ScalarType.Float [1, 2]
        exp_avg := Tensor.of ScalarType.Float [0, 0]
        exp_avg_sq := Tensor.of ScalarType.Float [0, 0]
        max_exp_avg_sq := Tensor.of ScalarType.Float [0, 0]
        grad := Tensor.of ScalarType.Half [1 / 2, 1]
        param2 := Tensor.of ScalarType.BFloat16 [0, 0] } :=
  C9_failure_leaves_buffers refEnv _ false 1 (9 / 10) (999 / 1000) (1 / 1000) (1 / 100)
    (1 / 100000000) (by decide)

end Failure

section DispatchErrors

/-- The exception of a reduced-precision kernel is its first failing check. -/
theorem reduced_kernel_error {α : Type} (param_t : ScalarType) (param_name : String) (t : Tensors α)
    (body : Tensors α) :
    (match reduced_checks param_t param_name t with
      | .error e => (some e, t)
      | .ok _ =>
        match reduced_data_ptrs param_t t with
        | .error e => (some e, t)
        | .ok _ => ((none : Option Error), body)).1 =
      if t.param.scalar_type ≠ param_t then
        some (.check ("adam_fused_step_kernel: expect param to be " ++ param_name))
      else if t.grad.scalar_type ≠ ScalarType.BFloat16 then
        some (.check "adam_fused_step_kernel: expect grad to be at::BFloat16")
      else if t.exp_avg.scalar_type ≠ ScalarType.Float then
        some (.check "adam_fused_step_kernel: expect exp_avg to be float32")
      else if t.exp_avg_sq.scalar_type ≠ ScalarType.Float then
        some (.check "adam_fused_step_kernel: expect exp_avg_sq to be float32")
      else if t.max_exp_avg_sq.scalar_type ≠ ScalarType.Float then
        some (.check "adam_fused_step_kernel: expect max_exp_avg_sq to be float32")
      else if t.param2.scalar_type ≠ ScalarType.BFloat16 then
        some (.check "adam_fused_step_kernel: expect param2 to be at::BFloat16")
      else none := by
  by_cases hok : reduced_checks param_t param_name t = .ok ()
  · rw [hok, reduced_data_ptrs_ok param_t param_name t hok]
    rw [reduced_checks_eq] at hok
    by_cases h1 : t.param.scalar_type = param_t <;>
    by_cases h2 : t.grad.scalar_type = ScalarType.BFloat16 <;>
    by_cases h3 : t.exp_avg.scalar_type = ScalarType.Float <;>
    by_cases h4 : t.exp_avg_sq.scalar_type = ScalarType.Float <;>
    by_cases h5 : t.max_exp_avg_sq.scalar_type = ScalarType.Float <;>
    by_cases h6 : t.param2.scalar_type = ScalarType.BFloat16 <;>
    simp [h1, h2, h3, h4, h5, h6] at hok ⊢
  · rw [reduced_checks_eq] at hok ⊢
    by_cases h1 : t.param.scalar_type = param_t <;>
    by_cases h2 : t.grad.scalar_type = ScalarType.BFloat16 <;>
    by_cases h3 : t.exp_avg.scalar_type = ScalarType.Float <;>
    by_cases h4 : t.exp_avg_sq.scalar_type = ScalarType.Float <;>
    by_cases h5 : t.max_exp_avg_sq.scalar_type = ScalarType.Float <;>
    by_cases h6 : t.param2.scalar_type = ScalarType.BFloat16 <;>
    simp [h1, h2, h3, h4, h5, h6] at hok ⊢

variable {α : Type} [LinearOrderedField α]

/-- The exception of the generic kernel is the first failing typed access. -/
theorem generic_kernel_error (env : Env α) (scalar_t : PlainType) (t : Tensors α)
    (amsgrad : Bool) (s : Scalars α) :
    (adam_fused_step_kernel env scalar_t t amsgrad s).1 =
      if t.param.scalar_type ≠ scalar_t.toScalarType then
        some (.scalar_type_mismatch scalar_t.toScalarType t.param.scalar_type)
      else if t.exp_avg.scalar_type ≠ scalar_t.toScalarType then
        some (.scalar_type_mismatch scalar_t.toScalarType t.exp_avg.scalar_type)
      else if t.exp_avg_sq.scalar_type ≠ scalar_t.toScalarType then
        some (.scalar_type_mismatch scalar_t.toScalarType t.exp_avg_sq.scalar_type)
      else if t.max_exp_avg_sq.scalar_type ≠ scalar_t.toScalarType then
        some (.scalar_type_mismatch scalar_t.toScalarType t.max_exp_avg_sq.scalar_type)
      else if t.grad.scalar_type ≠ scalar_t.toScalarType then
        some (.scalar_type_mismatch scalar_t.toScalarType t.grad.scalar_type)
      else none := by
  unfold adam_fused_step_kernel
  rw [generic_data_ptrs_eq]
  by_cases h1 : t.param.scalar_type = scalar_t.toScalarType <;>
  by_cases h2 : t.exp_avg.scalar_type = scalar_t.toScalarType <;>
  by_cases h3 : t.exp_avg_sq.scalar_type = scalar_t.toScalarType <;>
  by_cases h4 : t.max_exp_avg_sq.scalar_type = scalar_t.toScalarType <;>
  by_cases h5 : t.grad.scalar_type = scalar_t.toScalarType <;>
  simp [h1, h2, h3, h4, h5]

theorem impl_error_of_select (env : Env α) (t_ : Tensors α) (amsgrad : Bool)
    (step beta1 beta2 learning_rate weight_decay eps : α) (v : Variant)
    (hv : select_kernel t_.grad.scalar_type t_.param.scalar_type = some v) :
    (adam_fused_step_kernel_impl env t_ amsgrad step beta1 beta2 learning_rate
      weight_decay eps).error =
    (run_kernel env v t_.contiguous amsgrad
      (kernel_scalars env step beta1 beta2 learning_rate weight_decay eps)).1 := by
  unfold adam_fused_step_kernel_impl
  simp only [hv, caller_view_error]

theorem contiguous_scalar_type {β : Type} (t : Tensor β) :
    t.contiguous.scalar_type = t.scalar_type := by
  unfold Tensor.contiguous
  split <;> rfl

/-- C8 as stated fails: for gradient float32 with parameter float64, and for gradient
float64 with parameter bfloat16, the dispatcher selects a plain kernel, and the call fails
inside that kernel with the typed accessor's error, not with the dispatcher's own. -/
theorem C8_counterexample :
    select_kernel ScalarType.Float ScalarType.Double = some Variant.float_float ∧
    select_kernel ScalarType.Double ScalarType.BFloat16 = some Variant.double_double ∧
    (adam_fused_step_kernel_impl refEnv
      { param := Tensor.of ScalarType.Double [1, 2]
        exp_avg := Tensor.of ScalarType.Double [0, 0]
        exp_avg_sq := Tensor.of ScalarType.Double [0, 0]
        max_exp_avg_sq := Tensor.of ScalarType.Double [0, 0]
        grad := Tensor.of ScalarType.Float [1 / 2, 1]
        param2 := Tensor.of ScalarType.BFloat16 [0, 0] }
      false 1 (9 / 10) (999 / 1000) (1 / 1000) (1 / 100) (1 / 100000000)).error =
      some (Error.scalar_type_mismatch ScalarType.Float ScalarType.Double) ∧
    (adam_fused_step_kernel_impl refEnv
      { param := Tensor.of ScalarType.Double [1, 2]
        exp_avg := Tensor.of ScalarType.Double [0, 0]
        exp_avg_sq := Tensor.of ScalarType.Double [0, 0]
        max_exp_avg_sq := Tensor.of ScalarType.Double [0, 0]
        grad := Tensor.of ScalarType.Float [1 / 2, 1]
        param2 := Tensor.of ScalarType.BFloat16 [0, 0] }
      false 1 (9 / 10) (999 / 1000) (1 / 1000) (1 / 100) (1 / 100000000)).error ≠
      some (Error.check "expect bfloat16 or float or double param") := by
  decide

/-- C8, amended: for every (gradient, parameter) scalar-type pair outside the four supported
ones the call fails and the caller's tensors are the ones passed in; the dispatcher selects
no kernel and raises its own unsupported-dtype error exactly when the gradient is neither
float32 nor float64, and otherwise selects the plain kernel of the gradient's type, which
fails on its typed access to `param`. -/
theorem C8_unsupported_pairs (env : Env α) (t_ : Tensors α) (amsgrad : Bool)
    (step beta1 beta2 learning_rate weight_decay eps : α)
    (hns : ¬ ((t_.grad.scalar_type = ScalarType.Float ∧ t_.param.scalar_type = ScalarType.Float) ∨
      (t_.grad.scalar_type = ScalarType.Double ∧ t_.param.scalar_type = ScalarType.Double) ∨
      (t_.grad.scalar_type = ScalarType.BFloat16 ∧
        t_.param.scalar_type = ScalarType.BFloat16) ∨
      (t_.grad.scalar_type = ScalarType.BFloat16 ∧ t_.param.scalar_type = ScalarType.Float))) :
    select_kernel t_.grad.scalar_type t_.param.scalar_type =
      (if t_.grad.scalar_type = ScalarType.Float then some Variant.float_float
       else if t_.grad.scalar_type = ScalarType.Double then some Variant.double_double
       else none) ∧
    (adam_fused_step_kernel_impl env t_ amsgrad step beta1 beta2 learning_rate
      weight_decay eps).error =
      (if t_.grad.scalar_type = ScalarType.Float then
        some (Error.scalar_type_mismatch ScalarType.Float t_.param.scalar_type)
       else if t_.grad.scalar_type = ScalarType.Double then
        some (Error.scalar_type_mismatch ScalarType.Double t_.param.scalar_type)
       else some (Error.check "expect bfloat16 or float or double param")) ∧
    (adam_fused_step_kernel_impl env t_ amsgrad step beta1 beta2 learning_rate
      weight_decay eps).mem = t_ := by
  have hsel : select_kernel t_.grad.scalar_type t_.param.scalar_type =
      (if t_.grad.scalar_type = ScalarType.Float then some Variant.float_float
       else if t_.grad.scalar_type = ScalarType.Double then some Variant.double_double
       else none) := by
    unfold select_kernel
    by_cases h1 : t_.grad.scalar_type = ScalarType.Float
    · simp [h1]
    · by_cases h2 : t_.grad.scalar_type = ScalarType.Double
      · simp [h2]
      · have h1' : ¬ ScalarType.Float = t_.grad.scalar_type := fun h => h1 h.symm
        have h2' : ¬ ScalarType.Double = t_.grad.scalar_type := fun h => h2 h.symm
        have h3 : ¬ (ScalarType.BFloat16 = t_.grad.scalar_type ∧
            ScalarType.BFloat16 = t_.param.scalar_type) :=
          fun h => hns (Or.inr (Or.inr (Or.inl ⟨h.1.symm, h.2.symm⟩)))
        have h4 : ¬ (ScalarType.BFloat16 = t_.grad.scalar_type ∧
            ScalarType.Float = t_.param.scalar_type) :=
          fun h => hns (Or.inr (Or.inr (Or.inr ⟨h.1.symm, h.2.symm⟩)))
        simp only [if_neg h1, if_neg h2, if_neg h1', if_neg h2', if_neg h3, if_neg h4]
  have herr : (adam_fused_step_kernel_impl env t_ amsgrad step beta1 beta2 learning_rate
      weight_decay eps).error =
      (if t_.grad.scalar_type = ScalarType.Float then
        some (Error.scalar_type_mismatch ScalarType.Float t_.param.scalar_type)
       else if t_.grad.scalar_type = ScalarType.Double then
        some (Error.scalar_type_mismatch ScalarType.Double t_.param.scalar_type)
       else some (Error.check "expect bfloat16 or float or double param")) := by
    by_cases h1 : t_.grad.scalar_type = ScalarType.Float
    · have hp : t_.param.scalar_type ≠ ScalarType.Float := fun h => hns (Or.inl ⟨h1, h⟩)
      rw [impl_error_of_select env t_ amsgrad _ _ _ _ _ _ Variant.float_float
        (by rw [hsel, if_pos h1])]
      simp only [run_kernel, generic_kernel_error, Tensors.contiguous, contiguous_scalar_type,
        PlainType.toScalarType, if_pos h1, ne_eq, hp, not_false_eq_true, if_true]
    · by_cases h2 : t_.grad.scalar_type = ScalarType.Double
      · have hp : t_.param.scalar_type ≠ ScalarType.Double :=
          fun h => hns (Or.inr (Or.inl ⟨h2, h⟩))
        rw [impl_error_of_select env t_ amsgrad _ _ _ _ _ _ Variant.double_double
          (by rw [hsel, if_neg h1, if_pos h2])]
        simp only [run_kernel, generic_kernel_error, Tensors.contiguous, contiguous_scalar_type,
          PlainType.toScalarType, if_neg h1, if_pos h2, ne_eq, hp, not_false_eq_true, if_true]
      · have hn : select_kernel t_.grad.scalar_type t_.param.scalar_type = none := by
          rw [hsel, if_neg h1, if_neg h2]
        unfold adam_fused_step_kernel_impl
        simp only [hn, caller_view_error, if_neg h1, if_neg h2]
  refine ⟨hsel, herr, ?_⟩
  apply impl_mem_of_error
  rw [herr]
  split
  · simp
  · split <;> simp

/-- C8 amended, on a concrete input: float32 gradient with float64 parameter. -/
theorem C8_unsupported_pairs_witness :
    (adam_fused_step_kernel_impl refEnv
      { param := Tensor.of ScalarType.Double [1, 2]
        exp_avg := Tensor.of ScalarType.Double [0, 0]
        exp_avg_sq := Tensor.of ScalarType.Double [0, 0]
        max_exp_avg_sq := Tensor.of ScalarType.Double [0, 0]
        grad := Tensor.of ScalarType.Float [1 / 2, 1]
        param2 := Tensor.of ScalarType.BFloat16 [0, 0] }
      true 1 (9 / 10) (999 / 1000) (1 / 1000) (1 / 100) (1 / 100000000)).mem =
      { param := Tensor.of ScalarType.Double [1, 2]
        exp_avg := Tensor.of ScalarType.Double [0, 0]
        exp_avg_sq := Tensor.of ScalarType.Double [0, 0]
        max_exp_avg_sq := Tensor.of ScalarType.Double [0, 0]
        grad := Tensor.of ScalarType.Float [1 / 2, 1]
        param2 := Tensor.of ScalarType.BFloat16 [0, 0] } :=
  (C8_unsupported_pairs refEnv
    { param := Tensor.of ScalarType.Double [1, 2]
      exp_avg := Tensor.of ScalarType.Double [0, 0]
      exp_avg_sq := Tensor.of ScalarType.Double [0, 0]
      max_exp_avg_sq := Tensor.of ScalarType.Double [0, 0]
      grad := Tensor.of ScalarType.Float [1 / 2, 1]
      param2 := Tensor.of ScalarType.BFloat16 [0, 0] }
    true 1 (9 / 10) (999 / 1000) (1 / 1000) (1 / 100) (1 / 100000000) (by decide)).2.2

/-- C10 as stated fails in the plain variants: with float32 gradient and parameter, a
float64 `exp_avg` and a float64 `exp_avg_sq` make the call fail with one and the same error,
which names the expected and the found scalar type but no buffer. -/
theorem C10_counterexample :
    (adam_fused_step_kernel_impl refEnv
      { param := Tensor.of ScalarType.Float [1, 2]
        exp_avg := Tensor.of ScalarType.Double [0, 0]
        exp_avg_sq := Tensor.of ScalarType.Float [0, 0]
        max_exp_avg_sq := Tensor.of ScalarType.Float [0, 0]
        grad := Tensor.of ScalarType.Float [1 / 2, 1]
        param2 := Tensor.of ScalarType.BFloat16 [0, 0] }
      false 1 (9 / 10) (999 / 1000) (1 / 1000) (1 / 100) (1 / 100000000)).error =
      some (Error.scalar_type_mismatch ScalarType.Float ScalarType.Double) ∧
    (adam_fused_step_kernel_impl refEnv
      { param := Tensor.of ScalarType.Float [1, 2]
        exp_avg := Tensor.of ScalarType.Float [0, 0]
        exp_avg_sq := Tensor.of ScalarType.Double [0, 0]
        max_exp_avg_sq := Tensor.of ScalarType.Float [0, 0]
        grad := Tensor.of ScalarType.Float [1 / 2, 1]
        param2 := Tensor.of ScalarType.BFloat16 [0, 0] }
      false 1 (9 / 10) (999 / 1000) (1 / 1000) (1 / 100) (1 / 100000000)).error =
      some (Error.scalar_type_mismatch ScalarType.Float ScalarType.Double) := by
  decide

/-- C10, amended: in a reduced-precision variant the first of `exp_avg`, `exp_avg_sq`,
`max_exp_avg_sq` (required float32) and `param2` (required bfloat16) with another scalar type
makes the call fail with a check error whose message names that buffer and the expected
type, the four messages being pairwise distinct; in a plain variant the first of `param`,
`exp_avg`, `exp_avg_sq`, `max_exp_avg_sq` whose scalar type is not the kernel's makes the
call fail with the typed accessor's error, which carries the expected and the found scalar
type and no buffer name; with all of them as required the call succeeds. -/
theorem C10_state_dtype_errors (env : Env α) (t_ : Tensors α) (amsgrad : Bool)
    (step beta1 beta2 learning_rate weight_decay eps : α) (v : Variant)
    (hv : select_kernel t_.grad.scalar_type t_.param.scalar_type = some v) :
    (adam_fused_step_kernel_impl env t_ amsgrad step beta1 beta2 learning_rate
      weight_decay eps).error =
      (match v with
       | Variant.float_float =>
         if t_.param.scalar_type ≠ ScalarType.Float then
           some (Error.scalar_type_mismatch ScalarType.Float t_.param.scalar_type)
         else if t_.exp_avg.scalar_type ≠ ScalarType.Float then
           some (Error.scalar_type_mismatch ScalarType.Float t_.exp_avg.scalar_type)
         else if t_.exp_avg_sq.scalar_type ≠ ScalarType.Float then
           some (Error.scalar_type_mismatch ScalarType.Float t_.exp_avg_sq.scalar_type)
         else if t_.max_exp_avg_sq.scalar_type ≠ ScalarType.Float then
           some (Error.scalar_type_mismatch ScalarType.Float t_.max_exp_avg_sq.scalar_type)
         else none
       | Variant.double_double =>
         if t_.param.scalar_type ≠ ScalarType.Double then
           some (Error.scalar_type_mismatch ScalarType.Double t_.param.scalar_type)
         else if t_.exp_avg.scalar_type ≠ ScalarType.Double then
           some (Error.scalar_type_mismatch ScalarType.Double t_.exp_avg.scalar_type)
         else if t_.exp_avg_sq.scalar_type ≠ ScalarType.Double then
           some (Error.scalar_type_mismatch ScalarType.Double t_.exp_avg_sq.scalar_type)
         else if t_.max_exp_avg_sq.scalar_type ≠ ScalarType.Double then
           some (Error.scalar_type_mismatch ScalarType.Double t_.max_exp_avg_sq.scalar_type)
         else none
       | _ =>
         if t_.exp_avg.scalar_type ≠ ScalarType.Float then
           some (Error.check "adam_fused_step_kernel: expect exp_avg to be float32")
         else if t_.exp_avg_sq.scalar_type ≠ ScalarType.Float then
           some (Error.check "adam_fused_step_kernel: expect exp_avg_sq to be float32")
         else if t_.max_exp_avg_sq.scalar_type ≠ ScalarType.Float then
           some (Error.check "adam_fused_step_kernel: expect max_exp_avg_sq to be float32")
         else if t_.param2.scalar_type ≠ ScalarType.BFloat16 then
           some (Error.check "adam_fused_step_kernel: expect param2 to be at::BFloat16")
         else none) ∧
    ("adam_fused_step_kernel: expect exp_avg to be float32" ≠
        "adam_fused_step_kernel: expect exp_avg_sq to be float32" ∧
      "adam_fused_step_kernel: expect exp_avg to be float32" ≠
        "adam_fused_step_kernel: expect max_exp_avg_sq to be float32" ∧
      "adam_fused_step_kernel: expect exp_avg to be float32" ≠
        "adam_fused_step_kernel: expect param2 to be at::BFloat16" ∧
      "adam_fused_step_kernel: expect exp_avg_sq to be float32" ≠
        "adam_fused_step_kernel: expect max_exp_avg_sq to be float32" ∧
      "adam_fused_step_kernel: expect exp_avg_sq to be float32" ≠
        "adam_fused_step_kernel: expect param2 to be at::BFloat16" ∧
      "adam_fused_step_kernel: expect max_exp_avg_sq to be float32" ≠
        "adam_fused_step_kernel: expect param2 to be at::BFloat16") := by
  refine ⟨?_, by decide⟩
  rw [impl_error_of_select env t_ amsgrad _ _ _ _ _ _ v hv]
  have hg : ∀ g p : ScalarType, select_kernel g p = some v →
      (v = Variant.float_float → g = ScalarType.Float) ∧
      (v = Variant.double_double → g = ScalarType.Double) ∧
      (v = Variant.bfloat16_bfloat16 → g = ScalarType.BFloat16 ∧ p = ScalarType.BFloat16) ∧
      (v = Variant.float_bfloat16 → g = ScalarType.BFloat16 ∧ p = ScalarType.Float) := by
    intro g p
    cases g <;> cases p <;> cases v <;> decide
  obtain ⟨g1, g2, g3, g4⟩ := hg _ _ hv
  cases v
  · have hgr := g1 rfl
    simp only [run_kernel, generic_kernel_error, Tensors.contiguous, contiguous_scalar_type,
      PlainType.toScalarType, hgr, ne_eq, not_true_eq_false, if_false]
  · have hgr := g2 rfl
    simp only [run_kernel, generic_kernel_error, Tensors.contiguous, contiguous_scalar_type,
      PlainType.toScalarType, hgr, ne_eq, not_true_eq_false, if_false]
  · obtain ⟨hgr, hpa⟩ := g3 rfl
    simp only [run_kernel, adam_fused_step_kernel_bf16, reduced_kernel_error,
      Tensors.contiguous, contiguous_scalar_type, hgr, hpa, ne_eq, not_true_eq_false, if_false]
  · obtain ⟨hgr, hpa⟩ := g4 rfl
    simp only [run_kernel, adam_fused_step_kernel_float_bf16, reduced_kernel_error,
      Tensors.contiguous, contiguous_scalar_type, hgr, hpa, ne_eq, not_true_eq_false, if_false]

/-- C10 amended, on a concrete input: the `<at::BFloat16, at::BFloat16>` kernel with a
float64 `max_exp_avg_sq`, amsgrad off. -/
theorem C10_state_dtype_errors_witness :
    (adam_fused_step_kernel_impl refEnv
      { param := Tensor.of ScalarType.BFloat16 [1, 2]
        exp_avg := Tensor.of ScalarType.Float [0, 0]
        exp_avg_sq := Tensor.of ScalarType.Float [0, 0]
        max_exp_avg_sq := Tensor.of ScalarType.Double [0, 0]
        grad := Tensor.of ScalarType.BFloat16 [1 / 2, 1]
        param2 := Tensor.of ScalarType.BFloat16 [0, 0] }
      false 1 (9 / 10) (999 / 1000) (1 / 1000) (1 / 100) (1 / 100000000)).error =
      some (Error.check "adam_fused_step_kernel: expect max_exp_avg_sq to be float32") :=
  (C10_state_dtype_errors refEnv
    { param := Tensor.of ScalarType.BFloat16 [1, 2]
      exp_avg := Tensor.of ScalarType.Float [0, 0]
      exp_avg_sq := Tensor.of ScalarType.Float [0, 0]
      max_exp_avg_sq := Tensor.of ScalarType.Double [0, 0]
      grad := Tensor.of ScalarType.BFloat16 [1 / 2, 1]
      param2 := Tensor.of ScalarType.BFloat16 [0, 0] }
    false 1 (9 / 10) (999 / 1000) (1 / 1000) (1 / 100) (1 / 100000000)
    Variant.bfloat16_bfloat16 (by decide)).1

end DispatchErrors

section LearningRate

variable {α : Type} [LinearOrderedField α]

/-- C18: every kernel instantiation gives the same exception and the same working tensors
for any two values of its `learning_rate` argument, all other arguments (among them
`step_size`) being the same: no loop body reads the cast `learning_rate`. -/
theorem C18_learning_rate_unused (env : Env α) (v : Variant) (t : Tensors α) (amsgrad : Bool)
    (s : Scalars α) (learning_rate' : α) :
    run_kernel env v t amsgrad { s with learning_rate := learning_rate' } =
      run_kernel env v t amsgrad s := by
  cases v <;> rfl

end LearningRate

section BiasCorrection

variable {α : Type} [LinearOrderedField α]

/-- C20: with `std::pow` an integer power on integer steps and `std::sqrt` positive on
positive arguments, for every integer `step ≥ 1` and `0 ≤ beta < 1` both bias corrections
`1 - beta ^ step` lie in `(0, 1]`, so the divisor of `step_size` and the divisor
`bias_correction2_sqrt` are non-zero; for `step = 0` both bias corrections are `0` and so is
`bias_correction2_sqrt`. -/
theorem C20_bias_correction_range (env : Env α) (beta : α) (n : ℕ)
    (hpow : ∀ (b : α) (k : ℕ), env.pow b (k : α) = b ^ k)
    (hsqrt : ∀ x : α, 0 < x → 0 < env.sqrt x) (hsqrt0 : env.sqrt 0 = 0)
    (hn : 1 ≤ n) (h0 : 0 ≤ beta) (h1 : beta < 1) :
    (0 < bias_correction1 env beta (n : α) ∧ bias_correction1 env beta (n : α) ≤ 1) ∧
    (0 < bias_correction2 env beta (n : α) ∧ bias_correction2 env beta (n : α) ≤ 1) ∧
    bias_correction1 env beta (n : α) ≠ 0 ∧
    bias_correction2_sqrt env beta (n : α) ≠ 0 ∧
    bias_correction1 env beta ((0 : ℕ) : α) = 0 ∧
    bias_correction2 env beta ((0 : ℕ) : α) = 0 ∧
    bias_correction2_sqrt env beta ((0 : ℕ) : α) = 0 := by
  have hlt : beta ^ n < 1 := pow_lt_one₀ h0 h1 (by omega)
  have hge : 0 ≤ beta ^ n := pow_nonneg h0 n
  have hb1 : bias_correction1 env beta (n : α) = 1 - beta ^ n := by
    unfold bias_correction1; rw [hpow]
  have hb2 : bias_correction2 env beta (n : α) = 1 - beta ^ n := by
    unfold bias_correction2; rw [hpow]
  have hz1 : bias_correction1 env beta ((0 : ℕ) : α) = 0 := by
    unfold bias_correction1; rw [hpow]; simp
  have hz2 : bias_correction2 env beta ((0 : ℕ) : α) = 0 := by
    unfold bias_correction2; rw [hpow]; simp
  have hpos : (0 : α) < 1 - beta ^ n := by linarith
  refine ⟨⟨?_, ?_⟩, ⟨?_, ?_⟩, ?_, ?_, hz1, hz2, ?_⟩
  · rw [hb1]; exact hpos
  · rw [hb1]; linarith
  · rw [hb2]; exact hpos
  · rw [hb2]; linarith
  · rw [hb1]; exact ne_of_gt hpos
  · unfold bias_correction2_sqrt
    rw [hb2]
    exact ne_of_gt (hsqrt _ hpos)
  · unfold bias_correction2_sqrt
    rw [hz2, hsqrt0]

/-- C20, on a concrete input over the reals: `std::pow` and `std::sqrt` as `Real.rpow` and
`Real.sqrt`, `beta = 0.999`, `step = 3`. -/
theorem C20_bias_correction_range_witness :
    bias_correction2_sqrt
      ({ pow := Real.rpow, sqrt := Real.sqrt, parallel_for := fun _ _ _ => [],
         fVec_size := 16, dVec_size := 8, convert_float_bfloat16 := id, to_BFloat16 := id,
         pack_bfloat16_float := fun hi _ => hi, unpack_float_bfloat16 := fun x => (x, 0) } :
        Env ℝ) (999 / 1000) ((3 : ℕ) : ℝ) ≠ 0 :=
  (C20_bias_correction_range
    ({ pow := Real.rpow, sqrt := Real.sqrt, parallel_for := fun _ _ _ => [],
       fVec_size := 16, dVec_size := 8, convert_float_bfloat16 := id, to_BFloat16 := id,
       pack_bfloat16_float := fun hi _ => hi, unpack_float_bfloat16 := fun x => (x, 0) } :
      Env ℝ) (999 / 1000) 3
    (fun b k => Real.rpow_natCast b k) (fun x hx => Real.sqrt_pos.2 hx) Real.sqrt_zero
    (by norm_num) (by norm_num) (by norm_num)).2.2.2.1

end BiasCorrection

section Commute

variable {α : Type}

/-- A buffer transformation that commutes with every iteration commutes with the
vectorized loop. -/
theorem vec_loop_comm (σ : Bufs α → Bufs α) (body : Nat → Bufs α → Bufs α)
    (h : ∀ d m, body d (σ m) = σ (body d m)) (size L : Nat) :
    ∀ fuel d m, vec_loop body size L fuel d (σ m) =
      ((vec_loop body size L fuel d m).1, σ (vec_loop body size L fuel d m).2) := by
  intro fuel
  induction fuel with
  | zero => intro d m; rfl
  | succ fuel ih =>
    intro d m
    unfold vec_loop
    split
    · rw [h, ih]
    · rfl

theorem scalar_loop_comm (σ : Bufs α → Bufs α) (body : Nat → Bufs α → Bufs α)
    (h : ∀ d m, body d (σ m) = σ (body d m)) (size : Nat) :
    ∀ fuel d m, scalar_loop body size fuel d (σ m) = σ (scalar_loop body size fuel d m) := by
  intro fuel
  induction fuel with
  | zero => intro d m; rfl
  | succ fuel ih =>
    intro d m
    unfold scalar_loop
    split
    · rw [h, ih]
    · rfl

theorem range_loops_comm (σ : Bufs α → Bufs α) (vbody sbody : Nat → Bufs α → Bufs α)
    (hv : ∀ d m, vbody d (σ m) = σ (vbody d m)) (hs : ∀ d m, sbody d (σ m) = σ (sbody d m))
    (L begin_ end_ : Nat) (m : Bufs α) :
    range_loops vbody sbody L begin_ end_ (σ m) = σ (range_loops vbody sbody L begin_ end_ m) := by
  unfold range_loops
  simp only [vec_loop_comm σ vbody hv, scalar_loop_comm σ sbody hs]

theorem run_parallel_for_comm (σ : Bufs α → Bufs α) (env : Env α)
    (f : Nat → Nat → Bufs α → Bufs α) (hf : ∀ b e m, f b e (σ m) = σ (f b e m))
    (b e grain : Nat) (m : Bufs α) :
    run_parallel_for env b e grain f (σ m) = σ (run_parallel_for env b e grain f m) := by
  unfold run_parallel_for
  generalize env.parallel_for b e grain = chunks
  induction chunks generalizing m with
  | nil => rfl
  | cons c cs ih =>
    simp only [List.foldl_cons]
    rw [hf, ih]

end Commute

section MaxUnused

variable {α : Type} [LinearOrderedField α]

theorem vec_body_max_comm (env : Env α) (L : Nat) (s : Scalars α) (begin_ d : Nat)
    (m : Bufs α) (x : List α) :
    vec_body env L s false begin_ d { m with max_exp_avg_sq := x } =
      { vec_body env L s false begin_ d m with max_exp_avg_sq := x } := rfl

theorem scalar_body_max_comm (env : Env α) (s : Scalars α) (begin_ d : Nat)
    (m : Bufs α) (x : List α) :
    scalar_body env s false begin_ d { m with max_exp_avg_sq := x } =
      { scalar_body env s false begin_ d m with max_exp_avg_sq := x } := by
  unfold scalar_body
  by_cases h : |s.exp_avg_grad_coefficient| < 1 / 2 <;>
    simp only [h, decide_True, decide_False, if_true, if_false, Bool.false_eq_true]

theorem vec_body_bf16_max_comm (env : Env α) (s : Scalars α) (begin_ d : Nat)
    (m : Bufs α) (x : List α) :
    vec_body_bf16 env s false begin_ d { m with max_exp_avg_sq := x } =
      { vec_body_bf16 env s false begin_ d m with max_exp_avg_sq := x } := rfl

theorem scalar_body_bf16_max_comm (env : Env α) (s : Scalars α) (begin_ d : Nat)
    (m : Bufs α) (x : List α) :
    scalar_body_bf16 env s false begin_ d { m with max_exp_avg_sq := x } =
      { scalar_body_bf16 env s false begin_ d m with max_exp_avg_sq := x } := by
  unfold scalar_body_bf16
  by_cases h : |s.exp_avg_grad_coefficient| < 1 / 2 <;>
    simp only [h, decide_True, decide_False, if_true, if_false, Bool.false_eq_true]

theorem vec_body_float_bf16_max_comm (env : Env α) (s : Scalars α) (begin_ d : Nat)
    (m : Bufs α) (x : List α) :
    vec_body_float_bf16 env s false begin_ d { m with max_exp_avg_sq := x } =
      { vec_body_float_bf16 env s false begin_ d m with max_exp_avg_sq := x } := rfl

theorem scalar_body_float_bf16_max_comm (env : Env α) (s : Scalars α) (begin_ d : Nat)
    (m : Bufs α) (x : List α) :
    scalar_body_float_bf16 env s false begin_ d { m with max_exp_avg_sq := x } =
      { scalar_body_float_bf16 env s false begin_ d m with max_exp_avg_sq := x } := by
  unfold scalar_body_float_bf16
  by_cases h : |s.exp_avg_grad_coefficient| < 1 / 2 <;>
    simp only [h, decide_True, decide_False, if_true, if_false, Bool.false_eq_true]

end MaxUnused

section KernelView

/-- The six typed accesses of a reduced-precision kernel as one decision chain. -/
theorem reduced_data_ptrs_eq {α : Type} (param_t : ScalarType) (t : Tensors α) :
    reduced_data_ptrs param_t t =
      if t.param.scalar_type ≠ param_t then
        .error (.scalar_type_mismatch param_t t.param.scalar_type)
      else if t.exp_avg.scalar_type ≠ ScalarType.Float then
        .error (.scalar_type_mismatch ScalarType.Float t.exp_avg.scalar_type)
      else if t.exp_avg_sq.scalar_type ≠ ScalarType.Float then
        .error (.scalar_type_mismatch ScalarType.Float t.exp_avg_sq.scalar_type)
      else if t.max_exp_avg_sq.scalar_type ≠ ScalarType.Float then
        .error (.scalar_type_mismatch ScalarType.Float t.max_exp_avg_sq.scalar_type)
      else if t.grad.scalar_type ≠ ScalarType.BFloat16 then
        .error (.scalar_type_mismatch ScalarType.BFloat16 t.grad.scalar_type)
      else if t.param2.scalar_type ≠ ScalarType.BFloat16 then
        .error (.scalar_type_mismatch ScalarType.BFloat16 t.param2.scalar_type)
      else .ok () := by
  unfold reduced_data_ptrs data_ptr
  by_cases h1 : t.param.scalar_type = param_t <;>
  by_cases h2 : t.exp_avg.scalar_type = ScalarType.Float <;>
  by_cases h3 : t.exp_avg_sq.scalar_type = ScalarType.Float <;>
  by_cases h4 : t.max_exp_avg_sq.scalar_type = ScalarType.Float <;>
  by_cases h5 : t.grad.scalar_type = ScalarType.BFloat16 <;>
  by_cases h6 : t.param2.scalar_type = ScalarType.BFloat16 <;>
  simp [h1, h2, h3, h4, h5, h6, bind, Except.bind, pure, Except.pure]

/-- The checks of a kernel look at the scalar types of the six tensors only. -/
theorem variant_checks_congr {α : Type} (v : Variant) (t t' : Tensors α)
    (h1 : t'.param.scalar_type = t.param.scalar_type)
    (h2 : t'.exp_avg.scalar_type = t.exp_avg.scalar_type)
    (h3 : t'.exp_avg_sq.scalar_type = t.exp_avg_sq.scalar_type)
    (h4 : t'.max_exp_avg_sq.scalar_type = t.max_exp_avg_sq.scalar_type)
    (h5 : t'.grad.scalar_type = t.grad.scalar_type)
    (h6 : t'.param2.scalar_type = t.param2.scalar_type) :
    variant_checks v t' = variant_checks v t := by
  cases v <;>
    simp only [variant_checks, generic_data_ptrs_eq, reduced_checks_eq, reduced_data_ptrs_eq,
      h1, h2, h3, h4, h5, h6]

variable {α : Type} [LinearOrderedField α]

/-- Every kernel instantiation is its checks followed by the parallel loop over its range
body. -/
theorem run_kernel_eq (env : Env α) (v : Variant) (t : Tensors α) (amsgrad : Bool)
    (s : Scalars α) :
    run_kernel env v t amsgrad s =
      match variant_checks v t with
      | .error e => (some e, t)
      | .ok _ =>
        (none, t.with_bufs
          (run_parallel_for env 0 t.param.numel 512 (variant_range_body env v s amsgrad)
            t.bufs)) := by
  cases v
  · rfl
  · rfl
  · simp only [run_kernel, adam_fused_step_kernel_bf16, variant_checks, variant_range_body]
    cases reduced_checks ScalarType.BFloat16 "at::BFloat16" t <;> rfl
  · simp only [run_kernel, adam_fused_step_kernel_float_bf16, variant_checks,
      variant_range_body]
    cases reduced_checks ScalarType.Float "at::Float" t <;> rfl

end KernelView

section MaxSubst

variable {α : Type} [LinearOrderedField α]

/-- Without amsgrad no range body reads or writes `max_exp_avg_sq`. -/
theorem variant_range_body_max_comm (env : Env α) (v : Variant) (s : Scalars α)
    (x : List α) (b e : Nat) (m : Bufs α) :
    variant_range_body env v s false b e { m with max_exp_avg_sq := x } =
      { variant_range_body env v s false b e m with max_exp_avg_sq := x } := by
  cases v
  · exact range_loops_comm (fun m => { m with max_exp_avg_sq := x }) _ _
      (fun d m => vec_body_max_comm env _ s b d m x)
      (fun d m => scalar_body_max_comm env s b d m x) _ _ _ _
  · exact range_loops_comm (fun m => { m with max_exp_avg_sq := x }) _ _
      (fun d m => vec_body_max_comm env _ s b d m x)
      (fun d m => scalar_body_max_comm env s b d m x) _ _ _ _
  · exact range_loops_comm (fun m => { m with max_exp_avg_sq := x }) _ _
      (fun d m => vec_body_bf16_max_comm env s b d m x)
      (fun d m => scalar_body_bf16_max_comm env s b d m x) _ _ _ _
  · exact range_loops_comm (fun m => { m with max_exp_avg_sq := x }) _ _
      (fun d m => vec_body_float_bf16_max_comm env s b d m x)
      (fun d m => scalar_body_float_bf16_max_comm env s b d m x) _ _ _ _

/-- Without amsgrad, a kernel run on another `max_exp_avg_sq` tensor of the same scalar
type raises the same exception and leaves the same working tensors, the other
`max_exp_avg_sq` tensor among them untouched. -/
theorem run_kernel_max_subst (env : Env α) (v : Variant) (t : Tensors α) (s : Scalars α)
    (mx : Tensor α) (hty : mx.scalar_type = t.max_exp_avg_sq.scalar_type) :
    run_kernel env v { t with max_exp_avg_sq := mx } false s =
      ((run_kernel env v t false s).1,
       { (run_kernel env v t false s).2 with max_exp_avg_sq := mx }) := by
  rw [run_kernel_eq, run_kernel_eq]
  rw [variant_checks_congr v t { t with max_exp_avg_sq := mx } rfl rfl rfl hty rfl rfl]
  cases variant_checks v t with
  | error e => rfl
  | ok u =>
    simp only []
    have hb : ({ t with max_exp_avg_sq := mx } : Tensors α).bufs =
        { t.bufs with max_exp_avg_sq := mx.data } := rfl
    have hn : ({ t with max_exp_avg_sq := mx } : Tensors α).param.numel = t.param.numel := rfl
    rw [hb, hn, run_parallel_for_comm (fun m => { m with max_exp_avg_sq := mx.data }) env _
      (fun b e m => variant_range_body_max_comm env v s mx.data b e m)]
    rfl

end MaxSubst

section CallerView

theorem copy_back_eq {α : Type} (orig work : Tensor α) :
    copy_back orig work = { orig with data := work.data } := by
  cases orig with
  | mk ty c data => cases c <;> rfl

theorem view_after_data {α : Type} (orig work : Tensor α) (h : work.data = orig.data) :
    orig.view_after work = orig := by
  cases orig with
  | mk ty c data =>
    cases c
    · rfl
    · simp only [Tensor.view_after, if_true]
      simp only [] at h
      rw [h]

theorem with_contiguous_data {α : Type} (t : Tensor α) :
    ({ t with data := t.contiguous.data } : Tensor α) = t := by
  cases t with
  | mk ty c data => cases c <;> rfl

theorem caller_view_mem {α : Type} (t_ : Tensors α) (r : Option Error × Tensors α) :
    (caller_view t_ r).mem =
      match r.1 with
      | some _ =>
        { param := t_.param.view_after r.2.param
          exp_avg := t_.exp_avg.view_after r.2.exp_avg
          exp_avg_sq := t_.exp_avg_sq.view_after r.2.exp_avg_sq
          max_exp_avg_sq := t_.max_exp_avg_sq.view_after r.2.max_exp_avg_sq
          grad := t_.grad.view_after r.2.grad
          param2 := t_.param2.view_after r.2.param2 }
      | none =>
        { param := { t_.param with data := r.2.param.data }
          exp_avg := { t_.exp_avg with data := r.2.exp_avg.data }
          exp_avg_sq := { t_.exp_avg_sq with data := r.2.exp_avg_sq.data }
          max_exp_avg_sq := { t_.max_exp_avg_sq with data := r.2.max_exp_avg_sq.data }
          grad := t_.grad.view_after r.2.grad
          param2 := { t_.param2 with data := r.2.param2.data } } := by
  unfold caller_view
  cases r.1 <;> simp only [copy_back_eq]

variable {α : Type} [LinearOrderedField α]

theorem run_kernel_max_false (env : Env α) (v : Variant) (t : Tensors α) (s : Scalars α) :
    (run_kernel env v t false s).2.max_exp_avg_sq = t.max_exp_avg_sq := by
  have h := run_kernel_max_subst env v t s t.max_exp_avg_sq rfl
  have h2 := congrArg (fun r => r.2.max_exp_avg_sq) h
  simp only [] at h2
  exact h2

end CallerView

section MaxUnusedClaim

variable {α : Type} [LinearOrderedField α]

/-- C11 as stated fails: with amsgrad off, the same call succeeds with a float32
`max_exp_avg_sq` and fails with a float64 one. -/
theorem C11_counterexample :
    (adam_fused_step_kernel_impl refEnv
      { param := Tensor.of ScalarType.BFloat16 [1, 2]
        exp_avg := Tensor.of ScalarType.Float [0, 0]
        exp_avg_sq := Tensor.of ScalarType.Float [0, 0]
        max_exp_avg_sq := Tensor.of ScalarType.Float [0, 0]
        grad := Tensor.of ScalarType.BFloat16 [1 / 2, 1]
        param2 := Tensor.of ScalarType.BFloat16 [0, 0] }
      false 1 (9 / 10) (999 / 1000) (1 / 1000) 0 (1 / 100000000)).error = none ∧
    (adam_fused_step_kernel_impl refEnv
      { param := Tensor.of ScalarType.BFloat16 [1, 2]
        exp_avg := Tensor.of ScalarType.Float [0, 0]
        exp_avg_sq := Tensor.of ScalarType.Float [0, 0]
        max_exp_avg_sq := Tensor.of ScalarType.Double [0, 0]
        grad := Tensor.of ScalarType.BFloat16 [1 / 2, 1]
        param2 := Tensor.of ScalarType.BFloat16 [0, 0] }
      false 1 (9 / 10) (999 / 1000) (1 / 1000) 0 (1 / 100000000)).error =
      some (Error.check "adam_fused_step_kernel: expect max_exp_avg_sq to be float32") := by
  decide

/-- C11, amended: with amsgrad off, after the call `max_exp_avg_sq` is the tensor passed in,
and a call with any other `max_exp_avg_sq` tensor `mx` of the same scalar type (other
contents, length or layout) raises the same exception and yields the same `param`,
`exp_avg`, `exp_avg_sq` and `param2`; the scalar type of `max_exp_avg_sq` is still checked:
in the `<double, double>` kernel a float32 `max_exp_avg_sq` makes the call fail. -/
theorem C11_max_exp_avg_sq_unused (env : Env α) (t_ : Tensors α) (mx : Tensor α)
    (step beta1 beta2 learning_rate weight_decay eps : α)
    (hty : mx.scalar_type = t_.max_exp_avg_sq.scalar_type) :
    (adam_fused_step_kernel_impl env t_ false step beta1 beta2 learning_rate weight_decay
      eps).mem.max_exp_avg_sq = t_.max_exp_avg_sq ∧
    (adam_fused_step_kernel_impl env { t_ with max_exp_avg_sq := mx } false step beta1 beta2
      learning_rate weight_decay eps).error =
      (adam_fused_step_kernel_impl env t_ false step beta1 beta2 learning_rate weight_decay
        eps).error ∧
    (adam_fused_step_kernel_impl env { t_ with max_exp_avg_sq := mx } false step beta1 beta2
      learning_rate weight_decay eps).mem.param =
      (adam_fused_step_kernel_impl env t_ false step beta1 beta2 learning_rate weight_decay
        eps).mem.param ∧
    (adam_fused_step_kernel_impl env { t_ with max_exp_avg_sq := mx } false step beta1 beta2
      learning_rate weight_decay eps).mem.exp_avg =
      (adam_fused_step_kernel_impl env t_ false step beta1 beta2 learning_rate weight_decay
        eps).mem.exp_avg ∧
    (adam_fused_step_kernel_impl env { t_ with max_exp_avg_sq := mx } false step beta1 beta2
      learning_rate weight_decay eps).mem.exp_avg_sq =
      (adam_fused_step_kernel_impl env t_ false step beta1 beta2 learning_rate weight_decay
        eps).mem.exp_avg_sq ∧
    (adam_fused_step_kernel_impl env { t_ with max_exp_avg_sq := mx } false step beta1 beta2
      learning_rate weight_decay eps).mem.param2 =
      (adam_fused_step_kernel_impl env t_ false step beta1 beta2 learning_rate weight_decay
        eps).mem.param2 ∧
    (adam_fused_step_kernel_impl refEnv
      { param := Tensor.of ScalarType.Double [1, 2]
        exp_avg := Tensor.of ScalarType.Double [0, 0]
        exp_avg_sq := Tensor.of ScalarType.Double [0, 0]
        max_exp_avg_sq := Tensor.of ScalarType.Float [0, 0]
        grad := Tensor.of ScalarType.Double [1 / 2, 1]
        param2 := Tensor.of ScalarType.Double [] }
      false 1 (9 / 10) (999 / 1000) (1 / 1000) 0 (1 / 100000000)).error =
      some (Error.scalar_type_mismatch ScalarType.Double ScalarType.Float) := by
  have hsub : ∀ v, run_kernel env v ({ t_ with max_exp_avg_sq := mx } : Tensors α).contiguous
      false (kernel_scalars env step beta1 beta2 learning_rate weight_decay eps) =
      ((run_kernel env v t_.contiguous false
          (kernel_scalars env step beta1 beta2 learning_rate weight_decay eps)).1,
       { (run_kernel env v t_.contiguous false
          (kernel_scalars env step beta1 beta2 learning_rate weight_decay eps)).2 with
         max_exp_avg_sq := mx.contiguous }) := by
    intro v
    exact run_kernel_max_subst env v t_.contiguous _ mx.contiguous
      (by rw [contiguous_scalar_type, hty]; exact (contiguous_scalar_type _).symm)
  refine ⟨?_, ?_, ?_, ?_, ?_, ?_, by decide⟩
  · unfold adam_fused_step_kernel_impl
    simp only []
    split
    · rename_i v hv
      rw [caller_view_mem]
      have hm := run_kernel_max_false env v t_.contiguous
        (kernel_scalars env step beta1 beta2 learning_rate weight_decay eps)
      split
      · simp only [hm]
        exact view_after_contiguous_self _
      · simp only [hm]
        exact with_contiguous_data t_.max_exp_avg_sq
    · rw [caller_view_mem]
      exact view_after_contiguous_self _
  all_goals
    unfold adam_fused_step_kernel_impl
    simp only []
    split
    · rename_i v hv
      simp only [hsub v, caller_view_error, caller_view_mem]
      try (cases (run_kernel env v t_.contiguous false
        (kernel_scalars env step beta1 beta2 learning_rate weight_decay eps)).1 <;> rfl)
    · rfl

/-- C11 amended, on a concrete input: another `max_exp_avg_sq` of other contents and length. -/
theorem C11_max_exp_avg_sq_unused_witness :
    (adam_fused_step_kernel_impl refEnv
      { ({ param := Tensor.of ScalarType.Float [1, 2]
           exp_avg := Tensor.of ScalarType.Float [0, 0]
           exp_avg_sq := Tensor.of ScalarType.Float [0, 0]
           max_exp_avg_sq := Tensor.of ScalarType.Float [0, 0]
           grad := Tensor.of ScalarType.Float [1 / 2, 1]
           param2 := Tensor.of ScalarType.Float [] } : Tensors ℚ) with
        max_exp_avg_sq := Tensor.of ScalarType.Float [7] }
      false 1 (9 / 10) (999 / 1000) (1 / 1000) 0 (1 / 100000000)).mem.param =
    (adam_fused_step_kernel_impl refEnv
      { param := Tensor.of ScalarType.Float [1, 2]
        exp_avg := Tensor.of ScalarType.Float [0, 0]
        exp_avg_sq := Tensor.of ScalarType.Float [0, 0]
        max_exp_avg_sq := Tensor.of ScalarType.Float [0, 0]
        grad := Tensor.of ScalarType.Float [1 / 2, 1]
        param2 := Tensor.of ScalarType.Float [] }
      false 1 (9 / 10) (999 / 1000) (1 / 1000) 0 (1 / 100000000)).mem.param :=
  (C11_max_exp_avg_sq_unused refEnv
    { param := Tensor.of ScalarType.Float [1, 2]
      exp_avg := Tensor.of ScalarType.Float [0, 0]
      exp_avg_sq := Tensor.of ScalarType.Float [0, 0]
      max_exp_avg_sq := Tensor.of ScalarType.Float [0, 0]
      grad := Tensor.of ScalarType.Float [1 / 2, 1]
      param2 := Tensor.of ScalarType.Float [] }
    (Tensor.of ScalarType.Float [7])
    1 (9 / 10) (999 / 1000) (1 / 1000) 0 (1 / 100000000) rfl).2.2.1

end MaxUnusedClaim

section Param2Unused

variable {α : Type} [LinearOrderedField α]

theorem vec_body_param2_comm (env : Env α) (L : Nat) (s : Scalars α) (amsgrad : Bool)
    (begin_ d : Nat) (m : Bufs α) (x : List α) :
    vec_body env L s amsgrad begin_ d { m with param2 := x } =
      { vec_body env L s amsgrad begin_ d m with param2 := x } := by
  cases amsgrad <;> rfl

theorem scalar_body_param2_comm (env : Env α) (s : Scalars α) (amsgrad : Bool)
    (begin_ d : Nat) (m : Bufs α) (x : List α) :
    scalar_body env s amsgrad begin_ d { m with param2 := x } =
      { scalar_body env s amsgrad begin_ d m with param2 := x } := by
  unfold scalar_body
  by_cases h : |s.exp_avg_grad_coefficient| < 1 / 2 <;> cases amsgrad <;>
    simp only [h, decide_True, decide_False, if_true, if_false, Bool.false_eq_true]

/-- The range body of the generic kernel neither reads nor writes `param2`. -/
theorem range_body_param2_comm (env : Env α) (scalar_t : PlainType) (s : Scalars α)
    (amsgrad : Bool) (x : List α) (b e : Nat) (m : Bufs α) :
    range_body env scalar_t s amsgrad b e { m with param2 := x } =
      { range_body env scalar_t s amsgrad b e m with param2 := x } :=
  range_loops_comm (fun m => { m with param2 := x }) _ _
    (fun d m => vec_body_param2_comm env _ s amsgrad b d m x)
    (fun d m => scalar_body_param2_comm env s amsgrad b d m x) _ _ _ _

/-- The generic kernel run with another `param2` tensor, of any scalar type, raises the same
exception and leaves the same working tensors, the other `param2` among them untouched. -/
theorem generic_kernel_param2_subst (env : Env α) (scalar_t : PlainType) (t : Tensors α)
    (amsgrad : Bool) (s : Scalars α) (p2 : Tensor α) :
    adam_fused_step_kernel env scalar_t { t with param2 := p2 } amsgrad s =
      ((adam_fused_step_kernel env scalar_t t amsgrad s).1,
       { (adam_fused_step_kernel env scalar_t t amsgrad s).2 with param2 := p2 }) := by
  unfold adam_fused_step_kernel
  have hc : generic_data_ptrs scalar_t ({ t with param2 := p2 } : Tensors α) =
      generic_data_ptrs scalar_t t := by
    simp only [generic_data_ptrs_eq]
  rw [hc]
  cases generic_data_ptrs scalar_t t with
  | error e => rfl
  | ok u =>
    simp only []
    have hb : ({ t with param2 := p2 } : Tensors α).bufs = { t.bufs with param2 := p2.data } :=
      rfl
    have hn : ({ t with param2 := p2 } : Tensors α).param.numel = t.param.numel := rfl
    rw [hb, hn, run_parallel_for_comm (fun m => { m with param2 := p2.data }) env _
      (fun b e m => range_body_param2_comm env scalar_t s amsgrad p2.data b e m)]
    rfl

/-- C19: when the gradient is float32 or float64, so that a plain kernel runs, `param2` is
the tensor passed in after the call, and a call with any other `param2` tensor `p2` (other
contents, length, layout or scalar type) raises the same exception and yields the same
`param`, `exp_avg`, `exp_avg_sq` and `max_exp_avg_sq`. -/
theorem C19_param2_unused_in_plain (env : Env α) (t_ : Tensors α) (p2 : Tensor α)
    (amsgrad : Bool) (step beta1 beta2 learning_rate weight_decay eps : α)
    (hg : t_.grad.scalar_type = ScalarType.Float ∨ t_.grad.scalar_type = ScalarType.Double) :
    (adam_fused_step_kernel_impl env t_ amsgrad step beta1 beta2 learning_rate weight_decay
      eps).mem.param2 = t_.param2 ∧
    (adam_fused_step_kernel_impl env { t_ with param2 := p2 } amsgrad step beta1 beta2
      learning_rate weight_decay eps).error =
      (adam_fused_step_kernel_impl env t_ amsgrad step beta1 beta2 learning_rate weight_decay
        eps).error ∧
    (adam_fused_step_kernel_impl env { t_ with param2 := p2 } amsgrad step beta1 beta2
      learning_rate weight_decay eps).mem.param =
      (adam_fused_step_kernel_impl env t_ amsgrad step beta1 beta2 learning_rate weight_decay
        eps).mem.param ∧
    (adam_fused_step_kernel_impl env { t_ with param2 := p2 } amsgrad step beta1 beta2
      learning_rate weight_decay eps).mem.exp_avg =
      (adam_fused_step_kernel_impl env t_ amsgrad step beta1 beta2 learning_rate weight_decay
        eps).mem.exp_avg ∧
    (adam_fused_step_kernel_impl env { t_ with param2 := p2 } amsgrad step beta1 beta2
      learning_rate weight_decay eps).mem.exp_avg_sq =
      (adam_fused_step_kernel_impl env t_ amsgrad step beta1 beta2 learning_rate weight_decay
        eps).mem.exp_avg_sq ∧
    (adam_fused_step_kernel_impl env { t_ with param2 := p2 } amsgrad step beta1 beta2
      learning_rate weight_decay eps).mem.max_exp_avg_sq =
      (adam_fused_step_kernel_impl env t_ amsgrad step beta1 beta2 learning_rate weight_decay
        eps).mem.max_exp_avg_sq := by
  have hsel : ∃ st : PlainType, ∀ t : Tensors α, t.grad = t_.grad →
      adam_fused_step_kernel_impl env t amsgrad step beta1 beta2 learning_rate weight_decay eps =
        caller_view t (adam_fused_step_kernel env st t.contiguous amsgrad
          (kernel_scalars env step beta1 beta2 learning_rate weight_decay eps)) := by
    rcases hg with h | h
    · refine ⟨PlainType.float, fun t ht => ?_⟩
      unfold adam_fused_step_kernel_impl
      simp only [select_kernel, ht, h, if_true, run_kernel]
    · refine ⟨PlainType.double, fun t ht => ?_⟩
      unfold adam_fused_step_kernel_impl
      have hne : ¬ ScalarType.Float = ScalarType.Double := by decide
      simp only [select_kernel, ht, h, if_true, hne, if_false, run_kernel]
  obtain ⟨st, hst⟩ := hsel
  have hsub := generic_kernel_param2_subst env st t_.contiguous amsgrad
    (kernel_scalars env step beta1 beta2 learning_rate weight_decay eps) p2.contiguous
  have hsame := generic_kernel_param2_subst env st t_.contiguous amsgrad
    (kernel_scalars env step beta1 beta2 learning_rate weight_decay eps) t_.contiguous.param2
  have hc : ({ t_ with param2 := p2 } : Tensors α).contiguous =
      { t_.contiguous with param2 := p2.contiguous } := rfl
  rw [hst t_ rfl, hst { t_ with param2 := p2 } rfl, hc, hsub]
  refine ⟨?_, ?_, ?_, ?_, ?_, ?_⟩
  · have h2 : (adam_fused_step_kernel env st t_.contiguous amsgrad
        (kernel_scalars env step beta1 beta2 learning_rate weight_decay eps)).2.param2 =
        t_.contiguous.param2 := by
      have := congrArg (fun r => r.2.param2) hsame
      simpa using this
    rw [caller_view_mem]
    split
    · simp only [h2]
      exact view_after_contiguous_self _
    · simp only [h2]
      exact with_contiguous_data t_.param2
  all_goals
    simp only [caller_view_error, caller_view_mem]
    try (cases (adam_fused_step_kernel env st t_.contiguous amsgrad
      (kernel_scalars env step beta1 beta2 learning_rate weight_decay eps)).1 <;> rfl)

/-- C19, on a concrete input: a bfloat16 `param2` replaced by a float64 one of another
length, float32 kernel. -/
theorem C19_param2_unused_in_plain_witness :
    (adam_fused_step_kernel_impl refEnv
      { ({ param := Tensor.of ScalarType.Float [1, 2, 3]
           exp_avg := Tensor.of ScalarType.Float [0, 0, 0]
           exp_avg_sq := Tensor.of ScalarType.Float [0, 0, 0]
           max_exp_avg_sq := Tensor.of ScalarType.Float [0, 0, 1]
           grad := Tensor.of ScalarType.Float [1 / 2, 1, -1]
           param2 := Tensor.of ScalarType.BFloat16 [0, 0, 0] } : Tensors ℚ) with
        param2 := Tensor.of ScalarType.Double [5] }
      true 1 (9 / 10) (999 / 1000) (1 / 1000) (1 / 100) (1 / 100000000)).mem.param =
    (adam_fused_step_kernel_impl refEnv
      { param := Tensor.of ScalarType.Float [1, 2, 3]
        exp_avg := Tensor.of ScalarType.Float [0, 0, 0]
        exp_avg_sq := Tensor.of ScalarType.Float [0, 0, 0]
        max_exp_avg_sq := Tensor.of ScalarType.Float [0, 0, 1]
        grad := Tensor.of ScalarType.Float [1 / 2, 1, -1]
        param2 := Tensor.of ScalarType.BFloat16 [0, 0, 0] }
      true 1 (9 / 10) (999 / 1000) (1 / 1000) (1 / 100) (1 / 100000000)).mem.param :=
  (C19_param2_unused_in_plain refEnv
    { param := Tensor.of ScalarType.Float [1, 2, 3]
      exp_avg := Tensor.of ScalarType.Float [0, 0, 0]
      exp_avg_sq := Tensor.of ScalarType.Float [0, 0, 0]
      max_exp_avg_sq := Tensor.of ScalarType.Float [0, 0, 1]
      grad := Tensor.of ScalarType.Float [1 / 2, 1, -1]
      param2 := Tensor.of ScalarType.BFloat16 [0, 0, 0] }
    (Tensor.of ScalarType.Double [5])
    true 1 (9 / 10) (999 / 1000) (1 / 1000) (1 / 100) (1 / 100000000) (Or.inl rfl)).2.2.1

end Param2Unused

section MaxMonotone

variable {α : Type} [LinearOrderedField α]

theorem le_rd_store_maximum (buf : List α) (X : Vec α) (p n i : Nat) :
    rd buf i ≤ rd (Vec.store (Vec.maximum (Vec.loadu buf p) X) buf p n) i := by
  rw [rd_store]
  split
  · rename_i h
    have hi : p + (i - p) = i := by omega
    simp only [Vec.maximum, Vec.loadu, hi]
    exact le_max_left _ _
  · exact le_refl _

theorem le_rd_store_maximum_two (buf : List α) (X1 X2 : Vec α) (p F i : Nat) :
    rd buf i ≤ rd (Vec.store (Vec.maximum (Vec.loadu buf (p + F)) X2)
      (Vec.store (Vec.maximum (Vec.loadu buf p) X1) buf p F) (p + F) F) i := by
  rw [rd_store]
  split
  · rename_i h
    have hi : p + F + (i - (p + F)) = i := by omega
    simp only [Vec.maximum, Vec.loadu, hi]
    exact le_max_left _ _
  · exact le_rd_store_maximum buf X1 p F i

theorem le_rd_set_std_max (buf : List α) (Y : α) (j i : Nat) :
    rd buf i ≤ rd (buf.set j (std_max (rd buf j) Y)) i := by
  rw [rd_set]
  split
  · rename_i h
    rw [std_max_eq_max, h.1]
    exact le_max_left _ _
  · exact le_refl _

theorem vec_body_max_le (env : Env α) (L : Nat) (s : Scalars α) (amsgrad : Bool)
    (begin_ d : Nat) (m : Bufs α) (i : Nat) :
    rd m.max_exp_avg_sq i ≤ rd (vec_body env L s amsgrad begin_ d m).max_exp_avg_sq i := by
  cases amsgrad
  · exact le_refl _
  · exact le_rd_store_maximum _ _ _ _ _

theorem vec_body_bf16_max_le (env : Env α) (s : Scalars α) (amsgrad : Bool)
    (begin_ d : Nat) (m : Bufs α) (i : Nat) :
    rd m.max_exp_avg_sq i ≤ rd (vec_body_bf16 env s amsgrad begin_ d m).max_exp_avg_sq i := by
  cases amsgrad
  · exact le_refl _
  · exact le_rd_store_maximum_two _ _ _ _ _ _

theorem vec_body_float_bf16_max_le (env : Env α) (s : Scalars α) (amsgrad : Bool)
    (begin_ d : Nat) (m : Bufs α) (i : Nat) :
    rd m.max_exp_avg_sq i ≤
      rd (vec_body_float_bf16 env s amsgrad begin_ d m).max_exp_avg_sq i := by
  cases amsgrad
  · exact le_refl _
  · exact le_rd_store_maximum_two _ _ _ _ _ _

theorem scalar_body_max_le (env : Env α) (s : Scalars α) (amsgrad : Bool)
    (begin_ d : Nat) (m : Bufs α) (i : Nat) :
    rd m.max_exp_avg_sq i ≤ rd (scalar_body env s amsgrad begin_ d m).max_exp_avg_sq i := by
  unfold scalar_body
  by_cases h : |s.exp_avg_grad_coefficient| < 1 / 2 <;> cases amsgrad <;>
    simp only [h, decide_True, decide_False, if_true, if_false, Bool.false_eq_true]
  all_goals first
    | exact le_refl _
    | exact le_rd_set_std_max _ _ _ _

theorem scalar_body_bf16_max_le (env : Env α) (s : Scalars α) (amsgrad : Bool)
    (begin_ d : Nat) (m : Bufs α) (i : Nat) :
    rd m.max_exp_avg_sq i ≤ rd (scalar_body_bf16 env s amsgrad begin_ d m).max_exp_avg_sq i := by
  unfold scalar_body_bf16
  by_cases h : |s.exp_avg_grad_coefficient| < 1 / 2 <;> cases amsgrad <;>
    simp only [h, decide_True, decide_False, if_true, if_false, Bool.false_eq_true]
  all_goals first
    | exact le_refl _
    | exact le_rd_set_std_max _ _ _ _

theorem scalar_body_float_bf16_max_le (env : Env α) (s : Scalars α) (amsgrad : Bool)
    (begin_ d : Nat) (m : Bufs α) (i : Nat) :
    rd m.max_exp_avg_sq i ≤
      rd (scalar_body_float_bf16 env s amsgrad begin_ d m).max_exp_avg_sq i := by
  unfold scalar_body_float_bf16
  by_cases h : |s.exp_avg_grad_coefficient| < 1 / 2 <;> cases amsgrad <;>
    simp only [h, decide_True, decide_False, if_true, if_false, Bool.false_eq_true]
  all_goals first
    | exact le_refl _
    | exact le_rd_set_std_max _ _ _ _

/-- No range body of any kernel lowers an element of `max_exp_avg_sq`. -/
theorem variant_range_body_max_le (env : Env α) (v : Variant) (s : Scalars α)
    (amsgrad : Bool) (m0 : Bufs α) (b e : Nat) (m : Bufs α)
    (h : ∀ i, rd m0.max_exp_avg_sq i ≤ rd m.max_exp_avg_sq i) :
    ∀ i, rd m0.max_exp_avg_sq i ≤
      rd (variant_range_body env v s amsgrad b e m).max_exp_avg_sq i := by
  cases v
  · exact range_loops_pres (fun m' => ∀ i, rd m0.max_exp_avg_sq i ≤ rd m'.max_exp_avg_sq i)
      _ _ (fun d m' h i => le_trans (h i) (vec_body_max_le env _ s amsgrad b d m' i))
      (fun d m' h i => le_trans (h i) (scalar_body_max_le env s amsgrad b d m' i)) _ _ _ m h
  · exact range_loops_pres (fun m' => ∀ i, rd m0.max_exp_avg_sq i ≤ rd m'.max_exp_avg_sq i)
      _ _ (fun d m' h i => le_trans (h i) (vec_body_max_le env _ s amsgrad b d m' i))
      (fun d m' h i => le_trans (h i) (scalar_body_max_le env s amsgrad b d m' i)) _ _ _ m h
  · exact range_loops_pres (fun m' => ∀ i, rd m0.max_exp_avg_sq i ≤ rd m'.max_exp_avg_sq i)
      _ _ (fun d m' h i => le_trans (h i) (vec_body_bf16_max_le env s amsgrad b d m' i))
      (fun d m' h i => le_trans (h i) (scalar_body_bf16_max_le env s amsgrad b d m' i))
      _ _ _ m h
  · exact range_loops_pres (fun m' => ∀ i, rd m0.max_exp_avg_sq i ≤ rd m'.max_exp_avg_sq i)
      _ _ (fun d m' h i => le_trans (h i) (vec_body_float_bf16_max_le env s amsgrad b d m' i))
      (fun d m' h i =>
        le_trans (h i) (scalar_body_float_bf16_max_le env s amsgrad b d m' i))
      _ _ _ m h

theorem run_kernel_max_le (env : Env α) (v : Variant) (t : Tensors α) (amsgrad : Bool)
    (s : Scalars α) (i : Nat) :
    rd t.max_exp_avg_sq.data i ≤ rd (run_kernel env v t amsgrad s).2.max_exp_avg_sq.data i := by
  rw [run_kernel_eq]
  cases variant_checks v t with
  | error e => exact le_refl _
  | ok u =>
    exact run_parallel_for_pres
      (fun m' => ∀ i, rd t.bufs.max_exp_avg_sq i ≤ rd m'.max_exp_avg_sq i) env _
      (fun b e m h => variant_range_body_max_le env v s amsgrad t.bufs b e m h)
      0 t.param.numel 512 t.bufs (fun i => le_refl _) i

theorem contiguous_data {β : Type} (t : Tensor β) : t.contiguous.data = t.data := by
  unfold Tensor.contiguous
  split <;> rfl

theorem view_after_data_eq {β : Type} (orig work : Tensor β) (i : Nat) [Zero β] :
    rd (orig.view_after work).data i = rd work.data i ∨
      rd (orig.view_after work).data i = rd orig.data i := by
  unfold Tensor.view_after
  split
  · exact Or.inl rfl
  · exact Or.inr rfl

/-- One call never lowers an element of the caller's `max_exp_avg_sq`. -/
theorem impl_max_le (env : Env α) (t_ : Tensors α) (amsgrad : Bool)
    (step beta1 beta2 learning_rate weight_decay eps : α) (i : Nat) :
    rd t_.max_exp_avg_sq.data i ≤
      rd (adam_fused_step_kernel_impl env t_ amsgrad step beta1 beta2 learning_rate
        weight_decay eps).mem.max_exp_avg_sq.data i := by
  unfold adam_fused_step_kernel_impl
  simp only []
  split
  · rename_i v hv
    have hk := run_kernel_max_le env v t_.contiguous amsgrad
      (kernel_scalars env step beta1 beta2 learning_rate weight_decay eps) i
    have hc : t_.contiguous.max_exp_avg_sq.data = t_.max_exp_avg_sq.data :=
      contiguous_data t_.max_exp_avg_sq
    rw [hc] at hk
    rw [caller_view_mem]
    split
    · rcases view_after_data_eq t_.max_exp_avg_sq
        (run_kernel env v t_.contiguous amsgrad
          (kernel_scalars env step beta1 beta2 learning_rate weight_decay eps)).2.max_exp_avg_sq
        i with h | h
      · simp only [h]; exact hk
      · simp only [h]; exact le_refl _
    · exact hk
  · rw [caller_view_mem]
    show rd t_.max_exp_avg_sq.data i ≤
      rd (t_.max_exp_avg_sq.view_after t_.contiguous.max_exp_avg_sq).data i
    have h : t_.contiguous.max_exp_avg_sq = t_.max_exp_avg_sq.contiguous := rfl
    rw [h, view_after_contiguous_self]

/-- C12: over an ordered field, every element of `max_exp_avg_sq` after a call is at least
what it was before the call, for every kernel, schedule, gradient, amsgrad flag and scalars,
and hence after any sequence of calls on the same state. -/
theorem C12_max_exp_avg_sq_nondecreasing (env : Env α) (t_ : Tensors α) (i : Nat) :
    (∀ (amsgrad : Bool) (step beta1 beta2 learning_rate weight_decay eps : α),
      rd t_.max_exp_avg_sq.data i ≤
        rd (adam_fused_step_kernel_impl env t_ amsgrad step beta1 beta2 learning_rate
          weight_decay eps).mem.max_exp_avg_sq.data i) ∧
    (∀ calls : List (Call α),
      rd t_.max_exp_avg_sq.data i ≤ rd (run_calls env t_ calls).max_exp_avg_sq.data i) := by
  refine ⟨fun a st b1 b2 lr wd ep => impl_max_le env t_ a st b1 b2 lr wd ep i, ?_⟩
  intro calls
  induction calls generalizing t_ with
  | nil => exact le_refl _
  | cons c cs ih =>
    unfold run_calls
    refine le_trans ?_ (ih _)
    exact impl_max_le env { t_ with grad := c.grad } c.amsgrad c.step c.beta1 c.beta2
      c.learning_rate c.weight_decay c.eps i

end MaxMonotone

section ControlFlow

variable {α : Type}

/-- Started at block `k0`, the vectorized loop runs the blocks `k0, …, size / L - 1` once
each, in order, and stops at `d = size - size % L`, whenever the fuel covers the blocks left. -/
theorem vec_loop_blocks (body : Nat → Bufs α → Bufs α) (size L : Nat) :
    ∀ fuel k0 m, k0 ≤ size / L → size / L - k0 ≤ fuel →
      vec_loop body size L fuel (k0 * L) m =
        (size - size % L,
         (List.range' k0 (size / L - k0)).foldl (fun acc k => body (k * L) acc) m) := by
  have hB : size - size % L = size / L * L := by
    have := Nat.div_add_mod size L
    have h2 : L * (size / L) = size / L * L := Nat.mul_comm _ _
    omega
  intro fuel
  induction fuel with
  | zero =>
    intro k0 m hk hf
    have hk0 : k0 = size / L := by omega
    subst hk0
    simp only [vec_loop, Nat.sub_self, List.range'_zero, List.foldl_nil, hB]
  | succ fuel ih =>
    intro k0 m hk hf
    unfold vec_loop
    by_cases hlt : k0 * L < size - size % L
    · rw [if_pos hlt]
      have hk1 : k0 < size / L := by
        rw [hB] at hlt
        exact lt_of_mul_lt_mul_right hlt (Nat.zero_le L)
      have hstep : k0 * L + L = (k0 + 1) * L := by ring
      rw [hstep, ih (k0 + 1) _ (by omega) (by omega)]
      have hlen : size / L - k0 = (size / L - (k0 + 1)) + 1 := by omega
      rw [hlen, List.range'_succ, List.foldl_cons]
    · rw [if_neg hlt]
      have hk0 : k0 = size / L := by
        rw [hB] at hlt
        by_contra hne
        have hk1 : k0 < size / L := by omega
        rcases Nat.eq_zero_or_pos L with hL | hL
        · subst hL
          simp at hk1
        · exact hlt (Nat.mul_lt_mul_of_pos_right hk1 hL)
      subst hk0
      simp only [Nat.sub_self, List.range'_zero, List.foldl_nil, hB]

/-- Started at `d`, the remainder loop runs the elements `d, …, size - 1` once each, in
order, whenever the fuel covers the elements left. -/
theorem scalar_loop_elements (body : Nat → Bufs α → Bufs α) (size : Nat) :
    ∀ fuel d m, d ≤ size → size - d ≤ fuel →
      scalar_loop body size fuel d m =
        (List.range' d (size - d)).foldl (fun acc j => body j acc) m := by
  intro fuel
  induction fuel with
  | zero =>
    intro d m hd hf
    have h : size - d = 0 := by omega
    simp only [scalar_loop, h, List.range'_zero, List.foldl_nil]
  | succ fuel ih =>
    intro d m hd hf
    unfold scalar_loop
    by_cases hlt : d < size
    · rw [if_pos hlt, ih (d + 1) _ hlt (by omega)]
      have hlen : size - d = (size - (d + 1)) + 1 := by omega
      rw [hlen, List.range'_succ, List.foldl_cons]
    · rw [if_neg hlt]
      have h : size - d = 0 := by omega
      simp only [h, List.range'_zero, List.foldl_nil]

/-- The blocks of `L` elements starting at `0, L, 2 L, …` list the first `q * L` indices in
order. -/
theorem blocks_cover (L q : Nat) :
    (List.range' 0 q).flatMap (fun k => List.range' (k * L) L) = List.range' 0 (q * L) := by
  induction q with
  | zero => simp
  | succ q ih =>
    rw [List.range'_1_concat, List.flatMap_append, ih, List.flatMap_singleton, Nat.zero_add]
    have h := List.range'_append_1 0 (q * L) L
    rw [Nat.zero_add] at h
    rw [h]
    congr 1
    ring

end ControlFlow

section LaneVersusScalar

variable {α : Type} [LinearOrderedField α]

/-- Inside the buffers, lane `i - (begin_ + d)` of a vector block holds the values the
remainder iteration assigns to element `i`. -/
theorem vec_body_rd (env : Env α) (L : Nat) (s : Scalars α) (amsgrad : Bool)
    (begin_ d i : Nat) (m : Bufs α) (hlo : begin_ + d ≤ i) (hhi : i < begin_ + d + L)
    (hp : i < m.param.length) (ha : i < m.exp_avg.length) (hq : i < m.exp_avg_sq.length)
    (hx : amsgrad = true → i < m.max_exp_avg_sq.length) :
    rd (vec_body env L s amsgrad begin_ d m).param i = new_param env s amsgrad m i ∧
    rd (vec_body env L s amsgrad begin_ d m).exp_avg i = new_exp_avg s m i ∧
    rd (vec_body env L s amsgrad begin_ d m).exp_avg_sq i = new_exp_avg_sq s m i ∧
    rd (vec_body env L s amsgrad begin_ d m).max_exp_avg_sq i =
      (if amsgrad = true then new_max_exp_avg_sq s m i else rd m.max_exp_avg_sq i) := by
  rw [vec_body_eq]
  have hidx : begin_ + d + (i - (begin_ + d)) = i := by omega
  have b1 : begin_ + d ≤ i ∧ i < begin_ + d + L ∧ i < m.param.length := ⟨hlo, hhi, hp⟩
  have b2 : begin_ + d ≤ i ∧ i < begin_ + d + L ∧ i < m.exp_avg.length := ⟨hlo, hhi, ha⟩
  have b3 : begin_ + d ≤ i ∧ i < begin_ + d + L ∧ i < m.exp_avg_sq.length := ⟨hlo, hhi, hq⟩
  refine ⟨?_, ?_, ?_, ?_⟩
  · simp only [rd_store, if_pos b1, hidx]
  · simp only [rd_store, if_pos b2, hidx]
  · simp only [rd_store, if_pos b3, hidx]
  · cases amsgrad
    · simp
    · have b4 : begin_ + d ≤ i ∧ i < begin_ + d + L ∧ i < m.max_exp_avg_sq.length :=
        ⟨hlo, hhi, hx rfl⟩
      simp only [if_true, rd_store, if_pos b4, hidx]

/-- C14: in exact arithmetic, lane `k` of a vector block of the generic kernel leaves in
`exp_avg`, `exp_avg_sq`, `max_exp_avg_sq` and `param` the values the remainder iteration
leaves for the same element of the same buffers; the blend / fused-multiply-add form
`coeff * (g - a) + base` equals the two-branch form for all values; the lane mask is the
scalar branch condition `|w| < 1/2`; and a remainder iteration is a vector block of one
lane. -/
theorem C14_lane_equals_scalar (env : Env α) (L : Nat) (s : Scalars α) (amsgrad : Bool)
    (begin_ d k : Nat) (m : Bufs α) (hk : k < L)
    (hp : begin_ + d + L ≤ m.param.length) (ha : begin_ + d + L ≤ m.exp_avg.length)
    (hq : begin_ + d + L ≤ m.exp_avg_sq.length)
    (hx : amsgrad = true → begin_ + d + L ≤ m.max_exp_avg_sq.length) :
    (rd (vec_body env L s amsgrad begin_ d m).exp_avg (begin_ + d + k) =
        rd (scalar_body env s amsgrad begin_ (d + k) m).exp_avg (begin_ + d + k) ∧
      rd (vec_body env L s amsgrad begin_ d m).exp_avg_sq (begin_ + d + k) =
        rd (scalar_body env s amsgrad begin_ (d + k) m).exp_avg_sq (begin_ + d + k) ∧
      rd (vec_body env L s amsgrad begin_ d m).max_exp_avg_sq (begin_ + d + k) =
        rd (scalar_body env s amsgrad begin_ (d + k) m).max_exp_avg_sq (begin_ + d + k) ∧
      rd (vec_body env L s amsgrad begin_ d m).param (begin_ + d + k) =
        rd (scalar_body env s amsgrad begin_ (d + k) m).param (begin_ + d + k)) ∧
    (∀ w g a : α,
      (if |w| < 1 / 2 then w else w - 1) * (g - a) + (if |w| < 1 / 2 then a else g) =
        (if |w| < 1 / 2 then a + w * (g - a) else g - (g - a) * (1 - w))) ∧
    Vec.lt (Vec.abs (Vec.const s.exp_avg_grad_coefficient)) (Vec.const (1 / 2)) k =
      decide (|s.exp_avg_grad_coefficient| < 1 / 2) ∧
    scalar_body env s amsgrad begin_ (d + k) m =
      vec_body env 1 s amsgrad begin_ (d + k) m := by
  have hsv : scalar_body env s amsgrad begin_ (d + k) m =
      vec_body env 1 s amsgrad begin_ (d + k) m :=
    scalar_body_eq_vec_body env s amsgrad begin_ (d + k) m (by omega) (by omega)
      (fun h => by have := hx h; omega)
  have hv := vec_body_rd env L s amsgrad begin_ d (begin_ + d + k) m (by omega) (by omega)
    (by omega) (by omega) (by omega) (fun h => by have := hx h; omega)
  have hs := vec_body_rd env 1 s amsgrad begin_ (d + k) (begin_ + d + k) m (by omega)
    (by omega) (by omega) (by omega) (by omega) (fun h => by have := hx h; omega)
  refine ⟨⟨?_, ?_, ?_, ?_⟩, ?_, rfl, hsv⟩
  · rw [hsv, hv.2.1, hs.2.1]
  · rw [hsv, hv.2.2.1, hs.2.2.1]
  · rw [hsv, hv.2.2.2, hs.2.2.2]
  · rw [hsv, hv.1, hs.1]
  · intro w g a
    split <;> ring

/-- C14, on a concrete input: lane 1 of the block at `d = 0` of `refBufs`, amsgrad on. -/
theorem C14_lane_equals_scalar_witness :
    rd (vec_body refEnv 2
        (kernel_scalars refEnv 1 (9 / 10) (999 / 1000) (1 / 1000) (1 / 100) (1 / 100000000))
        true 0 0 refBufs).param (0 + 0 + 1) =
      rd (scalar_body refEnv
        (kernel_scalars refEnv 1 (9 / 10) (999 / 1000) (1 / 1000) (1 / 100) (1 / 100000000))
        true 0 (0 + 1) refBufs).param (0 + 0 + 1) :=
  (C14_lane_equals_scalar refEnv 2
    (kernel_scalars refEnv 1 (9 / 10) (999 / 1000) (1 / 1000) (1 / 100) (1 / 100000000))
    true 0 0 1 refBufs (by decide) (by decide) (by decide) (by decide)
    (fun _ => by decide)).1.2.2.2

end LaneVersusScalar

section UpdatedOnTheory

theorem SameLengths.of_self {α : Type} (m : Bufs α) : SameLengths m m := ⟨rfl, rfl, rfl, rfl, rfl⟩

theorem SameLengths.trans {α : Type} {m1 m2 m3 : Bufs α} (h : SameLengths m1 m2)
    (h' : SameLengths m2 m3) : SameLengths m1 m3 :=
  ⟨h.1.trans h'.1, h.2.1.trans h'.2.1, h.2.2.1.trans h'.2.2.1, h.2.2.2.1.trans h'.2.2.2.1,
    h.2.2.2.2.trans h'.2.2.2.2⟩

theorem Fits.of_same_lengths {α : Type} {amsgrad split : Bool} {hi : Nat} {m m' : Bufs α}
    (h : Fits amsgrad split hi m) (hl : SameLengths m' m) : Fits amsgrad split hi m' := by
  obtain ⟨l1, l2, l3, l4, l5⟩ := hl
  obtain ⟨f1, f2, f3, f4, f5⟩ := h
  exact ⟨by omega, by omega, by omega, fun a => by have := f4 a; omega,
    fun a => by have := f5 a; omega⟩

theorem Fits.mono {α : Type} {amsgrad split : Bool} {hi hi' : Nat} {m : Bufs α}
    (h : Fits amsgrad split hi m) (hle : hi' ≤ hi) : Fits amsgrad split hi' m := by
  obtain ⟨f1, f2, f3, f4, f5⟩ := h
  exact ⟨by omega, by omega, by omega, fun a => by have := f4 a; omega,
    fun a => by have := f5 a; omega⟩

variable {α : Type} [LinearOrderedField α]

theorem list_ext_rd (l l' : List α) (hlen : l.length = l'.length)
    (h : ∀ i, rd l i = rd l' i) : l = l' := by
  apply List.ext_getElem hlen
  intro i h1 h2
  have := h i
  simp only [rd, List.getD_eq_getElem?_getD, List.getElem?_eq_getElem h1,
    List.getElem?_eq_getElem h2, Option.getD_some] at this
  exact this

theorem UpdatedOn.empty (R : Nat → Elem α → α → Elem α) (m : Bufs α) :
    UpdatedOn R (fun _ => False) m m :=
  ⟨rfl, SameLengths.of_self m, fun _ => ⟨fun h => h.elim, fun _ => rfl⟩⟩

theorem UpdatedOn.congr_set {R : Nat → Elem α → α → Elem α} {S S' : Nat → Prop}
    {m0 m : Bufs α} (h : UpdatedOn R S m0 m) (hs : ∀ i, S i ↔ S' i) :
    UpdatedOn R S' m0 m :=
  ⟨h.1, h.2.1, fun i => ⟨fun hi => (h.2.2 i).1 ((hs i).2 hi),
    fun hi => (h.2.2 i).2 (fun h' => hi ((hs i).1 h'))⟩⟩

theorem UpdatedOn.congr_rule {R R' : Nat → Elem α → α → Elem α} {S : Nat → Prop}
    {m0 m : Bufs α} (h : UpdatedOn R S m0 m) (hr : ∀ i, S i → R i = R' i) :
    UpdatedOn R' S m0 m :=
  ⟨h.1, h.2.1, fun i => ⟨fun hi => by rw [← hr i hi]; exact (h.2.2 i).1 hi, (h.2.2 i).2⟩⟩

/-- Updating a set `T` after a disjoint set `S` is updating their union: the elements of `T`
still hold their old values when their turn comes. -/
theorem UpdatedOn.union {R : Nat → Elem α → α → Elem α} {S T : Nat → Prop}
    {m0 m1 m2 : Bufs α} (h1 : UpdatedOn R S m0 m1) (h2 : UpdatedOn R T m1 m2)
    (hd : ∀ i, S i → T i → False) : UpdatedOn R (fun i => S i ∨ T i) m0 m2 := by
  refine ⟨h2.1.trans h1.1, h2.2.1.trans h1.2.1, fun i => ⟨?_, ?_⟩⟩
  · intro hi
    by_cases hT : T i
    · have hS : ¬ S i := fun hS => hd i hS hT
      rw [(h2.2.2 i).1 hT, (h1.2.2 i).2 hS, h1.1]
    · have hS : S i := hi.resolve_right hT
      rw [(h2.2.2 i).2 hT, (h1.2.2 i).1 hS]
  · intro hi
    have hS : ¬ S i := fun h => hi (Or.inl h)
    have hT : ¬ T i := fun h => hi (Or.inr h)
    rw [(h2.2.2 i).2 hT, (h1.2.2 i).2 hS]

/-- Two results of updating the same set of the same buffers by the same rule are equal. -/
theorem UpdatedOn.unique {R : Nat → Elem α → α → Elem α} {S : Nat → Prop}
    {m0 m m' : Bufs α} (h : UpdatedOn R S m0 m) (h' : UpdatedOn R S m0 m') : m = m' := by
  have he : ∀ i, m.elem i = m'.elem i := by
    intro i
    by_cases hS : S i
    · rw [(h.2.2 i).1 hS, (h'.2.2 i).1 hS]
    · rw [(h.2.2 i).2 hS, (h'.2.2 i).2 hS]
  obtain ⟨l1, l2, l3, l4, l5⟩ := h.2.1
  obtain ⟨k1, k2, k3, k4, k5⟩ := h'.2.1
  have e1 : m.param = m'.param :=
    list_ext_rd _ _ (l1.trans k1.symm) (fun i => congrArg Elem.param (he i))
  have e2 : m.exp_avg = m'.exp_avg :=
    list_ext_rd _ _ (l2.trans k2.symm) (fun i => congrArg Elem.exp_avg (he i))
  have e3 : m.exp_avg_sq = m'.exp_avg_sq :=
    list_ext_rd _ _ (l3.trans k3.symm) (fun i => congrArg Elem.exp_avg_sq (he i))
  have e4 : m.max_exp_avg_sq = m'.max_exp_avg_sq :=
    list_ext_rd _ _ (l4.trans k4.symm) (fun i => congrArg Elem.max_exp_avg_sq (he i))
  have e5 : m.param2 = m'.param2 :=
    list_ext_rd _ _ (l5.trans k5.symm) (fun i => congrArg Elem.param2 (he i))
  have e6 : m.grad = m'.grad := h.1.trans h'.1.symm
  cases m
  cases m'
  simp only [] at e1 e2 e3 e4 e5 e6
  subst e1 e2 e3 e4 e5 e6
  rfl

end UpdatedOnTheory

section UpdatedOnLoops

variable {α : Type} [LinearOrderedField α]

theorem dvd_le_vec_bound (size L x : Nat) (hd : L ∣ x) (hx : x ≤ size) :
    x ≤ size - size % L := by
  obtain ⟨k, rfl⟩ := hd
  have hB : size - size % L = L * (size / L) := by
    have := Nat.div_add_mod size L
    omega
  rw [hB]
  rcases Nat.eq_zero_or_pos L with hL | hL
  · subst hL; simp
  · exact Nat.mul_le_mul_left L ((Nat.le_div_iff_mul_le hL).2 (by rw [Nat.mul_comm]; exact hx))

/-- The range body updates its range element by element: the elements of the vector blocks
by the rule `Rv` of the vectorized loop, the trailing elements by the rule `Rs` of the
remainder loop. -/
theorem range_loops_updatedOn (Rv Rs : Nat → Elem α → α → Elem α)
    (vbody sbody : Nat → Bufs α → Bufs α) (L lo hi : Nat) (amsgrad split : Bool)
    (hv : ∀ d m, Fits amsgrad split hi m → d + L ≤ hi - lo →
      UpdatedOn Rv (fun i => lo + d ≤ i ∧ i < lo + d + L) m (vbody d m))
    (hs : ∀ d m, Fits amsgrad split hi m → d < hi - lo →
      UpdatedOn Rs (fun i => lo + d ≤ i ∧ i < lo + d + 1) m (sbody d m))
    (m0 : Bufs α) (hf : Fits amsgrad split hi m0) (hle : lo ≤ hi) :
    UpdatedOn (fun i => if i < lo + ((hi - lo) - (hi - lo) % L) then Rv i else Rs i)
      (fun i => lo ≤ i ∧ i < hi) m0 (range_loops vbody sbody L lo hi m0) := by
  have hfuel : hi - lo - (hi - lo) % L - 0 ≤ (hi - lo) * L := by
    rcases Nat.eq_zero_or_pos L with hL | hL
    · subst hL; simp
    · calc hi - lo - (hi - lo) % L - 0 ≤ hi - lo := by omega
        _ ≤ (hi - lo) * L := Nat.le_mul_of_pos_right _ hL
  have hvl := vec_loop_inv
    (fun d m' => L ∣ d ∧
      UpdatedOn (fun i => if i < lo + ((hi - lo) - (hi - lo) % L) then Rv i else Rs i)
        (fun i => lo ≤ i ∧ i < lo + d) m0 m')
    vbody (hi - lo) L
    (by
      intro d m' hP hd
      obtain ⟨hdvd, hU⟩ := hP
      have hdL : d + L ≤ (hi - lo) - (hi - lo) % L :=
        dvd_le_vec_bound (hi - lo) L (d + L) (Dvd.dvd.add hdvd (dvd_refl L)) hd
      refine ⟨Dvd.dvd.add hdvd (dvd_refl L), ?_⟩
      have hb := hv d m' (hf.of_same_lengths hU.2.1) hd
      have hb' : UpdatedOn
          (fun i => if i < lo + ((hi - lo) - (hi - lo) % L) then Rv i else Rs i)
          (fun i => lo + d ≤ i ∧ i < lo + d + L) m' (vbody d m') :=
        hb.congr_rule (fun i hi' => by
          have : i < lo + ((hi - lo) - (hi - lo) % L) := by omega
          simp only [if_pos this])
      exact (hU.union hb' (fun i h1 h2 => by omega)).congr_set (fun i => by omega))
    (hi - lo) 0 m0 (dvd_zero L) (Nat.zero_le _) hfuel
    ⟨dvd_zero L, (UpdatedOn.empty _ m0).congr_set
      (fun i => ⟨fun h => h.elim, fun h => by omega⟩)⟩
  obtain ⟨h1, _, h2⟩ := hvl
  unfold range_loops
  simp only []
  have hsl := scalar_loop_inv
    (fun d m' => (hi - lo) - (hi - lo) % L ≤ d ∧
      UpdatedOn (fun i => if i < lo + ((hi - lo) - (hi - lo) % L) then Rv i else Rs i)
        (fun i => lo ≤ i ∧ i < lo + d) m0 m')
    sbody (hi - lo)
    (by
      intro d m' hP hd
      obtain ⟨hge, hU⟩ := hP
      refine ⟨by omega, ?_⟩
      have hb := hs d m' (hf.of_same_lengths hU.2.1) hd
      have hb' : UpdatedOn
          (fun i => if i < lo + ((hi - lo) - (hi - lo) % L) then Rv i else Rs i)
          (fun i => lo + d ≤ i ∧ i < lo + d + 1) m' (sbody d m') :=
        hb.congr_rule (fun i hi' => by
          have : ¬ i < lo + ((hi - lo) - (hi - lo) % L) := by omega
          simp only [if_neg this])
      exact (hU.union hb' (fun i h1 h2 => by omega)).congr_set (fun i => by omega))
    (hi - lo) (vec_loop vbody (hi - lo) L (hi - lo) 0 m0).1
    (vec_loop vbody (hi - lo) L (hi - lo) 0 m0).2
    (by rw [h1]; exact Nat.sub_le _ _) (by omega)
    ⟨by rw [h1], by rw [h1]; exact h2⟩
  exact hsl.2.congr_set (fun i => by omega)

/-- Running a range function over pairwise disjoint chunks, in the order of the list,
updates the union of the chunks, each element once, from its old values. -/
theorem foldl_chunks_updatedOn (R : Nat → Elem α → α → Elem α)
    (f : Nat → Nat → Bufs α → Bufs α) (amsgrad split : Bool) (N : Nat)
    (hf : ∀ b e m, b ≤ e → e ≤ N → Fits amsgrad split N m →
      UpdatedOn R (fun i => b ≤ i ∧ i < e) m (f b e m))
    (m0 : Bufs α) (hfit : Fits amsgrad split N m0) :
    ∀ (chunks : List (Nat × Nat)) (S : Nat → Prop) (m : Bufs α), UpdatedOn R S m0 m →
      (∀ c ∈ chunks, c.1 ≤ c.2 ∧ c.2 ≤ N) →
      chunks.Pairwise (fun c c' => c.2 ≤ c'.1 ∨ c'.2 ≤ c.1) →
      (∀ c ∈ chunks, ∀ i, S i → ¬ (c.1 ≤ i ∧ i < c.2)) →
      UpdatedOn R (fun i => S i ∨ ∃ c ∈ chunks, c.1 ≤ i ∧ i < c.2) m0
        (chunks.foldl (fun acc c => f c.1 c.2 acc) m) := by
  intro chunks
  induction chunks with
  | nil =>
    intro S m hU _ _ _
    exact hU.congr_set (fun i => by simp)
  | cons c cs ih =>
    intro S m hU hb hp hd
    rw [List.foldl_cons]
    have hc := hb c (List.mem_cons_self _ _)
    have hstep := hf c.1 c.2 m hc.1 hc.2 (hfit.of_same_lengths hU.2.1)
    have hU1 := hU.union hstep (fun i h1 h2 => hd c (List.mem_cons_self _ _) i h1 h2)
    rw [List.pairwise_cons] at hp
    have := ih (fun i => S i ∨ (c.1 ≤ i ∧ i < c.2)) (f c.1 c.2 m) hU1
      (fun c' hc' => hb c' (List.mem_cons_of_mem _ hc')) hp.2
      (by
        intro c' hc' i hi hin
        rcases hi with hi | hi
        · exact hd c' (List.mem_cons_of_mem _ hc') i hi hin
        · have := hp.1 c' hc'
          omega)
    exact this.congr_set (fun i => by
      simp only [List.mem_cons, exists_eq_or_imp]
      tauto)

/-- For a range function that updates exactly its range, any partition of `[0, N)` into
chunks, taken in any order, gives the buffers of the single chunk `[0, N)`. -/
theorem foldl_partition_eq (R : Nat → Elem α → α → Elem α)
    (f : Nat → Nat → Bufs α → Bufs α) (amsgrad split : Bool) (N : Nat)
    (hf : ∀ b e m, b ≤ e → e ≤ N → Fits amsgrad split N m →
      UpdatedOn R (fun i => b ≤ i ∧ i < e) m (f b e m))
    (m0 : Bufs α) (hfit : Fits amsgrad split N m0) (chunks : List (Nat × Nat))
    (hpart : IsPartition N chunks) :
    UpdatedOn R (fun i => i < N) m0 (chunks.foldl (fun acc c => f c.1 c.2 acc) m0) ∧
    chunks.foldl (fun acc c => f c.1 c.2 acc) m0 = f 0 N m0 := by
  have h1 := foldl_chunks_updatedOn R f amsgrad split N hf m0 hfit chunks (fun _ => False) m0
    (UpdatedOn.empty R m0) hpart.1 hpart.2.1 (fun _ _ _ h => h.elim)
  have h1' : UpdatedOn R (fun i => i < N) m0 (chunks.foldl (fun acc c => f c.1 c.2 acc) m0) :=
    h1.congr_set (fun i => by
      constructor
      · rintro (h | ⟨c, hc, h⟩)
        · exact h.elim
        · have := (hpart.1 c hc).2
          omega
      · intro h
        exact Or.inr (hpart.2.2 i h))
  have h2 : UpdatedOn R (fun i => i < N) m0 (f 0 N m0) :=
    (hf 0 N m0 (Nat.zero_le _) (le_refl _) hfit).congr_set (fun i => by omega)
  exact ⟨h1', h1'.unique h2⟩

end UpdatedOnLoops

section Bf16Bodies

variable {α : Type} [LinearOrderedField α]

theorem fma_small (w g a : α) : w * (g - a) + a = a + w * (g - a) := add_comm _ _

theorem fma_large (w g a : α) : (w - 1) * (g - a) + g = g - (g - a) * (1 - w) := by ring

theorem vec_body_bf16_lengths (env : Env α) (s : Scalars α) (amsgrad : Bool)
    (begin_ d : Nat) (m : Bufs α) :
    SameLengths (vec_body_bf16 env s amsgrad begin_ d m) m := by
  cases amsgrad <;>
    simp only [vec_body_bf16, SameLengths, length_store, and_self, Bool.false_eq_true,
      if_false, if_true]

/-- Inside the buffers, every element of a vector block of the `<at::BFloat16,
at::BFloat16>` kernel ends with the values `bf16_rule` gives from its old values. -/
theorem vec_body_bf16_block (env : Env α) (s : Scalars α) (amsgrad : Bool)
    (begin_ d i : Nat) (m : Bufs α)
    (hfit : Fits amsgrad true (begin_ + d + 2 * env.fVec_size) m)
    (hlo : begin_ + d ≤ i) (hhi : i < begin_ + d + 2 * env.fVec_size) :
    (vec_body_bf16 env s amsgrad begin_ d m).elem i =
      bf16_rule env s amsgrad (m.elem i) (rd m.grad i) := by
  obtain ⟨f1, f2, f3, f4, f5⟩ := hfit
  have f5' := f5 rfl
  have a3 : begin_ + d ≤ i ∧ i < begin_ + d + 2 * env.fVec_size ∧ i < m.param.length := by
    omega
  have a4 : begin_ + d ≤ i ∧ i < begin_ + d + 2 * env.fVec_size ∧ i < m.param2.length := by
    omega
  by_cases hA : i < begin_ + d + env.fVec_size
  · have hk : i - (begin_ + d) < env.fVec_size := by omega
    have hidx : begin_ + d + (i - (begin_ + d)) = i := by omega
    have a1 : begin_ + d ≤ i ∧ i < begin_ + d + env.fVec_size ∧ i < m.exp_avg.length := by omega
    have a2 : begin_ + d ≤ i ∧ i < begin_ + d + env.fVec_size ∧ i < m.exp_avg_sq.length := by
      omega
    have n1 : ¬ (begin_ + d + env.fVec_size ≤ i ∧
        i < begin_ + d + env.fVec_size + env.fVec_size ∧ i < m.exp_avg.length) := by omega
    have n2 : ¬ (begin_ + d + env.fVec_size ≤ i ∧
        i < begin_ + d + env.fVec_size + env.fVec_size ∧ i < m.exp_avg_sq.length) := by omega
    have n3 : ¬ (begin_ + d + env.fVec_size ≤ i ∧
        i < begin_ + d + env.fVec_size + env.fVec_size ∧ i < m.max_exp_avg_sq.length) := by
      omega
    by_cases hw : |s.exp_avg_grad_coefficient| < 1 / 2 <;>
    by_cases hwd : s.weight_decay = 0 <;>
    cases amsgrad
    all_goals first
      | (have a5 : begin_ + d ≤ i ∧ i < begin_ + d + env.fVec_size ∧
            i < m.max_exp_avg_sq.length := by
          have := f4 rfl
          omega
         simp only [vec_body_bf16, bf16_rule, generic_rule, Bufs.elem, rd_store, length_store,
          if_pos a1, if_pos a2, if_pos a3, if_pos a4, if_pos a5, if_neg n1, if_neg n2,
          if_neg n3, hw, hwd, ne_eq, not_true_eq_false, not_false_eq_true, if_true, if_false,
          Bool.false_eq_true, Vec.fmadd, Vec.blendv, Vec.lt, Vec.abs, Vec.const, Vec.loadu,
          Vec.maximum, Vec.sqrt, Vec.convert_bfloat16_float, Vec.pack_bfloat16_float,
          Vec.unpack_float_bfloat16, Pi.add_apply, Pi.mul_apply, Pi.sub_apply, Pi.div_apply,
          decide_True, decide_False, std_max_eq_max, hk, hidx, fma_small, fma_large])
      | simp only [vec_body_bf16, bf16_rule, generic_rule, Bufs.elem, rd_store, length_store,
          if_pos a1, if_pos a2, if_pos a3, if_pos a4, if_neg n1, if_neg n2,
          if_neg n3, hw, hwd, ne_eq, not_true_eq_false, not_false_eq_true, if_true, if_false,
          Bool.false_eq_true, Vec.fmadd, Vec.blendv, Vec.lt, Vec.abs, Vec.const, Vec.loadu,
          Vec.maximum, Vec.sqrt, Vec.convert_bfloat16_float, Vec.pack_bfloat16_float,
          Vec.unpack_float_bfloat16, Pi.add_apply, Pi.mul_apply, Pi.sub_apply, Pi.div_apply,
          decide_True, decide_False, std_max_eq_max, hk, hidx, fma_small, fma_large]
  · have hk : ¬ i - (begin_ + d) < env.fVec_size := by omega
    have hidx : begin_ + d + env.fVec_size + (i - (begin_ + d + env.fVec_size)) = i := by omega
    have hidx2 : begin_ + d + (env.fVec_size + (i - (begin_ + d + env.fVec_size))) = i := by
      omega
    have hidx3 : begin_ + d + env.fVec_size + (i - (begin_ + d) - env.fVec_size) = i := by
      omega
    have hidx4 : begin_ + d + (env.fVec_size + (i - (begin_ + d) - env.fVec_size)) = i := by
      omega
    have a1 : begin_ + d + env.fVec_size ≤ i ∧
        i < begin_ + d + env.fVec_size + env.fVec_size ∧ i < m.exp_avg.length := by omega
    have a2 : begin_ + d + env.fVec_size ≤ i ∧
        i < begin_ + d + env.fVec_size + env.fVec_size ∧ i < m.exp_avg_sq.length := by omega
    by_cases hw : |s.exp_avg_grad_coefficient| < 1 / 2 <;>
    by_cases hwd : s.weight_decay = 0 <;>
    cases amsgrad
    all_goals first
      | (have a5 : begin_ + d + env.fVec_size ≤ i ∧
            i < begin_ + d + env.fVec_size + env.fVec_size ∧
            i < m.max_exp_avg_sq.length := by
          have := f4 rfl
          omega
         simp only [vec_body_bf16, bf16_rule, generic_rule, Bufs.elem, rd_store, length_store,
          if_pos a1, if_pos a2, if_pos a3, if_pos a4, if_pos a5, hw, hwd, ne_eq,
          not_true_eq_false, not_false_eq_true, if_true, if_false,
          Bool.false_eq_true, Vec.fmadd, Vec.blendv, Vec.lt, Vec.abs, Vec.const, Vec.loadu,
          Vec.maximum, Vec.sqrt, Vec.convert_bfloat16_float, Vec.pack_bfloat16_float,
          Vec.unpack_float_bfloat16, Pi.add_apply, Pi.mul_apply, Pi.sub_apply, Pi.div_apply,
          decide_True, decide_False, std_max_eq_max, hk, hidx, hidx2, hidx3, hidx4,
          fma_small, fma_large])
      | simp only [vec_body_bf16, bf16_rule, generic_rule, Bufs.elem, rd_store, length_store,
          if_pos a1, if_pos a2, if_pos a3, if_pos a4, hw, hwd, ne_eq,
          not_true_eq_false, not_false_eq_true, if_true, if_false,
          Bool.false_eq_true, Vec.fmadd, Vec.blendv, Vec.lt, Vec.abs, Vec.const, Vec.loadu,
          Vec.maximum, Vec.sqrt, Vec.convert_bfloat16_float, Vec.pack_bfloat16_float,
          Vec.unpack_float_bfloat16, Pi.add_apply, Pi.mul_apply, Pi.sub_apply, Pi.div_apply,
          decide_True, decide_False, std_max_eq_max, hk, hidx, hidx2, hidx3, hidx4,
          fma_small, fma_large]

/-- A vector block of the `<at::BFloat16, at::BFloat16>` kernel leaves every element outside
the block as it was. -/
theorem vec_body_bf16_outside (env : Env α) (s : Scalars α) (amsgrad : Bool)
    (begin_ d i : Nat) (m : Bufs α)
    (hout : ¬ (begin_ + d ≤ i ∧ i < begin_ + d + 2 * env.fVec_size)) :
    (vec_body_bf16 env s amsgrad begin_ d m).elem i = m.elem i := by
  have n1 : ¬ (begin_ + d ≤ i ∧ i < begin_ + d + env.fVec_size ∧ i < m.exp_avg.length) := by
    omega
  have n2 : ¬ (begin_ + d ≤ i ∧ i < begin_ + d + env.fVec_size ∧ i < m.exp_avg_sq.length) := by
    omega
  have n3 : ¬ (begin_ + d ≤ i ∧ i < begin_ + d + env.fVec_size ∧
      i < m.max_exp_avg_sq.length) := by omega
  have n4 : ¬ (begin_ + d + env.fVec_size ≤ i ∧
      i < begin_ + d + env.fVec_size + env.fVec_size ∧ i < m.exp_avg.length) := by omega
  have n5 : ¬ (begin_ + d + env.fVec_size ≤ i ∧
      i < begin_ + d + env.fVec_size + env.fVec_size ∧ i < m.exp_avg_sq.length) := by omega
  have n6 : ¬ (begin_ + d + env.fVec_size ≤ i ∧
      i < begin_ + d + env.fVec_size + env.fVec_size ∧ i < m.max_exp_avg_sq.length) := by
    omega
  have n7 : ¬ (begin_ + d ≤ i ∧ i < begin_ + d + 2 * env.fVec_size ∧ i < m.param.length) := by
    omega
  have n8 : ¬ (begin_ + d ≤ i ∧ i < begin_ + d + 2 * env.fVec_size ∧ i < m.param2.length) := by
    omega
  cases amsgrad <;>
    simp only [vec_body_bf16, Bufs.elem, rd_store, length_store, if_neg n1, if_neg n2,
      if_neg n3, if_neg n4, if_neg n5, if_neg n6, if_neg n7, if_neg n8, Bool.false_eq_true,
      if_false, if_true]

theorem vec_body_bf16_updatedOn (env : Env α) (s : Scalars α) (amsgrad : Bool)
    (begin_ d : Nat) (m : Bufs α)
    (hfit : Fits amsgrad true (begin_ + d + 2 * env.fVec_size) m) :
    UpdatedOn (fun _ => bf16_rule env s amsgrad)
      (fun i => begin_ + d ≤ i ∧ i < begin_ + d + env.bVec_size) m
      (vec_body_bf16 env s amsgrad begin_ d m) :=
  ⟨vec_body_bf16_grad env s amsgrad begin_ d m, vec_body_bf16_lengths env s amsgrad begin_ d m,
    fun i => ⟨fun h => vec_body_bf16_block env s amsgrad begin_ d i m hfit h.1 h.2,
      fun h => vec_body_bf16_outside env s amsgrad begin_ d i m h⟩⟩

end Bf16Bodies

section Bf16ScalarBodies

variable {α : Type} [LinearOrderedField α]

theorem scalar_body_bf16_lengths (env : Env α) (s : Scalars α) (amsgrad : Bool)
    (begin_ d : Nat) (m : Bufs α) :
    SameLengths (scalar_body_bf16 env s amsgrad begin_ d m) m := by
  by_cases hw : |s.exp_avg_grad_coefficient| < 1 / 2 <;> cases amsgrad <;>
    simp only [scalar_body_bf16, SameLengths, List.length_set, and_self, Bool.false_eq_true,
      if_false, if_true, hw, decide_True, decide_False]

theorem scalar_body_bf16_updatedOn (env : Env α) (s : Scalars α) (amsgrad : Bool)
    (begin_ d : Nat) (m : Bufs α) (hfit : Fits amsgrad true (begin_ + d + 1) m) :
    UpdatedOn (fun _ => bf16_rule env s amsgrad)
      (fun i => begin_ + d ≤ i ∧ i < begin_ + d + 1) m
      (scalar_body_bf16 env s amsgrad begin_ d m) := by
  obtain ⟨f1, f2, f3, f4, f5⟩ := hfit
  have f5' := f5 rfl
  have l1 : begin_ + d < m.param.length := by omega
  have l2 : begin_ + d < m.exp_avg.length := by omega
  have l3 : begin_ + d < m.exp_avg_sq.length := by omega
  have l5 : begin_ + d < m.param2.length := by omega
  refine ⟨scalar_body_bf16_grad env s amsgrad begin_ d m,
    scalar_body_bf16_lengths env s amsgrad begin_ d m, fun i => ⟨fun h => ?_, fun h => ?_⟩⟩
  · have hi : i = begin_ + d := by omega
    subst hi
    by_cases hw : |s.exp_avg_grad_coefficient| < 1 / 2 <;>
    by_cases hwd : s.weight_decay = 0 <;>
    cases amsgrad
    all_goals first
      | (have l4 : begin_ + d < m.max_exp_avg_sq.length := by
          have := f4 rfl
          omega
         simp only [scalar_body_bf16, bf16_rule, generic_rule, Bufs.elem, rd_set,
          List.length_set, l1, l2, l3, l4, l5, and_self, hw, hwd, ne_eq, not_true_eq_false,
          not_false_eq_true, if_true, if_false, Bool.false_eq_true, decide_True, decide_False])
      | simp only [scalar_body_bf16, bf16_rule, generic_rule, Bufs.elem, rd_set,
          List.length_set, l1, l2, l3, l5, and_self, hw, hwd, ne_eq, not_true_eq_false,
          not_false_eq_true, if_true, if_false, Bool.false_eq_true, decide_True, decide_False]
  · have hi : ¬ begin_ + d = i := by omega
    by_cases hw : |s.exp_avg_grad_coefficient| < 1 / 2 <;> cases amsgrad <;>
      simp only [scalar_body_bf16, Bufs.elem, rd_set, hi, false_and, hw, if_true, if_false,
        Bool.false_eq_true, decide_True, decide_False]

end Bf16ScalarBodies

section FloatBf16Bodies

variable {α : Type} [LinearOrderedField α]

theorem vec_body_float_bf16_lengths (env : Env α) (s : Scalars α) (amsgrad : Bool)
    (begin_ d : Nat) (m : Bufs α) :
    SameLengths (vec_body_float_bf16 env s amsgrad begin_ d m) m := by
  cases amsgrad <;>
    simp only [vec_body_float_bf16, SameLengths, length_store, and_self, Bool.false_eq_true,
      if_false, if_true]

/-- Inside the buffers, every element of a vector block of the `<float, at::BFloat16>` kernel
ends with the values `float_bf16_rule` gives from its old values, narrowed by the vector
conversion. -/
theorem vec_body_float_bf16_block (env : Env α) (s : Scalars α) (amsgrad : Bool)
    (begin_ d i : Nat) (m : Bufs α)
    (hfit : Fits amsgrad true (begin_ + d + 2 * env.fVec_size) m)
    (hlo : begin_ + d ≤ i) (hhi : i < begin_ + d + 2 * env.fVec_size) :
    (vec_body_float_bf16 env s amsgrad begin_ d m).elem i =
      float_bf16_rule env env.convert_float_bfloat16 s amsgrad (m.elem i) (rd m.grad i) := by
  obtain ⟨f1, f2, f3, f4, f5⟩ := hfit
  have f5' := f5 rfl
  have a4 : begin_ + d ≤ i ∧ i < begin_ + d + 2 * env.fVec_size ∧ i < m.param2.length := by
    omega
  by_cases hA : i < begin_ + d + env.fVec_size
  · have hk : i - (begin_ + d) < env.fVec_size := by omega
    have hidx : begin_ + d + (i - (begin_ + d)) = i := by omega
    have a1 : begin_ + d ≤ i ∧ i < begin_ + d + env.fVec_size ∧ i < m.exp_avg.length := by omega
    have a2 : begin_ + d ≤ i ∧ i < begin_ + d + env.fVec_size ∧ i < m.exp_avg_sq.length := by
      omega
    have a3 : begin_ + d ≤ i ∧ i < begin_ + d + env.fVec_size ∧ i < m.param.length := by omega
    have n1 : ¬ (begin_ + d + env.fVec_size ≤ i ∧
        i < begin_ + d + env.fVec_size + env.fVec_size ∧ i < m.exp_avg.length) := by omega
    have n2 : ¬ (begin_ + d + env.fVec_size ≤ i ∧
        i < begin_ + d + env.fVec_size + env.fVec_size ∧ i < m.exp_avg_sq.length) := by omega
    have n3 : ¬ (begin_ + d + env.fVec_size ≤ i ∧
        i < begin_ + d + env.fVec_size + env.fVec_size ∧ i < m.max_exp_avg_sq.length) := by
      omega
    have n4 : ¬ (begin_ + d + env.fVec_size ≤ i ∧
        i < begin_ + d + env.fVec_size + env.fVec_size ∧ i < m.param.length) := by omega
    by_cases hw : |s.exp_avg_grad_coefficient| < 1 / 2 <;>
    by_cases hwd : s.weight_decay = 0 <;>
    cases amsgrad
    all_goals first
      | (have a5 : begin_ + d ≤ i ∧ i < begin_ + d + env.fVec_size ∧
            i < m.max_exp_avg_sq.length := by
          have := f4 rfl
          omega
         simp only [vec_body_float_bf16, float_bf16_rule, generic_rule, Bufs.elem, rd_store,
          length_store, if_pos a1, if_pos a2, if_pos a3, if_pos a4, if_pos a5, if_neg n1,
          if_neg n2, if_neg n3, if_neg n4, hw, hwd, ne_eq, not_true_eq_false,
          not_false_eq_true, if_true, if_false,
          Bool.false_eq_true, Vec.fmadd, Vec.blendv, Vec.lt, Vec.abs, Vec.const, Vec.loadu,
          Vec.maximum, Vec.sqrt, Vec.convert_bfloat16_float, Vec.convert_float_bfloat16,
          Pi.add_apply, Pi.mul_apply, Pi.sub_apply, Pi.div_apply,
          decide_True, decide_False, std_max_eq_max, hk, hidx, fma_small, fma_large])
      | simp only [vec_body_float_bf16, float_bf16_rule, generic_rule, Bufs.elem, rd_store,
          length_store, if_pos a1, if_pos a2, if_pos a3, if_pos a4, if_neg n1,
          if_neg n2, if_neg n3, if_neg n4, hw, hwd, ne_eq, not_true_eq_false,
          not_false_eq_true, if_true, if_false,
          Bool.false_eq_true, Vec.fmadd, Vec.blendv, Vec.lt, Vec.abs, Vec.const, Vec.loadu,
          Vec.maximum, Vec.sqrt, Vec.convert_bfloat16_float, Vec.convert_float_bfloat16,
          Pi.add_apply, Pi.mul_apply, Pi.sub_apply, Pi.div_apply,
          decide_True, decide_False, std_max_eq_max, hk, hidx, fma_small, fma_large]
  · have hk : ¬ i - (begin_ + d) < env.fVec_size := by omega
    have hidx : begin_ + d + env.fVec_size + (i - (begin_ + d + env.fVec_size)) = i := by omega
    have hidx2 : begin_ + d + (env.fVec_size + (i - (begin_ + d + env.fVec_size))) = i := by
      omega
    have hidx3 : begin_ + d + env.fVec_size + (i - (begin_ + d) - env.fVec_size) = i := by
      omega
    have hidx4 : begin_ + d + (env.fVec_size + (i - (begin_ + d) - env.fVec_size)) = i := by
      omega
    have a1 : begin_ + d + env.fVec_size ≤ i ∧
        i < begin_ + d + env.fVec_size + env.fVec_size ∧ i < m.exp_avg.length := by omega
    have a2 : begin_ + d + env.fVec_size ≤ i ∧
        i < begin_ + d + env.fVec_size + env.fVec_size ∧ i < m.exp_avg_sq.length := by omega
    have a3 : begin_ + d + env.fVec_size ≤ i ∧
        i < begin_ + d + env.fVec_size + env.fVec_size ∧ i < m.param.length := by omega
    by_cases hw : |s.exp_avg_grad_coefficient| < 1 / 2 <;>
    by_cases hwd : s.weight_decay = 0 <;>
    cases amsgrad
    all_goals first
      | (have a5 : begin_ + d + env.fVec_size ≤ i ∧
            i < begin_ + d + env.fVec_size + env.fVec_size ∧
            i < m.max_exp_avg_sq.length := by
          have := f4 rfl
          omega
         simp only [vec_body_float_bf16, float_bf16_rule, generic_rule, Bufs.elem, rd_store,
          length_store, if_pos a1, if_pos a2, if_pos a3, if_pos a4, if_pos a5, hw, hwd, ne_eq,
          not_true_eq_false, not_false_eq_true, if_true, if_false,
          Bool.false_eq_true, Vec.fmadd, Vec.blendv, Vec.lt, Vec.abs, Vec.const, Vec.loadu,
          Vec.maximum, Vec.sqrt, Vec.convert_bfloat16_float, Vec.convert_float_bfloat16,
          Pi.add_apply, Pi.mul_apply, Pi.sub_apply, Pi.div_apply,
          decide_True, decide_False, std_max_eq_max, hk, hidx, hidx2, hidx3, hidx4,
          fma_small, fma_large])
      | simp only [vec_body_float_bf16, float_bf16_rule, generic_rule, Bufs.elem, rd_store,
          length_store, if_pos a1, if_pos a2, if_pos a3, if_pos a4, hw, hwd, ne_eq,
          not_true_eq_false, not_false_eq_true, if_true, if_false,
          Bool.false_eq_true, Vec.fmadd, Vec.blendv, Vec.lt, Vec.abs, Vec.const, Vec.loadu,
          Vec.maximum, Vec.sqrt, Vec.convert_bfloat16_float, Vec.convert_float_bfloat16,
          Pi.add_apply, Pi.mul_apply, Pi.sub_apply, Pi.div_apply,
          decide_True, decide_False, std_max_eq_max, hk, hidx, hidx2, hidx3, hidx4,
          fma_small, fma_large]

/-- A vector block of the `<float, at::BFloat16>` kernel leaves every element outside the
block as it was. -/
theorem vec_body_float_bf16_outside (env : Env α) (s : Scalars α) (amsgrad : Bool)
    (begin_ d i : Nat) (m : Bufs α)
    (hout : ¬ (begin_ + d ≤ i ∧ i < begin_ + d + 2 * env.fVec_size)) :
    (vec_body_float_bf16 env s amsgrad begin_ d m).elem i = m.elem i := by
  have n1 : ¬ (begin_ + d ≤ i ∧ i < begin_ + d + env.fVec_size ∧ i < m.exp_avg.length) := by
    omega
  have n2 : ¬ (begin_ + d ≤ i ∧ i < begin_ + d + env.fVec_size ∧ i < m.exp_avg_sq.length) := by
    omega
  have n3 : ¬ (begin_ + d ≤ i ∧ i < begin_ + d + env.fVec_size ∧
      i < m.max_exp_avg_sq.length) := by omega
  have n4 : ¬ (begin_ + d + env.fVec_size ≤ i ∧
      i < begin_ + d + env.fVec_size + env.fVec_size ∧ i < m.exp_avg.length) := by omega
  have n5 : ¬ (begin_ + d + env.fVec_size ≤ i ∧
      i < begin_ + d + env.fVec_size + env.fVec_size ∧ i < m.exp_avg_sq.length) := by omega
  have n6 : ¬ (begin_ + d + env.fVec_size ≤ i ∧
      i < begin_ + d + env.fVec_size + env.fVec_size ∧ i < m.max_exp_avg_sq.length) := by
    omega
  have n7 : ¬ (begin_ + d ≤ i ∧ i < begin_ + d + env.fVec_size ∧ i < m.param.length) := by
    omega
  have n8 : ¬ (begin_ + d + env.fVec_size ≤ i ∧
      i < begin_ + d + env.fVec_size + env.fVec_size ∧ i < m.param.length) := by omega
  have n9 : ¬ (begin_ + d ≤ i ∧ i < begin_ + d + 2 * env.fVec_size ∧ i < m.param2.length) := by
    omega
  cases amsgrad <;>
    simp only [vec_body_float_bf16, Bufs.elem, rd_store, length_store, if_neg n1, if_neg n2,
      if_neg n3, if_neg n4, if_neg n5, if_neg n6, if_neg n7, if_neg n8, if_neg n9,
      Bool.false_eq_true, if_false, if_true]

theorem vec_body_float_bf16_updatedOn (env : Env α) (s : Scalars α) (amsgrad : Bool)
    (begin_ d : Nat) (m : Bufs α)
    (hfit : Fits amsgrad true (begin_ + d + 2 * env.fVec_size) m) :
    UpdatedOn (fun _ => float_bf16_rule env env.convert_float_bfloat16 s amsgrad)
      (fun i => begin_ + d ≤ i ∧ i < begin_ + d + env.bVec_size) m
      (vec_body_float_bf16 env s amsgrad begin_ d m) :=
  ⟨vec_body_float_bf16_grad env s amsgrad begin_ d m,
    vec_body_float_bf16_lengths env s amsgrad begin_ d m,
    fun i => ⟨fun h => vec_body_float_bf16_block env s amsgrad begin_ d i m hfit h.1 h.2,
      fun h => vec_body_float_bf16_outside env s amsgrad begin_ d i m h⟩⟩

theorem scalar_body_float_bf16_lengths (env : Env α) (s : Scalars α) (amsgrad : Bool)
    (begin_ d : Nat) (m : Bufs α) :
    SameLengths (scalar_body_float_bf16 env s amsgrad begin_ d m) m := by
  by_cases hw : |s.exp_avg_grad_coefficient| < 1 / 2 <;> cases amsgrad <;>
    simp only [scalar_body_float_bf16, SameLengths, List.length_set, and_self,
      Bool.false_eq_true, if_false, if_true, hw, decide_True, decide_False]

theorem scalar_body_float_bf16_updatedOn (env : Env α) (s : Scalars α) (amsgrad : Bool)
    (begin_ d : Nat) (m : Bufs α) (hfit : Fits amsgrad true (begin_ + d + 1) m) :
    UpdatedOn (fun _ => float_bf16_rule env env.to_BFloat16 s amsgrad)
      (fun i => begin_ + d ≤ i ∧ i < begin_ + d + 1) m
      (scalar_body_float_bf16 env s amsgrad begin_ d m) := by
  obtain ⟨f1, f2, f3, f4, f5⟩ := hfit
  have f5' := f5 rfl
  have l1 : begin_ + d < m.param.length := by omega
  have l2 : begin_ + d < m.exp_avg.length := by omega
  have l3 : begin_ + d < m.exp_avg_sq.length := by omega
  have l5 : begin_ + d < m.param2.length := by omega
  refine ⟨scalar_body_float_bf16_grad env s amsgrad begin_ d m,
    scalar_body_float_bf16_lengths env s amsgrad begin_ d m,
    fun i => ⟨fun h => ?_, fun h => ?_⟩⟩
  · have hi : i = begin_ + d := by omega
    subst hi
    by_cases hw : |s.exp_avg_grad_coefficient| < 1 / 2 <;>
    by_cases hwd : s.weight_decay = 0 <;>
    cases amsgrad
    all_goals first
      | (have l4 : begin_ + d < m.max_exp_avg_sq.length := by
          have := f4 rfl
          omega
         simp only [scalar_body_float_bf16, float_bf16_rule, generic_rule, Bufs.elem, rd_set,
          List.length_set, l1, l2, l3, l4, l5, and_self, hw, hwd, ne_eq, not_true_eq_false,
          not_false_eq_true, if_true, if_false, Bool.false_eq_true, decide_True, decide_False])
      | simp only [scalar_body_float_bf16, float_bf16_rule, generic_rule, Bufs.elem, rd_set,
          List.length_set, l1, l2, l3, l5, and_self, hw, hwd, ne_eq, not_true_eq_false,
          not_false_eq_true, if_true, if_false, Bool.false_eq_true, decide_True, decide_False]
  · have hi : ¬ begin_ + d = i := by omega
    by_cases hw : |s.exp_avg_grad_coefficient| < 1 / 2 <;> cases amsgrad <;>
      simp only [scalar_body_float_bf16, Bufs.elem, rd_set, hi, false_and, hw, if_true,
        if_false, Bool.false_eq_true, decide_True, decide_False]

end FloatBf16Bodies

section RangeRules

variable {α : Type} [LinearOrderedField α]

/-- The closed forms of the generic kernel are the fields of `generic_rule`. -/
theorem Updated.updatedOn (env : Env α) (s : Scalars α) (amsgrad : Bool) (lo hi : Nat)
    (m0 m : Bufs α) (h : Updated env s amsgrad lo hi m0 m) :
    UpdatedOn (fun _ => generic_rule env s amsgrad) (fun i => lo ≤ i ∧ i < hi) m0 m := by
  obtain ⟨h1, h2, h3, h4, h5, h6, h7, h8⟩ := h
  refine ⟨h1, ⟨h3, h4, h5, h6, by rw [h2]⟩, fun i => ⟨fun hS => ?_, fun hS => ?_⟩⟩
  · obtain ⟨p, a, q, x⟩ := h8 i
    rw [if_pos hS] at p a q
    cases amsgrad
    · have hx : ¬ (false = true ∧ lo ≤ i ∧ i < hi) := fun h => Bool.noConfusion h.1
      rw [if_neg hx] at x
      simp only [Bufs.elem, p, a, q, x, h2, generic_rule, new_param, new_exp_avg,
        new_exp_avg_sq, demon_val, grad_val, Bool.false_eq_true, if_false]
    · have hx : true = true ∧ lo ≤ i ∧ i < hi := ⟨rfl, hS⟩
      rw [if_pos hx] at x
      simp only [Bufs.elem, p, a, q, x, h2, generic_rule, new_param, new_exp_avg,
        new_exp_avg_sq, new_max_exp_avg_sq, demon_val, grad_val, if_true]
  · obtain ⟨p, a, q, x⟩ := h8 i
    rw [if_neg hS] at p a q
    have hx : ¬ (amsgrad = true ∧ lo ≤ i ∧ i < hi) := fun h => hS h.2
    rw [if_neg hx] at x
    simp only [Bufs.elem, p, a, q, x, h2]

theorem range_body_updatedOn (env : Env α) (scalar_t : PlainType) (s : Scalars α)
    (amsgrad : Bool) (lo hi : Nat) (m : Bufs α) (hle : lo ≤ hi)
    (hfit : Fits amsgrad false hi m) :
    UpdatedOn (fun _ => generic_rule env s amsgrad) (fun i => lo ≤ i ∧ i < hi) m
      (range_body env scalar_t s amsgrad lo hi m) :=
  (range_body_updated env scalar_t s amsgrad lo hi m hle hfit.1 hfit.2.1 hfit.2.2.1
    hfit.2.2.2.1).updatedOn

theorem range_body_bf16_updatedOn (env : Env α) (s : Scalars α)
    (amsgrad : Bool) (lo hi : Nat) (m : Bufs α) (hle : lo ≤ hi)
    (hfit : Fits amsgrad true hi m) :
    UpdatedOn (fun _ => bf16_rule env s amsgrad) (fun i => lo ≤ i ∧ i < hi) m
      (range_body_bf16 env s amsgrad lo hi m) := by
  have hL : env.bVec_size = 2 * env.fVec_size := rfl
  have h := range_loops_updatedOn (fun _ => bf16_rule env s amsgrad)
    (fun _ => bf16_rule env s amsgrad) (vec_body_bf16 env s amsgrad lo)
    (scalar_body_bf16 env s amsgrad lo) env.bVec_size lo hi amsgrad true
    (fun d m' hf hd => vec_body_bf16_updatedOn env s amsgrad lo d m' (hf.mono (by omega)))
    (fun d m' hf hd => scalar_body_bf16_updatedOn env s amsgrad lo d m' (hf.mono (by omega)))
    m hfit hle
  exact h.congr_rule (fun i _ => ite_self _)

/-- The rule the `<float, at::BFloat16>` range body applies to element `i` of the range
`[lo, hi)`: the vector narrowing in the vector blocks, the scalar narrowing after them. -/
theorem range_body_float_bf16_updatedOn (env : Env α) (s : Scalars α)
    (amsgrad : Bool) (lo hi : Nat) (m : Bufs α) (hle : lo ≤ hi)
    (hfit : Fits amsgrad true hi m) :
    UpdatedOn
      (fun i => if i < lo + ((hi - lo) - (hi - lo) % env.bVec_size) then
          float_bf16_rule env env.convert_float_bfloat16 s amsgrad
        else float_bf16_rule env env.to_BFloat16 s amsgrad)
      (fun i => lo ≤ i ∧ i < hi) m (range_body_float_bf16 env s amsgrad lo hi m) := by
  have hL : env.bVec_size = 2 * env.fVec_size := rfl
  exact range_loops_updatedOn (fun _ => float_bf16_rule env env.convert_float_bfloat16 s amsgrad)
    (fun _ => float_bf16_rule env env.to_BFloat16 s amsgrad)
    (vec_body_float_bf16 env s amsgrad lo)
    (scalar_body_float_bf16 env s amsgrad lo) env.bVec_size lo hi amsgrad true
    (fun d m' hf hd =>
      vec_body_float_bf16_updatedOn env s amsgrad lo d m' (hf.mono (by omega)))
    (fun d m' hf hd =>
      scalar_body_float_bf16_updatedOn env s amsgrad lo d m' (hf.mono (by omega)))
    m hfit hle

/-- Every kernel instantiation updates the elements of its range by its scalar rule, once
the vector narrowing of the `<float, at::BFloat16>` kernel agrees with the scalar one. -/
theorem variant_range_body_updatedOn (env : Env α) (v : Variant) (s : Scalars α)
    (amsgrad : Bool)
    (hconv : v = Variant.float_bfloat16 →
      ∀ x, env.convert_float_bfloat16 x = env.to_BFloat16 x)
    (lo hi : Nat) (m : Bufs α) (hle : lo ≤ hi) (hfit : Fits amsgrad v.uses_param2 hi m) :
    UpdatedOn (fun _ => variant_rule env v s amsgrad) (fun i => lo ≤ i ∧ i < hi) m
      (variant_range_body env v s amsgrad lo hi m) := by
  cases v
  · exact range_body_updatedOn env .float s amsgrad lo hi m hle hfit
  · exact range_body_updatedOn env .double s amsgrad lo hi m hle hfit
  · exact range_body_bf16_updatedOn env s amsgrad lo hi m hle hfit
  · have hc : env.convert_float_bfloat16 = env.to_BFloat16 := funext (hconv rfl)
    have h := range_body_float_bf16_updatedOn env s amsgrad lo hi m hle hfit
    rw [hc] at h
    exact h.congr_rule (fun i _ => ite_self _)

end RangeRules

section ChunkIndependence

variable {α : Type} [LinearOrderedField α]

end ChunkIndependence

section SuccessfulCall

theorem contiguous_bufs {β : Type} (t : Tensors β) : t.contiguous.bufs = t.bufs := by
  simp only [Tensors.bufs, Tensors.contiguous, contiguous_data]

theorem view_after_same_data {β : Type} (orig work : Tensor β) (h : work.data = orig.data) :
    (orig.view_after work).data = orig.data := by
  rw [view_after_data orig work h]

variable {α : Type} [LinearOrderedField α]

theorem variant_range_body_grad (env : Env α) (v : Variant) (s : Scalars α) (amsgrad : Bool)
    (b e : Nat) (m : Bufs α) : (variant_range_body env v s amsgrad b e m).grad = m.grad := by
  cases v
  · exact range_body_grad env .float s amsgrad b e m
  · exact range_body_grad env .double s amsgrad b e m
  · exact range_body_bf16_grad env s amsgrad b e m
  · exact range_body_float_bf16_grad env s amsgrad b e m

/-- The buffers the caller holds after a call that returns: those the parallel loop of the
selected kernel leaves, started on the caller's own values. -/
theorem impl_success_bufs (env : Env α) (t_ : Tensors α) (amsgrad : Bool)
    (step beta1 beta2 learning_rate weight_decay eps : α) (v : Variant)
    (hv : select_kernel t_.grad.scalar_type t_.param.scalar_type = some v)
    (hok : (adam_fused_step_kernel_impl env t_ amsgrad step beta1 beta2 learning_rate
      weight_decay eps).error = none) :
    (adam_fused_step_kernel_impl env t_ amsgrad step beta1 beta2 learning_rate
      weight_decay eps).mem.bufs =
      run_parallel_for env 0 t_.param.numel 512
        (variant_range_body env v
          (kernel_scalars env step beta1 beta2 learning_rate weight_decay eps) amsgrad)
        t_.bufs := by
  have hg : ∀ m : Bufs α,
      (run_parallel_for env 0 t_.param.numel 512
        (variant_range_body env v
          (kernel_scalars env step beta1 beta2 learning_rate weight_decay eps) amsgrad)
        m).grad = m.grad := fun m =>
    run_parallel_for_pres (fun m' => m'.grad = m.grad) env _
      (fun b e m' h => (variant_range_body_grad env v _ amsgrad b e m').trans h) _ _ _ m rfl
  have hn : t_.contiguous.param.numel = t_.param.numel := by
    show t_.param.contiguous.data.length = t_.param.data.length
    rw [contiguous_data]
  unfold adam_fused_step_kernel_impl at hok ⊢
  simp only [hv, caller_view_error] at hok ⊢
  rw [run_kernel_eq] at hok ⊢
  cases hc : variant_checks v t_.contiguous with
  | error e =>
    rw [hc] at hok
    cases hok
  | ok u =>
    simp only [caller_view_mem, hn, contiguous_bufs]
    generalize hX : run_parallel_for env 0 t_.param.numel 512
      (variant_range_body env v
        (kernel_scalars env step beta1 beta2 learning_rate weight_decay eps) amsgrad)
      t_.bufs = X
    have hgX : X.grad = t_.grad.data := by
      rw [← hX, hg]
      rfl
    have hview : (t_.grad.view_after
        ({ t_.contiguous.grad with data := X.grad } : Tensor α)).data = X.grad := by
      rw [view_after_same_data _ _ (by exact hgX), hgX]
    cases X with
    | mk p a q x g p2 =>
      simp only [Tensors.bufs, Tensors.with_bufs] at hview ⊢
      rw [hview]

end SuccessfulCall

section CoverAndSplit

variable {α : Type} [LinearOrderedField α]

/-- A property of single elements that every chunk run establishes on its own range holds,
after the chunks of a schedule, on every element some chunk covers. -/
theorem foldl_cover_elem (Q : Elem α → Prop) (f : Nat → Nat → Bufs α → Bufs α)
    (amsgrad split : Bool) (N : Nat)
    (hf : ∀ b e m, b ≤ e → e ≤ N → Fits amsgrad split N m →
      SameLengths (f b e m) m ∧
      ∀ i, (b ≤ i ∧ i < e → Q ((f b e m).elem i)) ∧
        (¬ (b ≤ i ∧ i < e) → (f b e m).elem i = m.elem i)) :
    ∀ (chunks : List (Nat × Nat)) (m : Bufs α), Fits amsgrad split N m →
      (∀ c ∈ chunks, c.1 ≤ c.2 ∧ c.2 ≤ N) →
      ∀ i, (Q (m.elem i) ∨ ∃ c ∈ chunks, c.1 ≤ i ∧ i < c.2) →
        Q ((chunks.foldl (fun acc c => f c.1 c.2 acc) m).elem i) := by
  intro chunks
  induction chunks with
  | nil =>
    intro m _ _ i h
    rcases h with h | ⟨c, hc, _⟩
    · exact h
    · cases hc
  | cons c cs ih =>
    intro m hfit hb i h
    rw [List.foldl_cons]
    have hc := hb c (List.mem_cons_self _ _)
    have hstep := hf c.1 c.2 m hc.1 hc.2 hfit
    apply ih (f c.1 c.2 m) (hfit.of_same_lengths hstep.1)
      (fun c' hc' => hb c' (List.mem_cons_of_mem _ hc')) i
    by_cases hin : c.1 ≤ i ∧ i < c.2
    · exact Or.inl ((hstep.2 i).1 hin)
    · rcases h with h | ⟨c', hc', hi'⟩
      · left
        rw [(hstep.2 i).2 hin]
        exact h
      · rcases List.mem_cons.1 hc' with rfl | hmem
        · exact absurd hi' hin
        · exact Or.inr ⟨c', hmem, hi'⟩

theorem float_bf16_rule_param2 (env : Env α) (conv : α → α) (s : Scalars α) (amsgrad : Bool)
    (e : Elem α) (x g : α) :
    float_bf16_rule env conv s amsgrad { e with param2 := x } g =
      float_bf16_rule env conv s amsgrad e g := rfl

theorem float_bf16_rule_mirror (env : Env α) (conv : α → α) (s : Scalars α) (amsgrad : Bool)
    (e : Elem α) (g : α) :
    (float_bf16_rule env conv s amsgrad e g).param2 =
      conv (float_bf16_rule env conv s amsgrad e g).param := rfl

theorem elem_with_param2 (m : Bufs α) (p2 : List α) (i : Nat) :
    ({ m with param2 := p2 } : Bufs α).elem i = { m.elem i with param2 := rd p2 i } := rfl

/-- The `<float, at::BFloat16>` range body gives every element the same new values whatever
`param2` held before. -/
theorem range_body_float_bf16_elem_subst (env : Env α) (s : Scalars α) (amsgrad : Bool)
    (lo hi : Nat) (m : Bufs α) (p2 : List α) (hle : lo ≤ hi)
    (hfit : Fits amsgrad true hi m) (hp2 : hi ≤ p2.length) (i : Nat) :
    (range_body_float_bf16 env s amsgrad lo hi { m with param2 := p2 }).elem i =
      if lo ≤ i ∧ i < hi then (range_body_float_bf16 env s amsgrad lo hi m).elem i
      else { (range_body_float_bf16 env s amsgrad lo hi m).elem i with param2 := rd p2 i } := by
  have hfit' : Fits amsgrad true hi ({ m with param2 := p2 } : Bufs α) :=
    ⟨hfit.1, hfit.2.1, hfit.2.2.1, hfit.2.2.2.1, fun _ => hp2⟩
  have h1 := range_body_float_bf16_updatedOn env s amsgrad lo hi m hle hfit
  have h2 := range_body_float_bf16_updatedOn env s amsgrad lo hi _ hle hfit'
  by_cases hS : lo ≤ i ∧ i < hi
  · rw [if_pos hS, (h1.2.2 i).1 hS, (h2.2.2 i).1 hS, elem_with_param2]
    by_cases hv : i < lo + (hi - lo - (hi - lo) % env.bVec_size)
    · simp only [if_pos hv]
      exact float_bf16_rule_param2 env _ s amsgrad _ _ _
    · simp only [if_neg hv]
      exact float_bf16_rule_param2 env _ s amsgrad _ _ _
  · rw [if_neg hS, (h1.2.2 i).2 hS, (h2.2.2 i).2 hS, elem_with_param2]

theorem range_body_float_bf16_param2_subst (env : Env α) (s : Scalars α) (amsgrad : Bool)
    (lo hi : Nat) (m : Bufs α) (p2 : List α) (hle : lo ≤ hi)
    (hfit : Fits amsgrad true hi m) (hp2 : hi ≤ p2.length) :
    (range_body_float_bf16 env s amsgrad lo hi { m with param2 := p2 }).param =
      (range_body_float_bf16 env s amsgrad lo hi m).param ∧
    (range_body_float_bf16 env s amsgrad lo hi { m with param2 := p2 }).exp_avg =
      (range_body_float_bf16 env s amsgrad lo hi m).exp_avg ∧
    (range_body_float_bf16 env s amsgrad lo hi { m with param2 := p2 }).exp_avg_sq =
      (range_body_float_bf16 env s amsgrad lo hi m).exp_avg_sq ∧
    (range_body_float_bf16 env s amsgrad lo hi { m with param2 := p2 }).max_exp_avg_sq =
      (range_body_float_bf16 env s amsgrad lo hi m).max_exp_avg_sq := by
  have hfit' : Fits amsgrad true hi ({ m with param2 := p2 } : Bufs α) :=
    ⟨hfit.1, hfit.2.1, hfit.2.2.1, hfit.2.2.2.1, fun _ => hp2⟩
  have h1 := (range_body_float_bf16_updatedOn env s amsgrad lo hi m hle hfit).2.1
  have h2 := (range_body_float_bf16_updatedOn env s amsgrad lo hi _ hle hfit').2.1
  have he := range_body_float_bf16_elem_subst env s amsgrad lo hi m p2 hle hfit hp2
  have hf : ∀ i (π : Elem α → α),
      (∀ e x, π { e with param2 := x } = π e) →
      π ((range_body_float_bf16 env s amsgrad lo hi { m with param2 := p2 }).elem i) =
        π ((range_body_float_bf16 env s amsgrad lo hi m).elem i) := by
    intro i π hπ
    rw [he i]
    split
    · rfl
    · exact hπ _ _
  refine ⟨?_, ?_, ?_, ?_⟩
  · exact list_ext_rd _ _ (h2.1.trans h1.1.symm) (fun i => hf i Elem.param (fun _ _ => rfl))
  · exact list_ext_rd _ _ (h2.2.1.trans h1.2.1.symm)
      (fun i => hf i Elem.exp_avg (fun _ _ => rfl))
  · exact list_ext_rd _ _ (h2.2.2.1.trans h1.2.2.1.symm)
      (fun i => hf i Elem.exp_avg_sq (fun _ _ => rfl))
  · exact list_ext_rd _ _ (h2.2.2.2.1.trans h1.2.2.2.1.symm)
      (fun i => hf i Elem.max_exp_avg_sq (fun _ _ => rfl))

end CoverAndSplit

section MirroredParam

variable {α : Type} [LinearOrderedField α]

/-- C15: for every element `i` of a range processed by the `<float, at::BFloat16>` kernel,
`param2[i]` ends as the bfloat16 narrowing of the updated `param[i]`: the vector narrowing
`convert_float_bfloat16` for the elements of the vector blocks, the scalar `at::BFloat16(x)`
for the trailing elements; the four float buffers and `param2[i]` come out the same whatever
`param2` held before; and after a call that selects this kernel and returns, every element
the schedule covers has `param2[j]` equal to one of the two narrowings of `param[j]`. -/
theorem C15_param2_mirrors_param (env : Env α) (s : Scalars α) (amsgrad : Bool)
    (begin_ end_ i : Nat) (m : Bufs α) (p2 : List α)
    (hle : begin_ ≤ end_) (hfit : Fits amsgrad true end_ m) (hp2 : end_ ≤ p2.length)
    (hlo : begin_ ≤ i) (hhi : i < end_) :
    (rd (range_body_float_bf16 env s amsgrad begin_ end_ m).param2 i =
      if i < begin_ + ((end_ - begin_) - (end_ - begin_) % env.bVec_size) then
        env.convert_float_bfloat16 (rd (range_body_float_bf16 env s amsgrad begin_ end_ m).param i)
      else env.to_BFloat16 (rd (range_body_float_bf16 env s amsgrad begin_ end_ m).param i)) ∧
    ((range_body_float_bf16 env s amsgrad begin_ end_ { m with param2 := p2 }).param =
        (range_body_float_bf16 env s amsgrad begin_ end_ m).param ∧
      (range_body_float_bf16 env s amsgrad begin_ end_ { m with param2 := p2 }).exp_avg =
        (range_body_float_bf16 env s amsgrad begin_ end_ m).exp_avg ∧
      (range_body_float_bf16 env s amsgrad begin_ end_ { m with param2 := p2 }).exp_avg_sq =
        (range_body_float_bf16 env s amsgrad begin_ end_ m).exp_avg_sq ∧
      (range_body_float_bf16 env s amsgrad begin_ end_ { m with param2 := p2 }).max_exp_avg_sq =
        (range_body_float_bf16 env s amsgrad begin_ end_ m).max_exp_avg_sq ∧
      rd (range_body_float_bf16 env s amsgrad begin_ end_ { m with param2 := p2 }).param2 i =
        rd (range_body_float_bf16 env s amsgrad begin_ end_ m).param2 i) ∧
    (∀ (t_ : Tensors α) (step beta1 beta2 learning_rate weight_decay eps : α),
      select_kernel t_.grad.scalar_type t_.param.scalar_type = some Variant.float_bfloat16 →
      (adam_fused_step_kernel_impl env t_ amsgrad step beta1 beta2 learning_rate
        weight_decay eps).error = none →
      (∀ c ∈ env.parallel_for 0 t_.param.numel 512, c.1 ≤ c.2 ∧ c.2 ≤ t_.param.numel) →
      Fits amsgrad true t_.param.numel t_.bufs →
      ∀ j, (∃ c ∈ env.parallel_for 0 t_.param.numel 512, c.1 ≤ j ∧ j < c.2) →
        rd (adam_fused_step_kernel_impl env t_ amsgrad step beta1 beta2 learning_rate
            weight_decay eps).mem.param2.data j =
          env.convert_float_bfloat16
            (rd (adam_fused_step_kernel_impl env t_ amsgrad step beta1 beta2 learning_rate
              weight_decay eps).mem.param.data j) ∨
        rd (adam_fused_step_kernel_impl env t_ amsgrad step beta1 beta2 learning_rate
            weight_decay eps).mem.param2.data j =
          env.to_BFloat16
            (rd (adam_fused_step_kernel_impl env t_ amsgrad step beta1 beta2 learning_rate
              weight_decay eps).mem.param.data j)) := by
  refine ⟨?_, ?_, ?_⟩
  · have hU := ((range_body_float_bf16_updatedOn env s amsgrad begin_ end_ m hle hfit).2.2
      i).1 ⟨hlo, hhi⟩
    show ((range_body_float_bf16 env s amsgrad begin_ end_ m).elem i).param2 = _
    have hp : rd (range_body_float_bf16 env s amsgrad begin_ end_ m).param i =
        ((range_body_float_bf16 env s amsgrad begin_ end_ m).elem i).param := rfl
    rw [hp, hU]
    by_cases hv : i < begin_ + ((end_ - begin_) - (end_ - begin_) % env.bVec_size)
    · simp only [if_pos hv]
      exact float_bf16_rule_mirror env _ s amsgrad _ _
    · simp only [if_neg hv]
      exact float_bf16_rule_mirror env _ s amsgrad _ _
  · obtain ⟨e1, e2, e3, e4⟩ :=
      range_body_float_bf16_param2_subst env s amsgrad begin_ end_ m p2 hle hfit hp2
    refine ⟨e1, e2, e3, e4, ?_⟩
    have he := range_body_float_bf16_elem_subst env s amsgrad begin_ end_ m p2 hle hfit hp2 i
    rw [if_pos ⟨hlo, hhi⟩] at he
    exact congrArg Elem.param2 he
  · intro t_ step beta1 beta2 learning_rate weight_decay eps hv hok hb hfit' j hj
    have hbufs := impl_success_bufs env t_ amsgrad step beta1 beta2 learning_rate
      weight_decay eps Variant.float_bfloat16 hv hok
    have key := foldl_cover_elem
      (fun e : Elem α => e.param2 = env.convert_float_bfloat16 e.param ∨
        e.param2 = env.to_BFloat16 e.param)
      (range_body_float_bf16 env
        (kernel_scalars env step beta1 beta2 learning_rate weight_decay eps) amsgrad)
      amsgrad true t_.param.numel
      (fun b e m' hbe hN hf => by
        have hU := range_body_float_bf16_updatedOn env
          (kernel_scalars env step beta1 beta2 learning_rate weight_decay eps) amsgrad b e m'
          hbe (hf.mono hN)
        refine ⟨hU.2.1, fun k => ⟨fun hk => ?_, (hU.2.2 k).2⟩⟩
        rw [(hU.2.2 k).1 hk]
        by_cases hvk : k < b + ((e - b) - (e - b) % env.bVec_size)
        · simp only [if_pos hvk]
          exact Or.inl (float_bf16_rule_mirror env _ _ amsgrad _ _)
        · simp only [if_neg hvk]
          exact Or.inr (float_bf16_rule_mirror env _ _ amsgrad _ _))
      (env.parallel_for 0 t_.param.numel 512) t_.bufs hfit' hb j (Or.inr hj)
    have hrun : run_parallel_for env 0 t_.param.numel 512
        (variant_range_body env Variant.float_bfloat16
          (kernel_scalars env step beta1 beta2 learning_rate weight_decay eps) amsgrad)
        t_.bufs =
        (env.parallel_for 0 t_.param.numel 512).foldl
          (fun acc c => range_body_float_bf16 env
            (kernel_scalars env step beta1 beta2 learning_rate weight_decay eps) amsgrad
            c.1 c.2 acc) t_.bufs := rfl
    rw [← hrun, ← hbufs] at key
    exact key

/-- C15, on a concrete input: element 2 of `refBufs`, the trailing element of the range
`[0, 3)`, under amsgrad. -/
theorem C15_param2_mirrors_param_witness :
    (Fits true true 3 refBufs ∧ 3 ≤ [(5 : ℚ), 6, 7].length) ∧
    rd (range_body_float_bf16 refEnv
        (kernel_scalars refEnv 1 (9 / 10) (999 / 1000) (1 / 1000) (1 / 100) (1 / 100000000))
        true 0 3 refBufs).param2 2 =
      (if 2 < 0 + ((3 - 0) - (3 - 0) % refEnv.bVec_size) then
        refEnv.convert_float_bfloat16 (rd (range_body_float_bf16 refEnv
          (kernel_scalars refEnv 1 (9 / 10) (999 / 1000) (1 / 1000) (1 / 100) (1 / 100000000))
          true 0 3 refBufs).param 2)
      else refEnv.to_BFloat16 (rd (range_body_float_bf16 refEnv
          (kernel_scalars refEnv 1 (9 / 10) (999 / 1000) (1 / 1000) (1 / 100) (1 / 100000000))
          true 0 3 refBufs).param 2)) ∧
    ((adam_fused_step_kernel_impl refEnv (refTensors ScalarType.Float) true 1 (9 / 10)
        (999 / 1000) (1 / 1000) (1 / 100) (1 / 100000000)).error = none ∧
      (rd (adam_fused_step_kernel_impl refEnv (refTensors ScalarType.Float) true 1 (9 / 10)
          (999 / 1000) (1 / 1000) (1 / 100) (1 / 100000000)).mem.param2.data 2 =
        refEnv.convert_float_bfloat16
          (rd (adam_fused_step_kernel_impl refEnv (refTensors ScalarType.Float) true 1 (9 / 10)
            (999 / 1000) (1 / 1000) (1 / 100) (1 / 100000000)).mem.param.data 2) ∨
      rd (adam_fused_step_kernel_impl refEnv (refTensors ScalarType.Float) true 1 (9 / 10)
          (999 / 1000) (1 / 1000) (1 / 100) (1 / 100000000)).mem.param2.data 2 =
        refEnv.to_BFloat16
          (rd (adam_fused_step_kernel_impl refEnv (refTensors ScalarType.Float) true 1 (9 / 10)
            (999 / 1000) (1 / 1000) (1 / 100) (1 / 100000000)).mem.param.data 2))) :=
  have hf : Fits true true 3 refBufs := by
    unfold Fits
    decide
  have hok : (adam_fused_step_kernel_impl refEnv (refTensors ScalarType.Float) true 1 (9 / 10)
      (999 / 1000) (1 / 1000) (1 / 100) (1 / 100000000)).error = none := by decide
  ⟨⟨hf, by decide⟩,
    (C15_param2_mirrors_param refEnv
      (kernel_scalars refEnv 1 (9 / 10) (999 / 1000) (1 / 1000) (1 / 100) (1 / 100000000))
      true 0 3 2 refBufs [5, 6, 7] (by decide) hf (by decide) (by decide) (by decide)).1,
    hok,
    (C15_param2_mirrors_param refEnv
      (kernel_scalars refEnv 1 (9 / 10) (999 / 1000) (1 / 1000) (1 / 100) (1 / 100000000))
      true 0 3 2 refBufs [5, 6, 7] (by decide) hf (by decide) (by decide) (by decide)).2.2
      (refTensors ScalarType.Float) 1 (9 / 10) (999 / 1000) (1 / 1000) (1 / 100)
      (1 / 100000000) (by decide) hok (by decide) hf 2 (by decide)⟩

end MirroredParam

section SplitParam

variable {α : Type} [LinearOrderedField α]

theorem bf16_rule_congr (env : Env α) (s : Scalars α) (amsgrad : Bool) (e e' : Elem α)
    (g : α) (h1 : e'.exp_avg = e.exp_avg) (h2 : e'.exp_avg_sq = e.exp_avg_sq)
    (h3 : e'.max_exp_avg_sq = e.max_exp_avg_sq)
    (hp : env.pack_bfloat16_float e'.param e'.param2 =
      env.pack_bfloat16_float e.param e.param2) :
    bf16_rule env s amsgrad e' g = bf16_rule env s amsgrad e g := by
  simp only [bf16_rule, generic_rule, h1, h2, h3, hp]

theorem bf16_rule_unpack (env : Env α) (s : Scalars α) (amsgrad : Bool) (e : Elem α) (g : α) :
    ((bf16_rule env s amsgrad e g).param, (bf16_rule env s amsgrad e g).param2) =
      env.unpack_float_bfloat16
        (env.pack_bfloat16_float e.param e.param2 -
          s.step_size * (bf16_rule env s amsgrad e g).exp_avg /
            (env.sqrt (if amsgrad = true then (bf16_rule env s amsgrad e g).max_exp_avg_sq
                else (bf16_rule env s amsgrad e g).exp_avg_sq) /
              s.bias_correction2_sqrt + s.eps)) := by
  cases amsgrad <;> simp only [bf16_rule, generic_rule, Bool.false_eq_true, if_false, if_true]

/-- C16: in the `<at::BFloat16, at::BFloat16>` kernel the value used in the arithmetic of
element `i` is `p = pack_bfloat16_float(param[i], param2[i])`, the source's name for joining
the two halves, and the pair stored in `(param[i], param2[i])` is
`unpack_float_bfloat16(p - step_size * m / denom)`, its name for splitting; the state
buffers get the values of the scalar rule run on `p`; when joining the halves of a split
value gives the value back, the joined parameter after the run is the scalar rule applied to
the joined parameter before it; two inputs with the same joined parameter give the same
element; and after a call that selects this kernel and returns under a schedule that
partitions the range, every element is the one the rule gives. -/
theorem C16_split_param_update (env : Env α) (s : Scalars α) (amsgrad : Bool)
    (begin_ end_ i : Nat) (m : Bufs α)
    (hle : begin_ ≤ end_) (hfit : Fits amsgrad true end_ m)
    (hlo : begin_ ≤ i) (hhi : i < end_) :
    ((rd (range_body_bf16 env s amsgrad begin_ end_ m).param i,
        rd (range_body_bf16 env s amsgrad begin_ end_ m).param2 i) =
      env.unpack_float_bfloat16
        (env.pack_bfloat16_float (rd m.param i) (rd m.param2 i) -
          s.step_size * rd (range_body_bf16 env s amsgrad begin_ end_ m).exp_avg i /
            (env.sqrt
                (if amsgrad = true then
                  rd (range_body_bf16 env s amsgrad begin_ end_ m).max_exp_avg_sq i
                else rd (range_body_bf16 env s amsgrad begin_ end_ m).exp_avg_sq i) /
              s.bias_correction2_sqrt + s.eps))) ∧
    (rd (range_body_bf16 env s amsgrad begin_ end_ m).exp_avg i =
        (generic_rule env s amsgrad
          { m.elem i with param := env.pack_bfloat16_float (rd m.param i) (rd m.param2 i) }
          (rd m.grad i)).exp_avg ∧
      rd (range_body_bf16 env s amsgrad begin_ end_ m).exp_avg_sq i =
        (generic_rule env s amsgrad
          { m.elem i with param := env.pack_bfloat16_float (rd m.param i) (rd m.param2 i) }
          (rd m.grad i)).exp_avg_sq ∧
      rd (range_body_bf16 env s amsgrad begin_ end_ m).max_exp_avg_sq i =
        (generic_rule env s amsgrad
          { m.elem i with param := env.pack_bfloat16_float (rd m.param i) (rd m.param2 i) }
          (rd m.grad i)).max_exp_avg_sq) ∧
    ((∀ x, env.pack_bfloat16_float (env.unpack_float_bfloat16 x).1
        (env.unpack_float_bfloat16 x).2 = x) →
      env.pack_bfloat16_float (rd (range_body_bf16 env s amsgrad begin_ end_ m).param i)
          (rd (range_body_bf16 env s amsgrad begin_ end_ m).param2 i) =
        (generic_rule env s amsgrad
          { m.elem i with param := env.pack_bfloat16_float (rd m.param i) (rd m.param2 i) }
          (rd m.grad i)).param) ∧
    (∀ m' : Bufs α, Fits amsgrad true end_ m' →
      rd m'.grad i = rd m.grad i → rd m'.exp_avg i = rd m.exp_avg i →
      rd m'.exp_avg_sq i = rd m.exp_avg_sq i →
      rd m'.max_exp_avg_sq i = rd m.max_exp_avg_sq i →
      env.pack_bfloat16_float (rd m'.param i) (rd m'.param2 i) =
        env.pack_bfloat16_float (rd m.param i) (rd m.param2 i) →
      (range_body_bf16 env s amsgrad begin_ end_ m').elem i =
        (range_body_bf16 env s amsgrad begin_ end_ m).elem i) ∧
    (∀ (t_ : Tensors α) (step beta1 beta2 learning_rate weight_decay eps : α),
      select_kernel t_.grad.scalar_type t_.param.scalar_type =
        some Variant.bfloat16_bfloat16 →
      (adam_fused_step_kernel_impl env t_ amsgrad step beta1 beta2 learning_rate
        weight_decay eps).error = none →
      IsPartition t_.param.numel (env.parallel_for 0 t_.param.numel 512) →
      Fits amsgrad true t_.param.numel t_.bufs →
      ∀ j, j < t_.param.numel →
        (adam_fused_step_kernel_impl env t_ amsgrad step beta1 beta2 learning_rate
            weight_decay eps).mem.bufs.elem j =
          bf16_rule env (kernel_scalars env step beta1 beta2 learning_rate weight_decay eps)
            amsgrad (t_.bufs.elem j) (rd t_.grad.data j)) := by
  have hU : (range_body_bf16 env s amsgrad begin_ end_ m).elem i =
      bf16_rule env s amsgrad (m.elem i) (rd m.grad i) :=
    ((range_body_bf16_updatedOn env s amsgrad begin_ end_ m hle hfit).2.2 i).1 ⟨hlo, hhi⟩
  have hpair := bf16_rule_unpack env s amsgrad (m.elem i) (rd m.grad i)
  rw [← hU] at hpair
  refine ⟨hpair, ⟨?_, ?_, ?_⟩, ?_, ?_, ?_⟩
  · exact congrArg Elem.exp_avg hU
  · exact congrArg Elem.exp_avg_sq hU
  · exact congrArg Elem.max_exp_avg_sq hU
  · intro hrt
    have h1 : rd (range_body_bf16 env s amsgrad begin_ end_ m).param i =
        (bf16_rule env s amsgrad (m.elem i) (rd m.grad i)).param := congrArg Elem.param hU
    have h2 : rd (range_body_bf16 env s amsgrad begin_ end_ m).param2 i =
        (bf16_rule env s amsgrad (m.elem i) (rd m.grad i)).param2 := congrArg Elem.param2 hU
    rw [h1, h2]
    exact hrt _
  · intro m' hfit' hg h1 h2 h3 hp
    have hU' : (range_body_bf16 env s amsgrad begin_ end_ m').elem i =
        bf16_rule env s amsgrad (m'.elem i) (rd m'.grad i) :=
      ((range_body_bf16_updatedOn env s amsgrad begin_ end_ m' hle hfit').2.2 i).1 ⟨hlo, hhi⟩
    rw [hU', hU, hg]
    exact bf16_rule_congr env s amsgrad (m.elem i) (m'.elem i) _ h1 h2 h3 hp
  · intro t_ step beta1 beta2 learning_rate weight_decay eps hv hok hpart hfit' j hj
    rw [impl_success_bufs env t_ amsgrad step beta1 beta2 learning_rate
      weight_decay eps Variant.bfloat16_bfloat16 hv hok]
    have key := (foldl_partition_eq
      (fun _ => bf16_rule env
        (kernel_scalars env step beta1 beta2 learning_rate weight_decay eps) amsgrad)
      (range_body_bf16 env
        (kernel_scalars env step beta1 beta2 learning_rate weight_decay eps) amsgrad)
      amsgrad true t_.param.numel
      (fun b e m' hbe hN hf => range_body_bf16_updatedOn env _ amsgrad b e m' hbe (hf.mono hN))
      t_.bufs hfit' (env.parallel_for 0 t_.param.numel 512) hpart).1
    exact (key.2.2 j).1 hj

/-- C16, on a concrete input: element 2 of `refBufs` under amsgrad, in the reference
environment, whose split `x = qround x + (x - qround x)` joins back to `x`. -/
theorem C16_split_param_update_witness :
    Fits true true 3 refBufs ∧
    (∀ x, refEnv.pack_bfloat16_float (refEnv.unpack_float_bfloat16 x).1
      (refEnv.unpack_float_bfloat16 x).2 = x) ∧
    refEnv.pack_bfloat16_float
        (rd (range_body_bf16 refEnv
          (kernel_scalars refEnv 1 (9 / 10) (999 / 1000) (1 / 1000) (1 / 100) (1 / 100000000))
          true 0 3 refBufs).param 2)
        (rd (range_body_bf16 refEnv
          (kernel_scalars refEnv 1 (9 / 10) (999 / 1000) (1 / 1000) (1 / 100) (1 / 100000000))
          true 0 3 refBufs).param2 2) =
      (generic_rule refEnv
        (kernel_scalars refEnv 1 (9 / 10) (999 / 1000) (1 / 1000) (1 / 100) (1 / 100000000))
        true
        { refBufs.elem 2 with
          param := refEnv.pack_bfloat16_float (rd refBufs.param 2) (rd refBufs.param2 2) }
        (rd refBufs.grad 2)).param ∧
    ((adam_fused_step_kernel_impl refEnv (refTensors ScalarType.BFloat16) true 1 (9 / 10)
        (999 / 1000) (1 / 1000) (1 / 100) (1 / 100000000)).error = none ∧
      IsPartition 3 (refEnv.parallel_for 0 3 512) ∧
      (adam_fused_step_kernel_impl refEnv (refTensors ScalarType.BFloat16) true 1 (9 / 10)
          (999 / 1000) (1 / 1000) (1 / 100) (1 / 100000000)).mem.bufs.elem 2 =
        bf16_rule refEnv
          (kernel_scalars refEnv 1 (9 / 10) (999 / 1000) (1 / 1000) (1 / 100) (1 / 100000000))
          true ((refTensors ScalarType.BFloat16).bufs.elem 2)
          (rd (refTensors ScalarType.BFloat16).grad.data 2)) :=
  have hf : Fits true true 3 refBufs := by
    unfold Fits
    decide
  have hrt : ∀ x, refEnv.pack_bfloat16_float (refEnv.unpack_float_bfloat16 x).1
      (refEnv.unpack_float_bfloat16 x).2 = x := fun x => add_sub_cancel (qround x) x
  have hok : (adam_fused_step_kernel_impl refEnv (refTensors ScalarType.BFloat16) true 1
      (9 / 10) (999 / 1000) (1 / 1000) (1 / 100) (1 / 100000000)).error = none := by decide
  have hp : IsPartition 3 (refEnv.parallel_for 0 3 512) := by
    unfold IsPartition
    decide
  ⟨hf, hrt,
    (C16_split_param_update refEnv
      (kernel_scalars refEnv 1 (9 / 10) (999 / 1000) (1 / 1000) (1 / 100) (1 / 100000000))
      true 0 3 2 refBufs (by decide) hf (by decide) (by decide)).2.2.1 hrt,
    hok, hp,
    (C16_split_param_update refEnv
      (kernel_scalars refEnv 1 (9 / 10) (999 / 1000) (1 / 1000) (1 / 100) (1 / 100000000))
      true 0 3 2 refBufs (by decide) hf (by decide) (by decide)).2.2.2.2
      (refTensors ScalarType.BFloat16) 1 (9 / 10) (999 / 1000) (1 / 1000) (1 / 100)
      (1 / 100000000) (by decide) hok hp hf 2 (by decide)⟩

end SplitParam

section RuleInvariants

theorem foldl_bounded_pres {α : Type} (P : Bufs α → Prop) (f : Nat → Nat → Bufs α → Bufs α)
    (N : Nat) (hf : ∀ b e m, b ≤ e → e ≤ N → P m → P (f b e m)) :
    ∀ (chunks : List (Nat × Nat)) (m : Bufs α),
      (∀ c ∈ chunks, c.1 ≤ c.2 ∧ c.2 ≤ N) → P m →
      P (chunks.foldl (fun acc c => f c.1 c.2 acc) m) := by
  intro chunks
  induction chunks with
  | nil =>
    intro m _ h
    exact h
  | cons c cs ih =>
    intro m hb h
    rw [List.foldl_cons]
    have hc := hb c (List.mem_cons_self _ _)
    exact ih _ (fun c' hc' => hb c' (List.mem_cons_of_mem _ hc')) (hf c.1 c.2 m hc.1 hc.2 h)

variable {α : Type} [LinearOrderedField α]

/-- A property of single elements that the rule keeps is kept by an update. -/
theorem UpdatedOn.pres_elem {R : Nat → Elem α → α → Elem α} {S : Nat → Prop}
    {m0 m : Bufs α} (h : UpdatedOn R S m0 m) (Q : Elem α → Prop)
    (hR : ∀ i e g, Q e → Q (R i e g)) (i : Nat) (hq : Q (m0.elem i)) : Q (m.elem i) := by
  by_cases hS : S i
  · rw [(h.2.2 i).1 hS]
    exact hR i _ _ hq
  · rw [(h.2.2 i).2 hS]
    exact hq

theorem le_std_max_right (a b : α) : b ≤ std_max a b := by
  rw [std_max_eq_max]
  exact le_max_right a b

theorem generic_rule_sq_nonneg (env : Env α) (s : Scalars α) (amsgrad : Bool) (e : Elem α)
    (g : α) (hb : 0 ≤ s.beta2) (hc : 0 ≤ s.exp_avg_sq_grad_coefficient)
    (hv : 0 ≤ e.exp_avg_sq) : 0 ≤ (generic_rule env s amsgrad e g).exp_avg_sq := by
  show 0 ≤ e.exp_avg_sq * s.beta2 + s.exp_avg_sq_grad_coefficient *
    (if s.weight_decay ≠ 0 then g + e.param * s.weight_decay else g) *
    (if s.weight_decay ≠ 0 then g + e.param * s.weight_decay else g)
  have h1 := mul_nonneg hv hb
  have h2 := mul_nonneg hc
    (mul_self_nonneg (if s.weight_decay ≠ 0 then g + e.param * s.weight_decay else g))
  rw [mul_assoc]
  linarith

theorem generic_rule_max_ge (env : Env α) (s : Scalars α) (e : Elem α) (g : α) :
    (generic_rule env s true e g).exp_avg_sq ≤ (generic_rule env s true e g).max_exp_avg_sq :=
  le_std_max_right _ _

/-- The pair of facts C21 is about: the second moment is non-negative, and so is its running
maximum when amsgrad is on. -/
theorem generic_rule_nonneg (env : Env α) (s : Scalars α) (amsgrad : Bool) (e : Elem α)
    (g : α) (hb : 0 ≤ s.beta2) (hc : 0 ≤ s.exp_avg_sq_grad_coefficient)
    (hq : 0 ≤ e.exp_avg_sq ∧ (amsgrad = true → 0 ≤ e.max_exp_avg_sq)) :
    0 ≤ (generic_rule env s amsgrad e g).exp_avg_sq ∧
      (amsgrad = true → 0 ≤ (generic_rule env s amsgrad e g).max_exp_avg_sq) := by
  have h1 := generic_rule_sq_nonneg env s amsgrad e g hb hc hq.1
  refine ⟨h1, fun ha => ?_⟩
  subst ha
  exact le_trans h1 (generic_rule_max_ge env s e g)

/-- Every range body keeps, at every index, a non-negative second moment non-negative (and
its running maximum under amsgrad). -/
theorem variant_range_body_nonneg (env : Env α) (v : Variant) (s : Scalars α)
    (amsgrad : Bool) (hb : 0 ≤ s.beta2) (hc : 0 ≤ s.exp_avg_sq_grad_coefficient)
    (lo hi : Nat) (m : Bufs α) (hle : lo ≤ hi) (hfit : Fits amsgrad v.uses_param2 hi m)
    (i : Nat)
    (hq : 0 ≤ (m.elem i).exp_avg_sq ∧ (amsgrad = true → 0 ≤ (m.elem i).max_exp_avg_sq)) :
    SameLengths (variant_range_body env v s amsgrad lo hi m) m ∧
    0 ≤ ((variant_range_body env v s amsgrad lo hi m).elem i).exp_avg_sq ∧
      (amsgrad = true →
        0 ≤ ((variant_range_body env v s amsgrad lo hi m).elem i).max_exp_avg_sq) := by
  cases v
  · have hU := range_body_updatedOn env .float s amsgrad lo hi m hle hfit
    exact ⟨hU.2.1, hU.pres_elem
      (fun e => 0 ≤ e.exp_avg_sq ∧ (amsgrad = true → 0 ≤ e.max_exp_avg_sq))
      (fun _ e g h => generic_rule_nonneg env s amsgrad e g hb hc h) i hq⟩
  · have hU := range_body_updatedOn env .double s amsgrad lo hi m hle hfit
    exact ⟨hU.2.1, hU.pres_elem
      (fun e => 0 ≤ e.exp_avg_sq ∧ (amsgrad = true → 0 ≤ e.max_exp_avg_sq))
      (fun _ e g h => generic_rule_nonneg env s amsgrad e g hb hc h) i hq⟩
  · have hU := range_body_bf16_updatedOn env s amsgrad lo hi m hle hfit
    exact ⟨hU.2.1, hU.pres_elem
      (fun e => 0 ≤ e.exp_avg_sq ∧ (amsgrad = true → 0 ≤ e.max_exp_avg_sq))
      (fun _ e g h => generic_rule_nonneg env s amsgrad
        { e with param := env.pack_bfloat16_float e.param e.param2 } g hb hc h) i hq⟩
  · have hU := range_body_float_bf16_updatedOn env s amsgrad lo hi m hle hfit
    refine ⟨hU.2.1, hU.pres_elem
      (fun e => 0 ≤ e.exp_avg_sq ∧ (amsgrad = true → 0 ≤ e.max_exp_avg_sq))
      (fun k e g h => ?_) i hq⟩
    by_cases hk : k < lo + ((hi - lo) - (hi - lo) % env.bVec_size)
    · simp only [if_pos hk]
      exact generic_rule_nonneg env s amsgrad e g hb hc h
    · simp only [if_neg hk]
      exact generic_rule_nonneg env s amsgrad e g hb hc h

/-- After a call that returns, under a schedule whose chunks lie in the range, an element
whose second moment (and running maximum under amsgrad) was non-negative still has it
non-negative. -/
theorem impl_nonneg (env : Env α) (t_ : Tensors α) (amsgrad : Bool)
    (step beta1 beta2 learning_rate weight_decay eps : α) (v : Variant)
    (hb0 : 0 ≤ beta2) (hb1 : beta2 ≤ 1)
    (hv : select_kernel t_.grad.scalar_type t_.param.scalar_type = some v)
    (hok : (adam_fused_step_kernel_impl env t_ amsgrad step beta1 beta2 learning_rate
      weight_decay eps).error = none)
    (hbd : ∀ c ∈ env.parallel_for 0 t_.param.numel 512,
      c.1 ≤ c.2 ∧ c.2 ≤ t_.param.numel)
    (hfit : Fits amsgrad v.uses_param2 t_.param.numel t_.bufs) (j : Nat)
    (h1 : 0 ≤ rd t_.exp_avg_sq.data j)
    (h2 : amsgrad = true → 0 ≤ rd t_.max_exp_avg_sq.data j) :
    0 ≤ rd (adam_fused_step_kernel_impl env t_ amsgrad step beta1 beta2 learning_rate
        weight_decay eps).mem.exp_avg_sq.data j ∧
    (amsgrad = true →
      0 ≤ rd (adam_fused_step_kernel_impl env t_ amsgrad step beta1 beta2 learning_rate
        weight_decay eps).mem.max_exp_avg_sq.data j) := by
  have hbufs := impl_success_bufs env t_ amsgrad step beta1 beta2 learning_rate
    weight_decay eps v hv hok
  have key := foldl_bounded_pres
    (fun m' : Bufs α => Fits amsgrad v.uses_param2 t_.param.numel m' ∧
      (0 ≤ (m'.elem j).exp_avg_sq ∧ (amsgrad = true → 0 ≤ (m'.elem j).max_exp_avg_sq)))
    (variant_range_body env v
      (kernel_scalars env step beta1 beta2 learning_rate weight_decay eps) amsgrad)
    t_.param.numel
    (fun b e m' hbe hN hP => by
      have h := variant_range_body_nonneg env v
        (kernel_scalars env step beta1 beta2 learning_rate weight_decay eps) amsgrad
        hb0 (sub_nonneg.2 hb1) b e m' hbe (hP.1.mono hN) j hP.2
      exact ⟨hP.1.of_same_lengths h.1, h.2⟩)
    (env.parallel_for 0 t_.param.numel 512) t_.bufs hbd ⟨hfit, h1, h2⟩
  have hrun : run_parallel_for env 0 t_.param.numel 512
      (variant_range_body env v
        (kernel_scalars env step beta1 beta2 learning_rate weight_decay eps) amsgrad)
      t_.bufs =
      (env.parallel_for 0 t_.param.numel 512).foldl
        (fun acc c => variant_range_body env v
          (kernel_scalars env step beta1 beta2 learning_rate weight_decay eps) amsgrad
          c.1 c.2 acc) t_.bufs := rfl
  rw [← hrun, ← hbufs] at key
  exact key.2

end RuleInvariants

section NonNegativeSecondMoment

variable {α : Type} [LinearOrderedField α]

/-- C21: with `0 ≤ beta2 ≤ 1`, a square root that is non-negative on non-negative
arguments, `bias_correction2_sqrt > 0` and `eps > 0`, every element `i` of a range processed
by the generic kernel whose `exp_avg_sq[i]` was non-negative has, for any gradient, a
non-negative new `exp_avg_sq[i]` and, under amsgrad, a non-negative new
`max_exp_avg_sq[i]`; the argument of the square root is non-negative; the denominator
`sqrt(.) / bias_correction2_sqrt + eps`, the local `demon_val` by which the parameter update
divides, is at least `eps`, hence positive; and after a call of any kernel that returns,
under a schedule whose chunks lie in the range, non-negative `exp_avg_sq[j]` (and
`max_exp_avg_sq[j]` under amsgrad) stay non-negative at every index. -/
theorem C21_second_moment_nonneg (env : Env α) (scalar_t : PlainType) (amsgrad : Bool)
    (step beta1 beta2 learning_rate weight_decay eps : α) (begin_ end_ i : Nat) (m : Bufs α)
    (hsqrt : ∀ x : α, 0 ≤ x → 0 ≤ env.sqrt x)
    (hb0 : 0 ≤ beta2) (hb1 : beta2 ≤ 1) (hv : 0 ≤ rd m.exp_avg_sq i)
    (hbc : 0 < bias_correction2_sqrt env beta2 step) (heps : 0 < eps)
    (hlo : begin_ ≤ i) (hhi : i < end_)
    (hp : end_ ≤ m.param.length) (ha : end_ ≤ m.exp_avg.length)
    (hq : end_ ≤ m.exp_avg_sq.length)
    (hx : amsgrad = true → end_ ≤ m.max_exp_avg_sq.length) :
    0 ≤ rd (range_body env scalar_t
        (kernel_scalars env step beta1 beta2 learning_rate weight_decay eps)
        amsgrad begin_ end_ m).exp_avg_sq i ∧
    (amsgrad = true →
      0 ≤ rd (range_body env scalar_t
        (kernel_scalars env step beta1 beta2 learning_rate weight_decay eps)
        amsgrad begin_ end_ m).max_exp_avg_sq i) ∧
    0 ≤ (if amsgrad = true then
          rd (range_body env scalar_t
            (kernel_scalars env step beta1 beta2 learning_rate weight_decay eps)
            amsgrad begin_ end_ m).max_exp_avg_sq i
        else
          rd (range_body env scalar_t
            (kernel_scalars env step beta1 beta2 learning_rate weight_decay eps)
            amsgrad begin_ end_ m).exp_avg_sq i) ∧
    eps ≤ env.sqrt
          (if amsgrad = true then
            rd (range_body env scalar_t
              (kernel_scalars env step beta1 beta2 learning_rate weight_decay eps)
              amsgrad begin_ end_ m).max_exp_avg_sq i
          else
            rd (range_body env scalar_t
              (kernel_scalars env step beta1 beta2 learning_rate weight_decay eps)
              amsgrad begin_ end_ m).exp_avg_sq i) /
        bias_correction2_sqrt env beta2 step + eps ∧
    0 < env.sqrt
          (if amsgrad = true then
            rd (range_body env scalar_t
              (kernel_scalars env step beta1 beta2 learning_rate weight_decay eps)
              amsgrad begin_ end_ m).max_exp_avg_sq i
          else
            rd (range_body env scalar_t
              (kernel_scalars env step beta1 beta2 learning_rate weight_decay eps)
              amsgrad begin_ end_ m).exp_avg_sq i) /
        bias_correction2_sqrt env beta2 step + eps ∧
    demon_val env (kernel_scalars env step beta1 beta2 learning_rate weight_decay eps)
        amsgrad m i =
      env.sqrt
          (if amsgrad = true then
            rd (range_body env scalar_t
              (kernel_scalars env step beta1 beta2 learning_rate weight_decay eps)
              amsgrad begin_ end_ m).max_exp_avg_sq i
          else
            rd (range_body env scalar_t
              (kernel_scalars env step beta1 beta2 learning_rate weight_decay eps)
              amsgrad begin_ end_ m).exp_avg_sq i) /
        bias_correction2_sqrt env beta2 step + eps ∧
    (∀ (t_ : Tensors α) (v : Variant),
      select_kernel t_.grad.scalar_type t_.param.scalar_type = some v →
      (adam_fused_step_kernel_impl env t_ amsgrad step beta1 beta2 learning_rate
        weight_decay eps).error = none →
      (∀ c ∈ env.parallel_for 0 t_.param.numel 512, c.1 ≤ c.2 ∧ c.2 ≤ t_.param.numel) →
      Fits amsgrad v.uses_param2 t_.param.numel t_.bufs →
      ∀ j, 0 ≤ rd t_.exp_avg_sq.data j →
        (amsgrad = true → 0 ≤ rd t_.max_exp_avg_sq.data j) →
        0 ≤ rd (adam_fused_step_kernel_impl env t_ amsgrad step beta1 beta2 learning_rate
            weight_decay eps).mem.exp_avg_sq.data j ∧
        (amsgrad = true →
          0 ≤ rd (adam_fused_step_kernel_impl env t_ amsgrad step beta1 beta2 learning_rate
            weight_decay eps).mem.max_exp_avg_sq.data j)) := by
  obtain ⟨_, _, e3, e4⟩ := range_body_rd env scalar_t
    (kernel_scalars env step beta1 beta2 learning_rate weight_decay eps) amsgrad begin_ end_ i
    m hlo hhi hp ha hq hx
  have hsq : 0 ≤ new_exp_avg_sq
      (kernel_scalars env step beta1 beta2 learning_rate weight_decay eps) m i :=
    generic_rule_sq_nonneg env
      (kernel_scalars env step beta1 beta2 learning_rate weight_decay eps) amsgrad (m.elem i)
      (rd m.grad i) hb0 (sub_nonneg.2 hb1) hv
  have hmx : 0 ≤ new_max_exp_avg_sq
      (kernel_scalars env step beta1 beta2 learning_rate weight_decay eps) m i :=
    le_trans hsq (le_std_max_right _ _)
  have harg : 0 ≤ (if amsgrad = true then
        rd (range_body env scalar_t
          (kernel_scalars env step beta1 beta2 learning_rate weight_decay eps)
          amsgrad begin_ end_ m).max_exp_avg_sq i
      else
        rd (range_body env scalar_t
          (kernel_scalars env step beta1 beta2 learning_rate weight_decay eps)
          amsgrad begin_ end_ m).exp_avg_sq i) := by
    rw [e3, e4]
    cases amsgrad
    · simpa using hsq
    · simpa using hmx
  have hden : eps ≤ env.sqrt
        (if amsgrad = true then
          rd (range_body env scalar_t
            (kernel_scalars env step beta1 beta2 learning_rate weight_decay eps)
            amsgrad begin_ end_ m).max_exp_avg_sq i
        else
          rd (range_body env scalar_t
            (kernel_scalars env step beta1 beta2 learning_rate weight_decay eps)
            amsgrad begin_ end_ m).exp_avg_sq i) /
      bias_correction2_sqrt env beta2 step + eps :=
    le_add_of_nonneg_left (div_nonneg (hsqrt _ harg) (le_of_lt hbc))
  refine ⟨by rw [e3]; exact hsq, fun h => ?_, harg, hden, lt_of_lt_of_le heps hden, ?_,
    fun t_ v hsel hok hbd hfit j h1 h2 =>
      impl_nonneg env t_ amsgrad step beta1 beta2 learning_rate weight_decay eps v hb0 hb1
        hsel hok hbd hfit j h1 h2⟩
  · rw [e4, if_pos h]
    exact hmx
  · rw [e3, e4]
    cases amsgrad
    · simp only [demon_val, Bool.false_eq_true, if_false, kernel_scalars]
    · simp only [demon_val, if_true, kernel_scalars]

/-- C21, on a concrete input: element 2 of `refBufs` under amsgrad in the reference
environment, and the call on `refTensors` with a float32 parameter. -/
theorem C21_second_moment_nonneg_witness :
    ((∀ x : ℚ, 0 ≤ x → 0 ≤ refEnv.sqrt x) ∧ 0 ≤ rd refBufs.exp_avg_sq 2 ∧
      0 < bias_correction2_sqrt refEnv (999 / 1000) 1) ∧
    (1 / 100000000 : ℚ) ≤
      refEnv.sqrt
          (if true = true then
            rd (range_body refEnv PlainType.float
              (kernel_scalars refEnv 1 (9 / 10) (999 / 1000) (1 / 1000) (1 / 100)
                (1 / 100000000))
              true 0 3 refBufs).max_exp_avg_sq 2
          else
            rd (range_body refEnv PlainType.float
              (kernel_scalars refEnv 1 (9 / 10) (999 / 1000) (1 / 1000) (1 / 100)
                (1 / 100000000))
              true 0 3 refBufs).exp_avg_sq 2) /
        bias_correction2_sqrt refEnv (999 / 1000) 1 + 1 / 100000000 ∧
    ((adam_fused_step_kernel_impl refEnv (refTensors ScalarType.Float) true 1 (9 / 10)
        (999 / 1000) (1 / 1000) (1 / 100) (1 / 100000000)).error = none ∧
      0 ≤ rd (adam_fused_step_kernel_impl refEnv (refTensors ScalarType.Float) true 1 (9 / 10)
        (999 / 1000) (1 / 1000) (1 / 100) (1 / 100000000)).mem.exp_avg_sq.data 2) :=
  have hs : ∀ x : ℚ, 0 ≤ x → 0 ≤ refEnv.sqrt x := fun x _ =>
    div_nonneg (Nat.cast_nonneg _) (Nat.cast_nonneg _)
  have hv : 0 ≤ rd refBufs.exp_avg_sq 2 := by decide!
  have hbc : 0 < bias_correction2_sqrt refEnv (999 / 1000) 1 := by decide!
  have hf : Fits true true 3 refBufs := by
    unfold Fits
    decide
  have hok : (adam_fused_step_kernel_impl refEnv (refTensors ScalarType.Float) true 1 (9 / 10)
      (999 / 1000) (1 / 1000) (1 / 100) (1 / 100000000)).error = none := by decide
  ⟨⟨hs, hv, hbc⟩,
    (C21_second_moment_nonneg refEnv PlainType.float true 1 (9 / 10) (999 / 1000) (1 / 1000)
      (1 / 100) (1 / 100000000) 0 3 2 refBufs hs (by norm_num) (by norm_num) hv hbc
      (by norm_num) (by decide) (by decide) (by decide) (by decide) (by decide)
      (fun _ => by decide)).2.2.2.1,
    hok,
    ((C21_second_moment_nonneg refEnv PlainType.float true 1 (9 / 10) (999 / 1000) (1 / 1000)
      (1 / 100) (1 / 100000000) 0 3 2 refBufs hs (by norm_num) (by norm_num) hv hbc
      (by norm_num) (by decide) (by decide) (by decide) (by decide) (by decide)
      (fun _ => by decide)).2.2.2.2.2.2
      (refTensors ScalarType.Float) Variant.float_bfloat16 (by decide) hok (by decide) hf 2
      (by decide!) (fun _ => by decide!)).1⟩

end NonNegativeSecondMoment

section ConvexFirstMoment

variable {α : Type} [LinearOrderedField α]

/-- The interpolation `a + (1 - β) * (g - a)` with `0 ≤ β ≤ 1` lies between `a` and `g`. -/
theorem lerp_between (β a g : α) (h0 : 0 ≤ β) (h1 : β ≤ 1) :
    min a g ≤ a + (1 - β) * (g - a) ∧ a + (1 - β) * (g - a) ≤ max a g := by
  have hw : 0 ≤ 1 - β := by linarith
  rcases le_total a g with h | h
  · rw [min_eq_left h, max_eq_right h]
    constructor
    · have := mul_nonneg hw (sub_nonneg.2 h)
      linarith
    · have := mul_nonneg h0 (sub_nonneg.2 h)
      nlinarith
  · rw [min_eq_right h, max_eq_left h]
    constructor
    · have := mul_nonneg h0 (sub_nonneg.2 h)
      nlinarith
    · have := mul_nonneg hw (sub_nonneg.2 h)
      nlinarith

theorem lerp_eq_right_iff (β a g : α) (hne : g ≠ a) :
    a + (1 - β) * (g - a) = g ↔ β = 0 := by
  have hd : g - a ≠ 0 := sub_ne_zero.2 hne
  constructor
  · intro h
    have h2 : β * (g - a) = 0 := by linarith
    rcases mul_eq_zero.1 h2 with h3 | h3
    · exact h3
    · exact absurd h3 hd
  · intro h
    rw [h]
    ring

theorem lerp_eq_left_iff (β a g : α) (hne : g ≠ a) :
    a + (1 - β) * (g - a) = a ↔ β = 1 := by
  have hd : g - a ≠ 0 := sub_ne_zero.2 hne
  constructor
  · intro h
    have h2 : (1 - β) * (g - a) = 0 := by linarith
    rcases mul_eq_zero.1 h2 with h3 | h3
    · linarith
    · exact absurd h3 hd
  · intro h
    rw [h]
    ring

/-- C22: for `0 ≤ beta1 ≤ 1` and every element `i` of a range processed by the generic
kernel, the new `exp_avg[i]` is `beta1 * m + (1 - beta1) * g`, with `m` the old `exp_avg[i]`
and `g` the effective gradient `grad_val`, and lies between them:
`min m g ≤ m_new ≤ max m g`; it is `g` when `beta1 = 0`, `m` when `beta1 = 1`, and `m` when
`g = m`; when `g ≠ m` it is `g` only for `beta1 = 0` and `m` only for `beta1 = 1`. -/
theorem C22_first_moment_convex (env : Env α) (scalar_t : PlainType) (amsgrad : Bool)
    (step beta1 beta2 learning_rate weight_decay eps : α) (begin_ end_ i : Nat) (m : Bufs α)
    (h0 : 0 ≤ beta1) (h1 : beta1 ≤ 1)
    (hlo : begin_ ≤ i) (hhi : i < end_)
    (hp : end_ ≤ m.param.length) (ha : end_ ≤ m.exp_avg.length)
    (hq : end_ ≤ m.exp_avg_sq.length)
    (hx : amsgrad = true → end_ ≤ m.max_exp_avg_sq.length) :
    rd (range_body env scalar_t
        (kernel_scalars env step beta1 beta2 learning_rate weight_decay eps)
        amsgrad begin_ end_ m).exp_avg i =
      beta1 * rd m.exp_avg i +
        (1 - beta1) *
          grad_val (kernel_scalars env step beta1 beta2 learning_rate weight_decay eps) m i ∧
    min (rd m.exp_avg i)
        (grad_val (kernel_scalars env step beta1 beta2 learning_rate weight_decay eps) m i) ≤
      rd (range_body env scalar_t
        (kernel_scalars env step beta1 beta2 learning_rate weight_decay eps)
        amsgrad begin_ end_ m).exp_avg i ∧
    rd (range_body env scalar_t
        (kernel_scalars env step beta1 beta2 learning_rate weight_decay eps)
        amsgrad begin_ end_ m).exp_avg i ≤
      max (rd m.exp_avg i)
        (grad_val (kernel_scalars env step beta1 beta2 learning_rate weight_decay eps) m i) ∧
    (beta1 = 0 →
      rd (range_body env scalar_t
          (kernel_scalars env step beta1 beta2 learning_rate weight_decay eps)
          amsgrad begin_ end_ m).exp_avg i =
        grad_val (kernel_scalars env step beta1 beta2 learning_rate weight_decay eps) m i) ∧
    (beta1 = 1 →
      rd (range_body env scalar_t
          (kernel_scalars env step beta1 beta2 learning_rate weight_decay eps)
          amsgrad begin_ end_ m).exp_avg i = rd m.exp_avg i) ∧
    (grad_val (kernel_scalars env step beta1 beta2 learning_rate weight_decay eps) m i =
        rd m.exp_avg i →
      rd (range_body env scalar_t
          (kernel_scalars env step beta1 beta2 learning_rate weight_decay eps)
          amsgrad begin_ end_ m).exp_avg i = rd m.exp_avg i) ∧
    (grad_val (kernel_scalars env step beta1 beta2 learning_rate weight_decay eps) m i ≠
        rd m.exp_avg i →
      (rd (range_body env scalar_t
            (kernel_scalars env step beta1 beta2 learning_rate weight_decay eps)
            amsgrad begin_ end_ m).exp_avg i =
          grad_val (kernel_scalars env step beta1 beta2 learning_rate weight_decay eps) m i ↔
        beta1 = 0) ∧
      (rd (range_body env scalar_t
            (kernel_scalars env step beta1 beta2 learning_rate weight_decay eps)
            amsgrad begin_ end_ m).exp_avg i = rd m.exp_avg i ↔ beta1 = 1)) := by
  have hr : rd (range_body env scalar_t
        (kernel_scalars env step beta1 beta2 learning_rate weight_decay eps)
        amsgrad begin_ end_ m).exp_avg i =
      rd m.exp_avg i + (1 - beta1) *
        (grad_val (kernel_scalars env step beta1 beta2 learning_rate weight_decay eps) m i -
          rd m.exp_avg i) := by
    rw [(range_body_rd env scalar_t _ amsgrad begin_ end_ i m hlo hhi hp ha hq hx).2.1,
      new_exp_avg_eq_lerp]
    rfl
  rw [hr]
  generalize grad_val (kernel_scalars env step beta1 beta2 learning_rate weight_decay eps) m i
    = g
  generalize rd m.exp_avg i = a
  have hb := lerp_between beta1 a g h0 h1
  refine ⟨by ring, hb.1, hb.2, ?_, ?_, ?_, ?_⟩
  · intro h
    rw [h]
    ring
  · intro h
    rw [h]
    ring
  · intro h
    rw [h]
    ring
  · intro hne
    exact ⟨lerp_eq_right_iff beta1 a g hne, lerp_eq_left_iff beta1 a g hne⟩

/-- C22, on a concrete input: element 1 of `refBufs` (old `exp_avg` `1/10`, gradient `1`,
weight decay `1/100` on `param = 2`) with `beta1 = 9/10`. -/
theorem C22_first_moment_convex_witness :
    ((0 : ℚ) ≤ 9 / 10 ∧ (9 / 10 : ℚ) ≤ 1 ∧ 3 ≤ refBufs.exp_avg.length) ∧
    min (rd refBufs.exp_avg 1)
        (grad_val
          (kernel_scalars refEnv 1 (9 / 10) (999 / 1000) (1 / 1000) (1 / 100) (1 / 100000000))
          refBufs 1) ≤
      rd (range_body refEnv PlainType.float
        (kernel_scalars refEnv 1 (9 / 10) (999 / 1000) (1 / 1000) (1 / 100) (1 / 100000000))
        true 0 3 refBufs).exp_avg 1 ∧
    rd (range_body refEnv PlainType.float
        (kernel_scalars refEnv 1 (9 / 10) (999 / 1000) (1 / 1000) (1 / 100) (1 / 100000000))
        true 0 3 refBufs).exp_avg 1 ≤
      max (rd refBufs.exp_avg 1)
        (grad_val
          (kernel_scalars refEnv 1 (9 / 10) (999 / 1000) (1 / 1000) (1 / 100) (1 / 100000000))
          refBufs 1) :=
  ⟨⟨by norm_num, by norm_num, by decide⟩,
    (C22_first_moment_convex refEnv PlainType.float true 1 (9 / 10) (999 / 1000) (1 / 1000)
      (1 / 100) (1 / 100000000) 0 3 1 refBufs (by norm_num) (by norm_num) (by decide)
      (by decide) (by decide) (by decide) (by decide) (fun _ => by decide)).2.1,
    (C22_first_moment_convex refEnv PlainType.float true 1 (9 / 10) (999 / 1000) (1 / 1000)
      (1 / 100) (1 / 100000000) 0 3 1 refBufs (by norm_num) (by norm_num) (by decide)
      (by decide) (by decide) (by decide) (by decide) (fun _ => by decide)).2.2.1⟩

end ConvexFirstMoment

section AmsgradRule

variable {α : Type} [LinearOrderedField α]

theorem std_max_of_le (a b : α) (h : a ≤ b) : std_max a b = b := by
  rw [std_max_eq_max]
  exact max_eq_right h

theorem generic_rule_max (env : Env α) (s : Scalars α) (e : Elem α) (g : α) :
    (generic_rule env s true e g).max_exp_avg_sq =
      std_max e.max_exp_avg_sq (generic_rule env s true e g).exp_avg_sq := rfl

theorem generic_rule_amsgrad_exp_avg (env : Env α) (s : Scalars α) (e : Elem α) (g : α) :
    (generic_rule env s true e g).exp_avg = (generic_rule env s false e g).exp_avg := rfl

theorem generic_rule_amsgrad_exp_avg_sq (env : Env α) (s : Scalars α) (e : Elem α) (g : α) :
    (generic_rule env s true e g).exp_avg_sq = (generic_rule env s false e g).exp_avg_sq := rfl

/-- When the old running maximum does not exceed the new second moment, the amsgrad
denominator is the plain one, and so is the new parameter. -/
theorem generic_rule_amsgrad_param (env : Env α) (s : Scalars α) (e : Elem α) (g : α)
    (h : e.max_exp_avg_sq ≤ (generic_rule env s true e g).exp_avg_sq) :
    (generic_rule env s true e g).param = (generic_rule env s false e g).param := by
  have hm := std_max_of_le _ _ h
  simp only [generic_rule, if_true, Bool.false_eq_true, if_false] at hm ⊢
  rw [hm]

theorem variant_rule_max (env : Env α) (v : Variant) (s : Scalars α) (e : Elem α) (g : α) :
    (variant_rule env v s true e g).max_exp_avg_sq =
      std_max e.max_exp_avg_sq (variant_rule env v s true e g).exp_avg_sq := by
  cases v <;> rfl

theorem variant_rule_amsgrad_moments (env : Env α) (v : Variant) (s : Scalars α) (e : Elem α)
    (g : α) :
    (variant_rule env v s true e g).exp_avg = (variant_rule env v s false e g).exp_avg ∧
    (variant_rule env v s true e g).exp_avg_sq =
      (variant_rule env v s false e g).exp_avg_sq := by
  cases v <;> exact ⟨rfl, rfl⟩

theorem variant_rule_amsgrad_param (env : Env α) (v : Variant) (s : Scalars α) (e : Elem α)
    (g : α) (h : e.max_exp_avg_sq ≤ (variant_rule env v s true e g).exp_avg_sq) :
    (variant_rule env v s true e g).param = (variant_rule env v s false e g).param ∧
    (variant_rule env v s true e g).param2 = (variant_rule env v s false e g).param2 := by
  cases v
  · exact ⟨generic_rule_amsgrad_param env s e g h, rfl⟩
  · exact ⟨generic_rule_amsgrad_param env s e g h, rfl⟩
  · have hp := generic_rule_amsgrad_param env s
      { e with param := env.pack_bfloat16_float e.param e.param2 } g h
    constructor
    · show (env.unpack_float_bfloat16 _).1 = (env.unpack_float_bfloat16 _).1
      rw [hp]
    · show (env.unpack_float_bfloat16 _).2 = (env.unpack_float_bfloat16 _).2
      rw [hp]
  · have hp := generic_rule_amsgrad_param env s e g h
    constructor
    · exact hp
    · show env.to_BFloat16 _ = env.to_BFloat16 _
      rw [hp]

/-- What one amsgrad step does to an element, against the same step without amsgrad. -/
theorem variant_rule_amsgrad (env : Env α) (v : Variant) (s : Scalars α) (e : Elem α)
    (g : α) :
    (variant_rule env v s true e g).exp_avg_sq ≤
      (variant_rule env v s true e g).max_exp_avg_sq ∧
    (variant_rule env v s true e g).max_exp_avg_sq =
      max e.max_exp_avg_sq (variant_rule env v s true e g).exp_avg_sq ∧
    ((variant_rule env v s true e g).max_exp_avg_sq = e.max_exp_avg_sq ∨
      (variant_rule env v s true e g).max_exp_avg_sq =
        (variant_rule env v s true e g).exp_avg_sq) ∧
    (variant_rule env v s true e g).exp_avg = (variant_rule env v s false e g).exp_avg ∧
    (variant_rule env v s true e g).exp_avg_sq =
      (variant_rule env v s false e g).exp_avg_sq ∧
    (e.max_exp_avg_sq ≤ (variant_rule env v s true e g).exp_avg_sq →
      (variant_rule env v s true e g).param = (variant_rule env v s false e g).param ∧
      (variant_rule env v s true e g).param2 = (variant_rule env v s false e g).param2) := by
  have hm := variant_rule_max env v s e g
  rw [std_max_eq_max] at hm
  refine ⟨?_, hm, ?_, (variant_rule_amsgrad_moments env v s e g).1,
    (variant_rule_amsgrad_moments env v s e g).2, variant_rule_amsgrad_param env v s e g⟩
  · rw [hm]
    exact le_max_right _ _
  · rw [hm]
    rcases le_total e.max_exp_avg_sq (variant_rule env v s true e g).exp_avg_sq with h | h
    · exact Or.inr (max_eq_right h)
    · exact Or.inl (max_eq_left h)

theorem run_kernel_error_amsgrad (env : Env α) (v : Variant) (t : Tensors α)
    (a a' : Bool) (s : Scalars α) :
    (run_kernel env v t a s).1 = (run_kernel env v t a' s).1 := by
  rw [run_kernel_eq, run_kernel_eq]
  cases variant_checks v t <;> rfl

theorem Fits.amsgrad_off {α : Type} {a split : Bool} {hi : Nat} {m : Bufs α}
    (h : Fits a split hi m) : Fits false split hi m :=
  ⟨h.1, h.2.1, h.2.2.1, fun hf => Bool.noConfusion hf, h.2.2.2.2⟩

end AmsgradRule

section AmsgradClaim

variable {α : Type} [LinearOrderedField α]

theorem amsgrad_elem_facts (env : Env α) (v : Variant) (s : Scalars α)
    (m out out' : Bufs α) (i : Nat)
    (h1 : out.elem i = variant_rule env v s true (m.elem i) (rd m.grad i))
    (h2 : out'.elem i = variant_rule env v s false (m.elem i) (rd m.grad i)) :
    rd out.exp_avg_sq i ≤ rd out.max_exp_avg_sq i ∧
    rd out.max_exp_avg_sq i = max (rd m.max_exp_avg_sq i) (rd out.exp_avg_sq i) ∧
    (rd out.max_exp_avg_sq i = rd m.max_exp_avg_sq i ∨
      rd out.max_exp_avg_sq i = rd out.exp_avg_sq i) ∧
    rd out.exp_avg i = rd out'.exp_avg i ∧
    rd out.exp_avg_sq i = rd out'.exp_avg_sq i ∧
    (rd m.max_exp_avg_sq i ≤ rd out.exp_avg_sq i →
      rd out.param i = rd out'.param i ∧ rd out.param2 i = rd out'.param2 i) := by
  have h := variant_rule_amsgrad env v s (m.elem i) (rd m.grad i)
  rw [← h1, ← h2] at h
  exact h

/-- The buffers after a call that returns under a partitioning schedule: every element of
the range is the scalar rule of the selected kernel applied to the caller's values. -/
theorem impl_success_elem (env : Env α) (t_ : Tensors α) (amsgrad : Bool)
    (step beta1 beta2 learning_rate weight_decay eps : α) (v : Variant)
    (hconv : v = Variant.float_bfloat16 →
      ∀ x, env.convert_float_bfloat16 x = env.to_BFloat16 x)
    (hv : select_kernel t_.grad.scalar_type t_.param.scalar_type = some v)
    (hok : (adam_fused_step_kernel_impl env t_ amsgrad step beta1 beta2 learning_rate
      weight_decay eps).error = none)
    (hpart : IsPartition t_.param.numel (env.parallel_for 0 t_.param.numel 512))
    (hfit : Fits amsgrad v.uses_param2 t_.param.numel t_.bufs) (j : Nat)
    (hj : j < t_.param.numel) :
    (adam_fused_step_kernel_impl env t_ amsgrad step beta1 beta2 learning_rate
        weight_decay eps).mem.bufs.elem j =
      variant_rule env v (kernel_scalars env step beta1 beta2 learning_rate weight_decay eps)
        amsgrad (t_.bufs.elem j) (rd t_.bufs.grad j) := by
  rw [impl_success_bufs env t_ amsgrad step beta1 beta2 learning_rate weight_decay eps v hv
    hok]
  have key := (foldl_partition_eq
    (fun _ => variant_rule env v
      (kernel_scalars env step beta1 beta2 learning_rate weight_decay eps) amsgrad)
    (variant_range_body env v
      (kernel_scalars env step beta1 beta2 learning_rate weight_decay eps) amsgrad)
    amsgrad v.uses_param2 t_.param.numel
    (fun b e m' hbe hN hf =>
      variant_range_body_updatedOn env v _ amsgrad hconv b e m' hbe (hf.mono hN))
    t_.bufs hfit (env.parallel_for 0 t_.param.numel 512) hpart).1
  exact (key.2.2 j).1 hj

/-- C23: for every element `i` of a range processed with amsgrad on, the new
`max_exp_avg_sq[i]` is `max(max_exp_avg_sq_old[i], exp_avg_sq_new[i])`: it is at least the
new `exp_avg_sq[i]` and is either the old value or the new `exp_avg_sq[i]`. The new `exp_avg[i]`
and `exp_avg_sq[i]` are those of the same run with amsgrad off, and when
`max_exp_avg_sq_old[i] ≤ exp_avg_sq_new[i]` so are `param[i]` and `param2[i]`. The same
holds at every index after a call that returns under a schedule that partitions the range,
and the call with amsgrad off then returns too. -/
theorem C23_amsgrad_running_max (env : Env α) (v : Variant) (s : Scalars α)
    (begin_ end_ i : Nat) (m : Bufs α)
    (hconv : v = Variant.float_bfloat16 →
      ∀ x, env.convert_float_bfloat16 x = env.to_BFloat16 x)
    (hle : begin_ ≤ end_) (hfit : Fits true v.uses_param2 end_ m)
    (hlo : begin_ ≤ i) (hhi : i < end_) :
    (rd (variant_range_body env v s true begin_ end_ m).exp_avg_sq i ≤
        rd (variant_range_body env v s true begin_ end_ m).max_exp_avg_sq i ∧
      rd (variant_range_body env v s true begin_ end_ m).max_exp_avg_sq i =
        max (rd m.max_exp_avg_sq i)
          (rd (variant_range_body env v s true begin_ end_ m).exp_avg_sq i) ∧
      (rd (variant_range_body env v s true begin_ end_ m).max_exp_avg_sq i =
          rd m.max_exp_avg_sq i ∨
        rd (variant_range_body env v s true begin_ end_ m).max_exp_avg_sq i =
          rd (variant_range_body env v s true begin_ end_ m).exp_avg_sq i) ∧
      rd (variant_range_body env v s true begin_ end_ m).exp_avg i =
        rd (variant_range_body env v s false begin_ end_ m).exp_avg i ∧
      rd (variant_range_body env v s true begin_ end_ m).exp_avg_sq i =
        rd (variant_range_body env v s false begin_ end_ m).exp_avg_sq i ∧
      (rd m.max_exp_avg_sq i ≤
          rd (variant_range_body env v s true begin_ end_ m).exp_avg_sq i →
        rd (variant_range_body env v s true begin_ end_ m).param i =
          rd (variant_range_body env v s false begin_ end_ m).param i ∧
        rd (variant_range_body env v s true begin_ end_ m).param2 i =
          rd (variant_range_body env v s false begin_ end_ m).param2 i)) ∧
    (∀ (t_ : Tensors α) (step beta1 beta2 learning_rate weight_decay eps : α),
      select_kernel t_.grad.scalar_type t_.param.scalar_type = some v →
      (adam_fused_step_kernel_impl env t_ true step beta1 beta2 learning_rate
        weight_decay eps).error = none →
      IsPartition t_.param.numel (env.parallel_for 0 t_.param.numel 512) →
      Fits true v.uses_param2 t_.param.numel t_.bufs →
      (adam_fused_step_kernel_impl env t_ false step beta1 beta2 learning_rate
        weight_decay eps).error = none ∧
      ∀ j, j < t_.param.numel →
        rd (adam_fused_step_kernel_impl env t_ true step beta1 beta2 learning_rate
            weight_decay eps).mem.exp_avg_sq.data j ≤
          rd (adam_fused_step_kernel_impl env t_ true step beta1 beta2 learning_rate
            weight_decay eps).mem.max_exp_avg_sq.data j ∧
        rd (adam_fused_step_kernel_impl env t_ true step beta1 beta2 learning_rate
            weight_decay eps).mem.max_exp_avg_sq.data j =
          max (rd t_.max_exp_avg_sq.data j)
            (rd (adam_fused_step_kernel_impl env t_ true step beta1 beta2 learning_rate
              weight_decay eps).mem.exp_avg_sq.data j) ∧
        (rd (adam_fused_step_kernel_impl env t_ true step beta1 beta2 learning_rate
              weight_decay eps).mem.max_exp_avg_sq.data j = rd t_.max_exp_avg_sq.data j ∨
          rd (adam_fused_step_kernel_impl env t_ true step beta1 beta2 learning_rate
              weight_decay eps).mem.max_exp_avg_sq.data j =
            rd (adam_fused_step_kernel_impl env t_ true step beta1 beta2 learning_rate
              weight_decay eps).mem.exp_avg_sq.data j) ∧
        rd (adam_fused_step_kernel_impl env t_ true step beta1 beta2 learning_rate
            weight_decay eps).mem.exp_avg.data j =
          rd (adam_fused_step_kernel_impl env t_ false step beta1 beta2 learning_rate
            weight_decay eps).mem.exp_avg.data j ∧
        rd (adam_fused_step_kernel_impl env t_ true step beta1 beta2 learning_rate
            weight_decay eps).mem.exp_avg_sq.data j =
          rd (adam_fused_step_kernel_impl env t_ false step beta1 beta2 learning_rate
            weight_decay eps).mem.exp_avg_sq.data j ∧
        (rd t_.max_exp_avg_sq.data j ≤
            rd (adam_fused_step_kernel_impl env t_ true step beta1 beta2 learning_rate
              weight_decay eps).mem.exp_avg_sq.data j →
          rd (adam_fused_step_kernel_impl env t_ true step beta1 beta2 learning_rate
              weight_decay eps).mem.param.data j =
            rd (adam_fused_step_kernel_impl env t_ false step beta1 beta2 learning_rate
              weight_decay eps).mem.param.data j ∧
          rd (adam_fused_step_kernel_impl env t_ true step beta1 beta2 learning_rate
              weight_decay eps).mem.param2.data j =
            rd (adam_fused_step_kernel_impl env t_ false step beta1 beta2 learning_rate
              weight_decay eps).mem.param2.data j)) := by
  constructor
  · have h1 : (variant_range_body env v s true begin_ end_ m).elem i =
        variant_rule env v s true (m.elem i) (rd m.grad i) :=
      ((variant_range_body_updatedOn env v s true hconv begin_ end_ m hle hfit).2.2 i).1
        ⟨hlo, hhi⟩
    have h2 : (variant_range_body env v s false begin_ end_ m).elem i =
        variant_rule env v s false (m.elem i) (rd m.grad i) :=
      ((variant_range_body_updatedOn env v s false hconv begin_ end_ m hle
        hfit.amsgrad_off).2.2 i).1 ⟨hlo, hhi⟩
    exact amsgrad_elem_facts env v s m _ _ i h1 h2
  · intro t_ step beta1 beta2 learning_rate weight_decay eps hv hok hpart hfit'
    have hok' : (adam_fused_step_kernel_impl env t_ false step beta1 beta2 learning_rate
        weight_decay eps).error = none := by
      rw [impl_error_of_select env t_ false step beta1 beta2 learning_rate weight_decay eps
        v hv, run_kernel_error_amsgrad env v t_.contiguous false true,
        ← impl_error_of_select env t_ true step beta1 beta2 learning_rate weight_decay eps
        v hv]
      exact hok
    refine ⟨hok', fun j hj => ?_⟩
    exact amsgrad_elem_facts env v
      (kernel_scalars env step beta1 beta2 learning_rate weight_decay eps) t_.bufs _ _ j
      (impl_success_elem env t_ true step beta1 beta2 learning_rate weight_decay eps v hconv
        hv hok hpart hfit' j hj)
      (impl_success_elem env t_ false step beta1 beta2 learning_rate weight_decay eps v hconv
        hv hok' hpart hfit'.amsgrad_off j hj)

/-- C23, on a concrete input: element 0 of `refBufs` in the `<float, float>` kernel, whose
old running maximum `0` is below the new second moment, and the call on `refTensors` with a
float32 parameter. -/
theorem C23_amsgrad_running_max_witness :
    (Fits true Variant.float_float.uses_param2 3 refBufs ∧
      rd refBufs.max_exp_avg_sq 0 ≤
        rd (variant_range_body refEnv Variant.float_float
          (kernel_scalars refEnv 1 (9 / 10) (999 / 1000) (1 / 1000) (1 / 100) (1 / 100000000))
          true 0 3 refBufs).exp_avg_sq 0) ∧
    rd (variant_range_body refEnv Variant.float_float
        (kernel_scalars refEnv 1 (9 / 10) (999 / 1000) (1 / 1000) (1 / 100) (1 / 100000000))
        true 0 3 refBufs).param 0 =
      rd (variant_range_body refEnv Variant.float_float
        (kernel_scalars refEnv 1 (9 / 10) (999 / 1000) (1 / 1000) (1 / 100) (1 / 100000000))
        false 0 3 refBufs).param 0 ∧
    ((adam_fused_step_kernel_impl refEnv (refTensors ScalarType.Float) true 1 (9 / 10)
        (999 / 1000) (1 / 1000) (1 / 100) (1 / 100000000)).error = none ∧
      IsPartition 3 (refEnv.parallel_for 0 3 512) ∧
      (adam_fused_step_kernel_impl refEnv (refTensors ScalarType.Float) false 1 (9 / 10)
        (999 / 1000) (1 / 1000) (1 / 100) (1 / 100000000)).error = none ∧
      rd (adam_fused_step_kernel_impl refEnv (refTensors ScalarType.Float) true 1 (9 / 10)
          (999 / 1000) (1 / 1000) (1 / 100) (1 / 100000000)).mem.exp_avg_sq.data 2 ≤
        rd (adam_fused_step_kernel_impl refEnv (refTensors ScalarType.Float) true 1 (9 / 10)
          (999 / 1000) (1 / 1000) (1 / 100) (1 / 100000000)).mem.max_exp_avg_sq.data 2) :=
  have hf : Fits true Variant.float_float.uses_param2 3 refBufs := by
    unfold Fits
    decide
  have hf2 : Fits true Variant.float_bfloat16.uses_param2 3 refBufs := by
    unfold Fits
    decide
  have hle : rd refBufs.max_exp_avg_sq 0 ≤
      rd (variant_range_body refEnv Variant.float_float
        (kernel_scalars refEnv 1 (9 / 10) (999 / 1000) (1 / 1000) (1 / 100) (1 / 100000000))
        true 0 3 refBufs).exp_avg_sq 0 := by decide!
  have hok : (adam_fused_step_kernel_impl refEnv (refTensors ScalarType.Float) true 1 (9 / 10)
      (999 / 1000) (1 / 1000) (1 / 100) (1 / 100000000)).error = none := by decide
  have hp : IsPartition 3 (refEnv.parallel_for 0 3 512) := by
    unfold IsPartition
    decide
  ⟨⟨hf, hle⟩,
    ((C23_amsgrad_running_max refEnv Variant.float_float
      (kernel_scalars refEnv 1 (9 / 10) (999 / 1000) (1 / 1000) (1 / 100) (1 / 100000000))
      0 3 0 refBufs (fun h => Variant.noConfusion h) (by decide) hf (by decide)
      (by decide)).1.2.2.2.2.2 hle).1,
    hok, hp,
    ((C23_amsgrad_running_max refEnv Variant.float_bfloat16
      (kernel_scalars refEnv 1 (9 / 10) (999 / 1000) (1 / 1000) (1 / 100) (1 / 100000000))
      0 3 0 refBufs (fun _ _ => rfl) (by decide) hf2 (by decide) (by decide)).2
      (refTensors ScalarType.Float) 1 (9 / 10) (999 / 1000) (1 / 1000) (1 / 100)
      (1 / 100000000) (by decide) hok hp hf2).1,
    (((C23_amsgrad_running_max refEnv Variant.float_bfloat16
      (kernel_scalars refEnv 1 (9 / 10) (999 / 1000) (1 / 1000) (1 / 100) (1 / 100000000))
      0 3 0 refBufs (fun _ _ => rfl) (by decide) hf2 (by decide) (by decide)).2
      (refTensors ScalarType.Float) 1 (9 / 10) (999 / 1000) (1 / 1000) (1 / 100)
      (1 / 100000000) (by decide) hok hp hf2).2 2 (by decide)).1⟩

end AmsgradClaim

section OpsInstance

variable {α : Type} [LinearOrderedField α]

theorem scalar_body_ops_field (env : Env α) (s : Scalars α) (amsgrad : Bool)
    (begin_ d : Nat) (m : Bufs α) :
    scalar_body_ops (fieldOps α) env s amsgrad begin_ d m =
      scalar_body env s amsgrad begin_ d m := by
  unfold scalar_body_ops scalar_body
  by_cases hw : |s.exp_avg_grad_coefficient| < 1 / 2 <;>
  by_cases hwd : s.weight_decay = 0 <;>
  cases amsgrad <;>
  simp only [fieldOps, hw, hwd, ne_eq, not_true_eq_false, not_false_eq_true, decide_True,
    decide_False, if_true, if_false, Bool.false_eq_true]

theorem vec_body_ops_field (env : Env α) (L : Nat) (s : Scalars α) (amsgrad : Bool)
    (begin_ d : Nat) (m : Bufs α) :
    vec_body_ops (fieldOps α) env L s amsgrad begin_ d m =
      vec_body env L s amsgrad begin_ d m := by
  unfold vec_body_ops vec_body
  by_cases hwd : s.weight_decay = 0 <;>
  cases amsgrad <;>
  simp only [fieldOps, hwd, ne_eq, not_true_eq_false, not_false_eq_true, decide_True,
    decide_False, if_true, if_false, Bool.false_eq_true] <;> rfl

theorem range_body_ops_field (env : Env α) (scalar_t : PlainType) (s : Scalars α)
    (amsgrad : Bool) (begin_ end_ : Nat) (m : Bufs α) :
    range_body_ops (fieldOps α) env scalar_t s amsgrad begin_ end_ m =
      range_body env scalar_t s amsgrad begin_ end_ m := by
  unfold range_body_ops range_body
  have hv : vec_body_ops (fieldOps α) env (env.Vec_size scalar_t) s amsgrad begin_ =
      vec_body env (env.Vec_size scalar_t) s amsgrad begin_ :=
    funext (fun d => funext (fun m' => vec_body_ops_field env _ s amsgrad begin_ d m'))
  have hs : scalar_body_ops (fieldOps α) env s amsgrad begin_ =
      scalar_body env s amsgrad begin_ :=
    funext (fun d => funext (fun m' => scalar_body_ops_field env s amsgrad begin_ d m'))
  rw [hv, hs]

end OpsInstance

section OpsBodies

variable {α : Type} [LinearOrderedField α]

theorem vec_body_ops_grad (A : Ops α) (env : Env α) (L : Nat) (s : Scalars α)
    (amsgrad : Bool) (begin_ d : Nat) (m : Bufs α) :
    (vec_body_ops A env L s amsgrad begin_ d m).grad = m.grad := by
  unfold vec_body_ops
  cases amsgrad <;> rfl

theorem scalar_body_ops_grad (A : Ops α) (env : Env α) (s : Scalars α)
    (amsgrad : Bool) (begin_ d : Nat) (m : Bufs α) :
    (scalar_body_ops A env s amsgrad begin_ d m).grad = m.grad := by
  unfold scalar_body_ops
  cases amsgrad <;> cases A.lt (A.abs s.exp_avg_grad_coefficient) A.half <;> rfl

theorem vec_body_ops_lengths (A : Ops α) (env : Env α) (L : Nat) (s : Scalars α)
    (amsgrad : Bool) (begin_ d : Nat) (m : Bufs α) :
    SameLengths (vec_body_ops A env L s amsgrad begin_ d m) m := by
  cases amsgrad <;>
    simp only [vec_body_ops, SameLengths, length_store, and_self, Bool.false_eq_true,
      if_false, if_true]

theorem scalar_body_ops_lengths (A : Ops α) (env : Env α) (s : Scalars α)
    (amsgrad : Bool) (begin_ d : Nat) (m : Bufs α) :
    SameLengths (scalar_body_ops A env s amsgrad begin_ d m) m := by
  cases amsgrad <;> cases hl : A.lt (A.abs s.exp_avg_grad_coefficient) A.half <;>
    simp only [scalar_body_ops, SameLengths, List.length_set, and_self, Bool.false_eq_true,
      if_false, if_true, hl]

/-- Inside the buffers, every element of a vector block of the generic kernel ends with the
values the lane computes from the element's old values. -/
theorem vec_body_ops_block (A : Ops α) (env : Env α) (L : Nat) (s : Scalars α)
    (amsgrad : Bool) (begin_ d i : Nat) (m : Bufs α)
    (hfit : Fits amsgrad false (begin_ + d + L) m)
    (hlo : begin_ + d ≤ i) (hhi : i < begin_ + d + L) :
    (vec_body_ops A env L s amsgrad begin_ d m).elem i =
      vec_steps A env s amsgrad (m.elem i) (ops_grad_val A s (rd m.param i) (rd m.grad i)) := by
  obtain ⟨f1, f2, f3, f4, _⟩ := hfit
  have hidx : begin_ + d + (i - (begin_ + d)) = i := by omega
  have a1 : begin_ + d ≤ i ∧ i < begin_ + d + L ∧ i < m.param.length := by omega
  have a2 : begin_ + d ≤ i ∧ i < begin_ + d + L ∧ i < m.exp_avg.length := by omega
  have a3 : begin_ + d ≤ i ∧ i < begin_ + d + L ∧ i < m.exp_avg_sq.length := by omega
  cases hwd : A.ne s.weight_decay A.zero <;>
  cases hl : A.lt (A.abs s.exp_avg_grad_coefficient) A.half <;>
  cases amsgrad
  all_goals first
    | (have a4 : begin_ + d ≤ i ∧ i < begin_ + d + L ∧ i < m.max_exp_avg_sq.length := by
        have := f4 rfl
        omega
       simp only [vec_body_ops, vec_steps, ops_grad_val, Bufs.elem, rd_store, length_store,
        if_pos a1, if_pos a2, if_pos a3, if_pos a4, hwd, hl, if_true, if_false,
        Bool.false_eq_true, Vec.lift1, Vec.lift2, Vec.lift3, Vec.mask, Vec.blendv, Vec.const,
        Vec.loadu, Vec.sqrt, hidx])
    | simp only [vec_body_ops, vec_steps, ops_grad_val, Bufs.elem, rd_store, length_store,
        if_pos a1, if_pos a2, if_pos a3, hwd, hl, if_true, if_false,
        Bool.false_eq_true, Vec.lift1, Vec.lift2, Vec.lift3, Vec.mask, Vec.blendv, Vec.const,
        Vec.loadu, Vec.sqrt, hidx]

theorem vec_body_ops_outside (A : Ops α) (env : Env α) (L : Nat) (s : Scalars α)
    (amsgrad : Bool) (begin_ d i : Nat) (m : Bufs α)
    (hout : ¬ (begin_ + d ≤ i ∧ i < begin_ + d + L)) :
    (vec_body_ops A env L s amsgrad begin_ d m).elem i = m.elem i := by
  have n1 : ¬ (begin_ + d ≤ i ∧ i < begin_ + d + L ∧ i < m.param.length) := by omega
  have n2 : ¬ (begin_ + d ≤ i ∧ i < begin_ + d + L ∧ i < m.exp_avg.length) := by omega
  have n3 : ¬ (begin_ + d ≤ i ∧ i < begin_ + d + L ∧ i < m.exp_avg_sq.length) := by omega
  have n4 : ¬ (begin_ + d ≤ i ∧ i < begin_ + d + L ∧ i < m.max_exp_avg_sq.length) := by omega
  cases amsgrad <;>
    simp only [vec_body_ops, Bufs.elem, rd_store, length_store, if_neg n1, if_neg n2,
      if_neg n3, if_neg n4, Bool.false_eq_true, if_false, if_true]

theorem vec_body_ops_updatedOn (A : Ops α) (env : Env α) (L : Nat) (s : Scalars α)
    (amsgrad : Bool) (begin_ d : Nat) (m : Bufs α)
    (hfit : Fits amsgrad false (begin_ + d + L) m) :
    UpdatedOn (fun _ e g => vec_steps A env s amsgrad e (ops_grad_val A s e.param g))
      (fun i => begin_ + d ≤ i ∧ i < begin_ + d + L) m
      (vec_body_ops A env L s amsgrad begin_ d m) :=
  ⟨vec_body_ops_grad A env L s amsgrad begin_ d m,
    vec_body_ops_lengths A env L s amsgrad begin_ d m,
    fun i => ⟨fun h => vec_body_ops_block A env L s amsgrad begin_ d i m hfit h.1 h.2,
      fun h => vec_body_ops_outside A env L s amsgrad begin_ d i m h⟩⟩

theorem scalar_body_ops_updatedOn (A : Ops α) (env : Env α) (s : Scalars α)
    (amsgrad : Bool) (begin_ d : Nat) (m : Bufs α)
    (hfit : Fits amsgrad false (begin_ + d + 1) m) :
    UpdatedOn (fun _ e g => scalar_steps A env s amsgrad e (ops_grad_val A s e.param g))
      (fun i => begin_ + d ≤ i ∧ i < begin_ + d + 1) m
      (scalar_body_ops A env s amsgrad begin_ d m) := by
  obtain ⟨f1, f2, f3, f4, _⟩ := hfit
  have l1 : begin_ + d < m.param.length := by omega
  have l2 : begin_ + d < m.exp_avg.length := by omega
  have l3 : begin_ + d < m.exp_avg_sq.length := by omega
  refine ⟨scalar_body_ops_grad A env s amsgrad begin_ d m,
    scalar_body_ops_lengths A env s amsgrad begin_ d m, fun i => ⟨fun h => ?_, fun h => ?_⟩⟩
  · have hi : i = begin_ + d := by omega
    subst hi
    cases hwd : A.ne s.weight_decay A.zero <;>
    cases hl : A.lt (A.abs s.exp_avg_grad_coefficient) A.half <;>
    cases amsgrad
    all_goals first
      | (have l4 : begin_ + d < m.max_exp_avg_sq.length := by
          have := f4 rfl
          omega
         simp only [scalar_body_ops, scalar_steps, ops_grad_val, Bufs.elem, rd_set,
          List.length_set, l1, l2, l3, l4, and_self, hwd, hl, if_true, if_false,
          Bool.false_eq_true])
      | simp only [scalar_body_ops, scalar_steps, ops_grad_val, Bufs.elem, rd_set,
          List.length_set, l1, l2, l3, and_self, hwd, hl, if_true, if_false,
          Bool.false_eq_true]
  · have hi : ¬ begin_ + d = i := by omega
    cases hl : A.lt (A.abs s.exp_avg_grad_coefficient) A.half <;> cases amsgrad <;>
      simp only [scalar_body_ops, Bufs.elem, rd_set, hi, false_and, hl, if_true, if_false,
        Bool.false_eq_true]

/-- The range body on the operations `A` updates every element of its range once, from the
element's own old values: by the vectorized statements in the vector blocks, by the
remainder statements after them; every other element is left as it was. -/
theorem range_body_ops_updatedOn (A : Ops α) (env : Env α) (scalar_t : PlainType)
    (s : Scalars α) (amsgrad : Bool) (lo hi : Nat) (m : Bufs α) (hle : lo ≤ hi)
    (hfit : Fits amsgrad false hi m) :
    UpdatedOn
      (fun i => if i < lo + ((hi - lo) - (hi - lo) % env.Vec_size scalar_t) then
          fun e g => vec_steps A env s amsgrad e (ops_grad_val A s e.param g)
        else fun e g => scalar_steps A env s amsgrad e (ops_grad_val A s e.param g))
      (fun i => lo ≤ i ∧ i < hi) m (range_body_ops A env scalar_t s amsgrad lo hi m) :=
  range_loops_updatedOn
    (fun _ e g => vec_steps A env s amsgrad e (ops_grad_val A s e.param g))
    (fun _ e g => scalar_steps A env s amsgrad e (ops_grad_val A s e.param g))
    (vec_body_ops A env (env.Vec_size scalar_t) s amsgrad lo)
    (scalar_body_ops A env s amsgrad lo) (env.Vec_size scalar_t) lo hi amsgrad false
    (fun d m' hf hd =>
      vec_body_ops_updatedOn A env _ s amsgrad lo d m' (hf.mono (by omega)))
    (fun d m' hf hd =>
      scalar_body_ops_updatedOn A env s amsgrad lo d m' (hf.mono (by omega)))
    m hfit hle

end OpsBodies

section FirstMomentBranches

variable {α : Type} [LinearOrderedField α]

theorem scalar_body_ops_exp_avg (A : Ops α) (env : Env α) (s : Scalars α) (amsgrad : Bool)
    (begin_ d : Nat) (m : Bufs α) :
    (scalar_body_ops A env s amsgrad begin_ d m).exp_avg =
      m.exp_avg.set (begin_ + d)
        (if A.lt (A.abs s.exp_avg_grad_coefficient) A.half then
          A.add (rd m.exp_avg (begin_ + d))
            (A.mul s.exp_avg_grad_coefficient
              (A.sub (ops_grad_val A s (rd m.param (begin_ + d)) (rd m.grad (begin_ + d)))
                (rd m.exp_avg (begin_ + d))))
        else
          A.sub (ops_grad_val A s (rd m.param (begin_ + d)) (rd m.grad (begin_ + d)))
            (A.mul
              (A.sub (ops_grad_val A s (rd m.param (begin_ + d)) (rd m.grad (begin_ + d)))
                (rd m.exp_avg (begin_ + d)))
              (A.sub A.one s.exp_avg_grad_coefficient))) := by
  unfold scalar_body_ops ops_grad_val
  cases hl : A.lt (A.abs s.exp_avg_grad_coefficient) A.half <;> cases amsgrad <;>
    simp only [if_true, if_false, Bool.false_eq_true]

/-- C2: in the remainder loop of the generic kernel, whatever the arithmetic `A` of
`scalar_t`, with `w` the coefficient passed by the dispatcher (`1 - beta1`) and `g` the
weight-decayed gradient, element `i` of `exp_avg` becomes `exp_avg + w * (g - exp_avg)`
when the test `abs(w) < 0.5` succeeds and `g - (g - exp_avg) * (1 - w)` when it fails, each
form in the operations of `A`, so that the form taken is visible even where the two values
agree; with the comparison of the ordered field the test is `|1 - beta1| < 1/2`, and
`beta1 = 1/2` (`w = 1/2`) takes the second form; on exact arithmetic the iteration is
`scalar_body`, and for `exp_avg = 0`, `g = 0.5`, `beta1 = 0.9` the result is `0.05`. -/
theorem C2_first_moment_branches (A : Ops α) (env : Env α) (s : Scalars α) (amsgrad : Bool)
    (step beta1 beta2 learning_rate weight_decay eps : α) (begin_ d : Nat) (m : Bufs α)
    (h : begin_ + d < m.exp_avg.length) :
    rd (scalar_body_ops A env s amsgrad begin_ d m).exp_avg (begin_ + d) =
      (if A.lt (A.abs s.exp_avg_grad_coefficient) A.half then
        A.add (rd m.exp_avg (begin_ + d))
          (A.mul s.exp_avg_grad_coefficient
            (A.sub
              (if A.ne s.weight_decay A.zero then
                A.add (rd m.grad (begin_ + d)) (A.mul (rd m.param (begin_ + d)) s.weight_decay)
              else rd m.grad (begin_ + d))
              (rd m.exp_avg (begin_ + d))))
      else
        A.sub
          (if A.ne s.weight_decay A.zero then
            A.add (rd m.grad (begin_ + d)) (A.mul (rd m.param (begin_ + d)) s.weight_decay)
          else rd m.grad (begin_ + d))
          (A.mul
            (A.sub
              (if A.ne s.weight_decay A.zero then
                A.add (rd m.grad (begin_ + d)) (A.mul (rd m.param (begin_ + d)) s.weight_decay)
              else rd m.grad (begin_ + d))
              (rd m.exp_avg (begin_ + d)))
            (A.sub A.one s.exp_avg_grad_coefficient))) ∧
    (kernel_scalars env step beta1 beta2 learning_rate weight_decay eps).exp_avg_grad_coefficient
      = 1 - beta1 ∧
    ((∀ a b, A.lt a b = decide (a < b)) → (∀ a, A.abs a = |a|) → A.half = 1 / 2 →
      rd (scalar_body_ops A env
          (kernel_scalars env step beta1 beta2 learning_rate weight_decay eps)
          amsgrad begin_ d m).exp_avg (begin_ + d) =
        (if |1 - beta1| < 1 / 2 then
          A.add (rd m.exp_avg (begin_ + d))
            (A.mul (1 - beta1)
              (A.sub
                (if A.ne weight_decay A.zero then
                  A.add (rd m.grad (begin_ + d)) (A.mul (rd m.param (begin_ + d)) weight_decay)
                else rd m.grad (begin_ + d))
                (rd m.exp_avg (begin_ + d))))
        else
          A.sub
            (if A.ne weight_decay A.zero then
              A.add (rd m.grad (begin_ + d)) (A.mul (rd m.param (begin_ + d)) weight_decay)
            else rd m.grad (begin_ + d))
            (A.mul
              (A.sub
                (if A.ne weight_decay A.zero then
                  A.add (rd m.grad (begin_ + d))
                    (A.mul (rd m.param (begin_ + d)) weight_decay)
                else rd m.grad (begin_ + d))
                (rd m.exp_avg (begin_ + d)))
              (A.sub A.one (1 - beta1)))) ∧
      rd (scalar_body_ops A env
          (kernel_scalars env step (1 / 2) beta2 learning_rate weight_decay eps)
          amsgrad begin_ d m).exp_avg (begin_ + d) =
        A.sub
          (if A.ne weight_decay A.zero then
            A.add (rd m.grad (begin_ + d)) (A.mul (rd m.param (begin_ + d)) weight_decay)
          else rd m.grad (begin_ + d))
          (A.mul
            (A.sub
              (if A.ne weight_decay A.zero then
                A.add (rd m.grad (begin_ + d)) (A.mul (rd m.param (begin_ + d)) weight_decay)
              else rd m.grad (begin_ + d))
              (rd m.exp_avg (begin_ + d)))
            (A.sub A.one (1 - 1 / 2)))) ∧
    scalar_body_ops (fieldOps α) env s amsgrad begin_ d m =
      scalar_body env s amsgrad begin_ d m ∧
    (scalar_body refEnv
        (kernel_scalars refEnv 1 (9 / 10) (999 / 1000) (1 / 1000) 0 (1 / 100000000))
        false 0 0
        { param := [1], exp_avg := [0], exp_avg_sq := [0], max_exp_avg_sq := [0],
          grad := [1 / 2], param2 := [] }).exp_avg = [1 / 20] := by
  have hgen : ∀ s' : Scalars α,
      rd (scalar_body_ops A env s' amsgrad begin_ d m).exp_avg (begin_ + d) =
      (if A.lt (A.abs s'.exp_avg_grad_coefficient) A.half then
        A.add (rd m.exp_avg (begin_ + d))
          (A.mul s'.exp_avg_grad_coefficient
            (A.sub
              (if A.ne s'.weight_decay A.zero then
                A.add (rd m.grad (begin_ + d))
                  (A.mul (rd m.param (begin_ + d)) s'.weight_decay)
              else rd m.grad (begin_ + d))
              (rd m.exp_avg (begin_ + d))))
      else
        A.sub
          (if A.ne s'.weight_decay A.zero then
            A.add (rd m.grad (begin_ + d)) (A.mul (rd m.param (begin_ + d)) s'.weight_decay)
          else rd m.grad (begin_ + d))
          (A.mul
            (A.sub
              (if A.ne s'.weight_decay A.zero then
                A.add (rd m.grad (begin_ + d))
                  (A.mul (rd m.param (begin_ + d)) s'.weight_decay)
              else rd m.grad (begin_ + d))
              (rd m.exp_avg (begin_ + d)))
            (A.sub A.one s'.exp_avg_grad_coefficient))) := by
    intro s'
    rw [scalar_body_ops_exp_avg, rd_set]
    simp only [h, and_self, if_true, ops_grad_val]
  refine ⟨hgen s, rfl, ?_, scalar_body_ops_field env s amsgrad begin_ d m, ?_⟩
  · intro hlt habs hhalf
    constructor
    · rw [hgen]
      simp only [kernel_scalars, hlt, habs, hhalf, decide_eq_true_eq]
    · have hw : ¬ (|(1 : α) - 1 / 2| < 1 / 2) := by
        have : (1 : α) - 1 / 2 = 1 / 2 := by norm_num
        rw [this, abs_of_pos (by norm_num : (0 : α) < 1 / 2)]
        exact lt_irrefl _
      rw [hgen]
      simp only [kernel_scalars, hlt, habs, hhalf, decide_eq_true_eq, if_neg hw]
  · rw [scalar_body_exp_avg]
    have hw : |(1 : ℚ) - 9 / 10| < 1 / 2 := by
      rw [abs_of_pos (by norm_num)]; norm_num
    simp only [new_exp_avg, grad_val, kernel_scalars, if_pos hw, rd]
    norm_num

/-- C2, on a concrete input: `beta1 = 1/2` on operations whose addition is off by one, so
that the first form would give `5/4`; the iteration gives the second form, `1/4`. -/
theorem C2_first_moment_branches_witness :
    (0 + 0 < ([0] : List ℚ).length) ∧
    rd (scalar_body_ops { fieldOps ℚ with add := fun a b => a + b + 1 } refEnv
        (kernel_scalars refEnv 1 (1 / 2) (999 / 1000) (1 / 1000) 0 (1 / 100000000))
        false 0 0
        { param := [1], exp_avg := [0], exp_avg_sq := [0], max_exp_avg_sq := [0],
          grad := [1 / 2], param2 := [] }).exp_avg (0 + 0) = 1 / 4 ∧
    (0 : ℚ) + (1 - 1 / 2) * (1 / 2 - 0) + 1 = 5 / 4 :=
  ⟨by decide,
   ((C2_first_moment_branches { fieldOps ℚ with add := fun a b => a + b + 1 } refEnv
      (kernel_scalars refEnv 1 (1 / 2) (999 / 1000) (1 / 1000) 0 (1 / 100000000))
      false 1 (1 / 2) (999 / 1000) (1 / 1000) 0 (1 / 100000000)
      0 0 { param := [1], exp_avg := [0], exp_avg_sq := [0], max_exp_avg_sq := [0],
            grad := [1 / 2], param2 := [] } (by decide)).2.2.1
      (fun _ _ => rfl) (fun _ => rfl) rfl).2.trans (by decide!),
   by norm_num⟩

end FirstMomentBranches

section EffectiveGradient

theorem steps_param_irrelevant {α : Type} (A : Ops α) (env : Env α) (s : Scalars α) (amsgrad : Bool)
    (e : Elem α) (p g : α) :
    ((vec_steps A env s amsgrad { e with param := p } g).exp_avg =
        (vec_steps A env s amsgrad e g).exp_avg ∧
      (vec_steps A env s amsgrad { e with param := p } g).exp_avg_sq =
        (vec_steps A env s amsgrad e g).exp_avg_sq ∧
      (vec_steps A env s amsgrad { e with param := p } g).max_exp_avg_sq =
        (vec_steps A env s amsgrad e g).max_exp_avg_sq) ∧
    ((scalar_steps A env s amsgrad { e with param := p } g).exp_avg =
        (scalar_steps A env s amsgrad e g).exp_avg ∧
      (scalar_steps A env s amsgrad { e with param := p } g).exp_avg_sq =
        (scalar_steps A env s amsgrad e g).exp_avg_sq ∧
      (scalar_steps A env s amsgrad { e with param := p } g).max_exp_avg_sq =
        (scalar_steps A env s amsgrad e g).max_exp_avg_sq) :=
  ⟨⟨rfl, rfl, rfl⟩, ⟨rfl, rfl, rfl⟩⟩

variable {α : Type} [LinearOrderedField α]

theorem range_body_ops_elem (A : Ops α) (env : Env α) (scalar_t : PlainType)
    (s : Scalars α) (amsgrad : Bool) (begin_ end_ i : Nat) (m : Bufs α)
    (hlo : begin_ ≤ i) (hhi : i < end_) (hfit : Fits amsgrad false end_ m) :
    (range_body_ops A env scalar_t s amsgrad begin_ end_ m).elem i =
      if i < begin_ + ((end_ - begin_) - (end_ - begin_) % env.Vec_size scalar_t) then
        vec_steps A env s amsgrad (m.elem i) (ops_grad_val A s (rd m.param i) (rd m.grad i))
      else
        scalar_steps A env s amsgrad (m.elem i)
          (ops_grad_val A s (rd m.param i) (rd m.grad i)) := by
  have hU := ((range_body_ops_updatedOn A env scalar_t s amsgrad begin_ end_ m (by omega)
    hfit).2.2 i).1 ⟨hlo, hhi⟩
  rw [hU]
  by_cases hv : i < begin_ + ((end_ - begin_) - (end_ - begin_) % env.Vec_size scalar_t)
  · simp only [if_pos hv]
    rfl
  · simp only [if_neg hv]
    rfl

/-- C4: for every element `i` of a range processed by the generic kernel, whatever the
arithmetic `A` of `scalar_t`, the element ends as the later statements of its loop
(`vec_steps` in the vector blocks, `scalar_steps` after them) run on the element's old
values and on the effective gradient, which is `grad[i] + param_old[i] * weight_decay` when
the test `weight_decay != 0` succeeds and `grad[i]` itself, no term added, when it fails;
both moments are computed from that gradient; and when the test fails the new `exp_avg[i]`,
`exp_avg_sq[i]` and `max_exp_avg_sq[i]` are the same whatever the parameter buffer holds,
also on operations where `p * 0` is not `0`. On exact arithmetic the range body is
`range_body`. -/
theorem C4_effective_gradient (A : Ops α) (env : Env α) (scalar_t : PlainType)
    (s : Scalars α) (amsgrad : Bool) (begin_ end_ i : Nat) (m : Bufs α) (param' : List α)
    (hlo : begin_ ≤ i) (hhi : i < end_) (hfit : Fits amsgrad false end_ m)
    (hp' : end_ ≤ param'.length) :
    ((range_body_ops A env scalar_t s amsgrad begin_ end_ m).elem i =
      if i < begin_ + ((end_ - begin_) - (end_ - begin_) % env.Vec_size scalar_t) then
        vec_steps A env s amsgrad (m.elem i)
          (if A.ne s.weight_decay A.zero then
            A.add (rd m.grad i) (A.mul (rd m.param i) s.weight_decay)
          else rd m.grad i)
      else
        scalar_steps A env s amsgrad (m.elem i)
          (if A.ne s.weight_decay A.zero then
            A.add (rd m.grad i) (A.mul (rd m.param i) s.weight_decay)
          else rd m.grad i)) ∧
    rd (range_body_ops A env scalar_t s amsgrad begin_ end_ m).exp_avg_sq i =
      A.add (A.mul (rd m.exp_avg_sq i) s.beta2)
        (A.mul
          (A.mul s.exp_avg_sq_grad_coefficient
            (if A.ne s.weight_decay A.zero then
              A.add (rd m.grad i) (A.mul (rd m.param i) s.weight_decay)
            else rd m.grad i))
          (if A.ne s.weight_decay A.zero then
            A.add (rd m.grad i) (A.mul (rd m.param i) s.weight_decay)
          else rd m.grad i)) ∧
    rd (range_body_ops A env scalar_t s amsgrad begin_ end_ m).exp_avg i =
      (if i < begin_ + ((end_ - begin_) - (end_ - begin_) % env.Vec_size scalar_t) then
        A.fmadd
          (if A.lt (A.abs s.exp_avg_grad_coefficient) A.half then s.exp_avg_grad_coefficient
            else A.sub s.exp_avg_grad_coefficient A.one)
          (A.sub
            (if A.ne s.weight_decay A.zero then
              A.add (rd m.grad i) (A.mul (rd m.param i) s.weight_decay)
            else rd m.grad i)
            (rd m.exp_avg i))
          (if A.lt (A.abs s.exp_avg_grad_coefficient) A.half then rd m.exp_avg i
            else
              (if A.ne s.weight_decay A.zero then
                A.add (rd m.grad i) (A.mul (rd m.param i) s.weight_decay)
              else rd m.grad i))
      else
        (if A.lt (A.abs s.exp_avg_grad_coefficient) A.half then
          A.add (rd m.exp_avg i)
            (A.mul s.exp_avg_grad_coefficient
              (A.sub
                (if A.ne s.weight_decay A.zero then
                  A.add (rd m.grad i) (A.mul (rd m.param i) s.weight_decay)
                else rd m.grad i)
                (rd m.exp_avg i)))
        else
          A.sub
            (if A.ne s.weight_decay A.zero then
              A.add (rd m.grad i) (A.mul (rd m.param i) s.weight_decay)
            else rd m.grad i)
            (A.mul
              (A.sub
                (if A.ne s.weight_decay A.zero then
                  A.add (rd m.grad i) (A.mul (rd m.param i) s.weight_decay)
                else rd m.grad i)
                (rd m.exp_avg i))
              (A.sub A.one s.exp_avg_grad_coefficient)))) ∧
    (A.ne s.weight_decay A.zero = false →
      ((range_body_ops A env scalar_t s amsgrad begin_ end_ m).elem i =
        if i < begin_ + ((end_ - begin_) - (end_ - begin_) % env.Vec_size scalar_t) then
          vec_steps A env s amsgrad (m.elem i) (rd m.grad i)
        else scalar_steps A env s amsgrad (m.elem i) (rd m.grad i)) ∧
      rd (range_body_ops A env scalar_t s amsgrad begin_ end_
          { m with param := param' }).exp_avg i =
        rd (range_body_ops A env scalar_t s amsgrad begin_ end_ m).exp_avg i ∧
      rd (range_body_ops A env scalar_t s amsgrad begin_ end_
          { m with param := param' }).exp_avg_sq i =
        rd (range_body_ops A env scalar_t s amsgrad begin_ end_ m).exp_avg_sq i ∧
      rd (range_body_ops A env scalar_t s amsgrad begin_ end_
          { m with param := param' }).max_exp_avg_sq i =
        rd (range_body_ops A env scalar_t s amsgrad begin_ end_ m).max_exp_avg_sq i) ∧
    ((∀ a b, A.ne a b = decide (a ≠ b)) → A.zero = 0 →
      (s.weight_decay = 0 →
        (range_body_ops A env scalar_t s amsgrad begin_ end_ m).elem i =
          if i < begin_ + ((end_ - begin_) - (end_ - begin_) % env.Vec_size scalar_t) then
            vec_steps A env s amsgrad (m.elem i) (rd m.grad i)
          else scalar_steps A env s amsgrad (m.elem i) (rd m.grad i)) ∧
      (s.weight_decay ≠ 0 →
        (range_body_ops A env scalar_t s amsgrad begin_ end_ m).elem i =
          if i < begin_ + ((end_ - begin_) - (end_ - begin_) % env.Vec_size scalar_t) then
            vec_steps A env s amsgrad (m.elem i)
              (A.add (rd m.grad i) (A.mul (rd m.param i) s.weight_decay))
          else
            scalar_steps A env s amsgrad (m.elem i)
              (A.add (rd m.grad i) (A.mul (rd m.param i) s.weight_decay)))) ∧
    range_body_ops (fieldOps α) env scalar_t s amsgrad begin_ end_ m =
      range_body env scalar_t s amsgrad begin_ end_ m := by
  have he := range_body_ops_elem A env scalar_t s amsgrad begin_ end_ i m hlo hhi hfit
  have hfit' : Fits amsgrad false end_ ({ m with param := param' } : Bufs α) :=
    ⟨hp', hfit.2.1, hfit.2.2.1, hfit.2.2.2.1, fun h => Bool.noConfusion h⟩
  have he' := range_body_ops_elem A env scalar_t s amsgrad begin_ end_ i
    { m with param := param' } hlo hhi hfit'
  have hreal : (∀ a b, A.ne a b = decide (a ≠ b)) → A.zero = 0 →
      (s.weight_decay = 0 →
        (range_body_ops A env scalar_t s amsgrad begin_ end_ m).elem i =
          if i < begin_ + ((end_ - begin_) - (end_ - begin_) % env.Vec_size scalar_t) then
            vec_steps A env s amsgrad (m.elem i) (rd m.grad i)
          else scalar_steps A env s amsgrad (m.elem i) (rd m.grad i)) ∧
      (s.weight_decay ≠ 0 →
        (range_body_ops A env scalar_t s amsgrad begin_ end_ m).elem i =
          if i < begin_ + ((end_ - begin_) - (end_ - begin_) % env.Vec_size scalar_t) then
            vec_steps A env s amsgrad (m.elem i)
              (A.add (rd m.grad i) (A.mul (rd m.param i) s.weight_decay))
          else
            scalar_steps A env s amsgrad (m.elem i)
              (A.add (rd m.grad i) (A.mul (rd m.param i) s.weight_decay))) := by
    intro hne hzero
    constructor
    · intro hwd
      have hz : A.ne s.weight_decay A.zero = false := by
        rw [hne, hzero, hwd]
        simp
      rw [he]
      simp only [ops_grad_val, hz, Bool.false_eq_true, if_false]
    · intro hwd
      have hz : A.ne s.weight_decay A.zero = true := by
        rw [hne, hzero]
        simp [hwd]
      rw [he]
      simp only [ops_grad_val, hz, if_true]
  refine ⟨he, ?_, ?_, ?_, hreal, range_body_ops_field env scalar_t s amsgrad begin_ end_ m⟩
  · show ((range_body_ops A env scalar_t s amsgrad begin_ end_ m).elem i).exp_avg_sq = _
    rw [he]
    split <;> rfl
  · show ((range_body_ops A env scalar_t s amsgrad begin_ end_ m).elem i).exp_avg = _
    rw [he]
    split <;> rfl
  · intro hz
    have hg : ∀ p : α, ops_grad_val A s p (rd m.grad i) = rd m.grad i := by
      intro p
      simp only [ops_grad_val, hz, Bool.false_eq_true, if_false]
    rw [hg] at he
    have he2 : (range_body_ops A env scalar_t s amsgrad begin_ end_
        { m with param := param' }).elem i =
        if i < begin_ + ((end_ - begin_) - (end_ - begin_) % env.Vec_size scalar_t) then
          vec_steps A env s amsgrad { m.elem i with param := rd param' i } (rd m.grad i)
        else scalar_steps A env s amsgrad { m.elem i with param := rd param' i }
          (rd m.grad i) := by
      rw [he']
      show (if _ then vec_steps A env s amsgrad _ (ops_grad_val A s (rd param' i) (rd m.grad i))
        else scalar_steps A env s amsgrad _ (ops_grad_val A s (rd param' i) (rd m.grad i))) = _
      rw [hg]
      rfl
    have hirr := steps_param_irrelevant A env s amsgrad (m.elem i) (rd param' i) (rd m.grad i)
    refine ⟨he, ?_, ?_, ?_⟩
    · show ((range_body_ops A env scalar_t s amsgrad begin_ end_
        { m with param := param' }).elem i).exp_avg =
        ((range_body_ops A env scalar_t s amsgrad begin_ end_ m).elem i).exp_avg
      rw [he, he2]
      split
      · exact hirr.1.1
      · exact hirr.2.1
    · show ((range_body_ops A env scalar_t s amsgrad begin_ end_
        { m with param := param' }).elem i).exp_avg_sq =
        ((range_body_ops A env scalar_t s amsgrad begin_ end_ m).elem i).exp_avg_sq
      rw [he, he2]
      split
      · exact hirr.1.2.1
      · exact hirr.2.2.1
    · show ((range_body_ops A env scalar_t s amsgrad begin_ end_
        { m with param := param' }).elem i).max_exp_avg_sq =
        ((range_body_ops A env scalar_t s amsgrad begin_ end_ m).elem i).max_exp_avg_sq
      rw [he, he2]
      split
      · exact hirr.1.2.2
      · exact hirr.2.2.2

/-- C4, on a concrete input: element 2 of `refBufs` (remainder loop) with
`weight_decay = 0`, on operations whose product with `0` returns the other factor, so that
an added term `param * 0` would show: the new `exp_avg` does not change with the parameter
buffer. -/
theorem C4_effective_gradient_witness :
    (Fits true false 3 refBufs ∧ 3 ≤ [(7 : ℚ), 8, 9].length ∧
      ({ fieldOps ℚ with mul := fun a b => if b = 0 then a else a * b } : Ops ℚ).ne
        (kernel_scalars refEnv 1 (9 / 10) (999 / 1000) (1 / 1000) 0
          (1 / 100000000)).weight_decay
        ({ fieldOps ℚ with mul := fun a b => if b = 0 then a else a * b } : Ops ℚ).zero =
        false) ∧
    rd (range_body_ops { fieldOps ℚ with mul := fun a b => if b = 0 then a else a * b }
        refEnv PlainType.float
        (kernel_scalars refEnv 1 (9 / 10) (999 / 1000) (1 / 1000) 0 (1 / 100000000))
        true 0 3 { refBufs with param := [7, 8, 9] }).exp_avg 2 =
      rd (range_body_ops { fieldOps ℚ with mul := fun a b => if b = 0 then a else a * b }
        refEnv PlainType.float
        (kernel_scalars refEnv 1 (9 / 10) (999 / 1000) (1 / 1000) 0 (1 / 100000000))
        true 0 3 refBufs).exp_avg 2 :=
  have hf : Fits true false 3 refBufs := by
    unfold Fits
    decide
  have hz : ({ fieldOps ℚ with mul := fun a b => if b = 0 then a else a * b } : Ops ℚ).ne
      (kernel_scalars refEnv 1 (9 / 10) (999 / 1000) (1 / 1000) 0
        (1 / 100000000)).weight_decay
      ({ fieldOps ℚ with mul := fun a b => if b = 0 then a else a * b } : Ops ℚ).zero =
      false := by decide
  ⟨⟨hf, by decide, hz⟩,
    ((C4_effective_gradient { fieldOps ℚ with mul := fun a b => if b = 0 then a else a * b }
      refEnv PlainType.float
      (kernel_scalars refEnv 1 (9 / 10) (999 / 1000) (1 / 1000) 0 (1 / 100000000))
      true 0 3 2 refBufs [7, 8, 9] (by decide) (by decide) hf (by decide)).2.2.2.1 hz).2.1⟩

end EffectiveGradient

section ControlFlowClaim

variable {α : Type} [LinearOrderedField α]

theorem range_loops_schedule (vbody sbody : Nat → Bufs α → Bufs α) (L begin_ end_ : Nat)
    (m : Bufs α) (env : Env α) (scalar_t : PlainType) (s : Scalars α) (amsgrad : Bool) :
    (∀ fuel, end_ - begin_ ≤ fuel →
      vec_loop vbody (end_ - begin_) L fuel 0 m =
        ((end_ - begin_) - (end_ - begin_) % L,
         (List.range' 0 ((end_ - begin_) / L)).foldl (fun acc k => vbody (k * L) acc) m)) ∧
    (∀ fuel m', end_ - begin_ ≤ fuel →
      scalar_loop sbody (end_ - begin_) fuel ((end_ - begin_) - (end_ - begin_) % L) m' =
        (List.range' ((end_ - begin_) - (end_ - begin_) % L)
          ((end_ - begin_) % L)).foldl (fun acc j => sbody j acc) m') ∧
    range_loops vbody sbody L begin_ end_ m =
      (List.range' ((end_ - begin_) - (end_ - begin_) % L)
        ((end_ - begin_) % L)).foldl (fun acc j => sbody j acc)
        ((List.range' 0 ((end_ - begin_) / L)).foldl (fun acc k => vbody (k * L) acc) m) ∧
    range_body env scalar_t s amsgrad begin_ end_ m =
      (List.range' ((end_ - begin_) - (end_ - begin_) % env.Vec_size scalar_t)
        ((end_ - begin_) % env.Vec_size scalar_t)).foldl
        (fun acc j => scalar_body env s amsgrad begin_ j acc)
        ((List.range' 0 ((end_ - begin_) / env.Vec_size scalar_t)).foldl
          (fun acc k => vec_body env (env.Vec_size scalar_t) s amsgrad begin_
            (k * env.Vec_size scalar_t) acc) m) ∧
    (end_ - begin_) - (end_ - begin_) % L = (end_ - begin_) / L * L ∧
    (List.range' 0 ((end_ - begin_) / L)).flatMap (fun k => List.range' (k * L) L) ++
      List.range' ((end_ - begin_) - (end_ - begin_) % L) ((end_ - begin_) % L) =
      List.range (end_ - begin_) := by
  have hB : (end_ - begin_) - (end_ - begin_) % L = (end_ - begin_) / L * L := by
    have := Nat.div_add_mod (end_ - begin_) L
    have h2 : L * ((end_ - begin_) / L) = (end_ - begin_) / L * L := Nat.mul_comm _ _
    omega
  have hq : (end_ - begin_) / L ≤ end_ - begin_ := Nat.div_le_self _ _
  have hmod : (end_ - begin_) % L ≤ end_ - begin_ := by
    have := Nat.div_add_mod (end_ - begin_) L
    have h3 : 0 ≤ L * ((end_ - begin_) / L) := Nat.zero_le _
    omega
  have hv : ∀ fuel, end_ - begin_ ≤ fuel →
      vec_loop vbody (end_ - begin_) L fuel 0 m =
        ((end_ - begin_) - (end_ - begin_) % L,
         (List.range' 0 ((end_ - begin_) / L)).foldl (fun acc k => vbody (k * L) acc) m) := by
    intro fuel hf
    have h := vec_loop_blocks vbody (end_ - begin_) L fuel 0 m (Nat.zero_le _) (by omega)
    simpa using h
  have hs : ∀ fuel m', end_ - begin_ ≤ fuel →
      scalar_loop sbody (end_ - begin_) fuel ((end_ - begin_) - (end_ - begin_) % L) m' =
        (List.range' ((end_ - begin_) - (end_ - begin_) % L)
          ((end_ - begin_) % L)).foldl (fun acc j => sbody j acc) m' := by
    intro fuel m' hf
    have h := scalar_loop_elements sbody (end_ - begin_) fuel
      ((end_ - begin_) - (end_ - begin_) % L) m' (Nat.sub_le _ _) (by omega)
    have hlen : (end_ - begin_) - ((end_ - begin_) - (end_ - begin_) % L) =
        (end_ - begin_) % L := by omega
    rw [hlen] at h
    exact h
  have hrl : ∀ (vb sb : Nat → Bufs α → Bufs α) (L' : Nat),
      range_loops vb sb L' begin_ end_ m =
        (List.range' ((end_ - begin_) - (end_ - begin_) % L')
          ((end_ - begin_) % L')).foldl (fun acc j => sb j acc)
          ((List.range' 0 ((end_ - begin_) / L')).foldl (fun acc k => vb (k * L') acc) m) := by
    intro vb sb L'
    unfold range_loops
    simp only []
    have h1 := vec_loop_blocks vb (end_ - begin_) L' (end_ - begin_) 0 m (Nat.zero_le _)
      (by have := Nat.div_le_self (end_ - begin_) L'; omega)
    simp only [Nat.zero_mul, Nat.sub_zero] at h1
    rw [h1]
    simp only []
    have h2 := scalar_loop_elements sb (end_ - begin_) (end_ - begin_)
      ((end_ - begin_) - (end_ - begin_) % L')
      ((List.range' 0 ((end_ - begin_) / L')).foldl (fun acc k => vb (k * L') acc) m)
      (Nat.sub_le _ _) (by omega)
    have hlen : (end_ - begin_) - ((end_ - begin_) - (end_ - begin_) % L') =
        (end_ - begin_) % L' := by
      have := Nat.div_add_mod (end_ - begin_) L'
      have h3 : 0 ≤ L' * ((end_ - begin_) / L') := Nat.zero_le _
      omega
    rw [hlen] at h2
    exact h2
  refine ⟨hv, hs, hrl vbody sbody L, hrl _ _ _, hB, ?_⟩
  · rw [blocks_cover, hB, List.range_eq_range']
    have h := List.range'_append_1 0 ((end_ - begin_) / L * L) ((end_ - begin_) % L)
    rw [Nat.zero_add] at h
    rw [h]
    congr 1
    have := Nat.div_add_mod (end_ - begin_) L
    have h2 : L * ((end_ - begin_) / L) = (end_ - begin_) / L * L := Nat.mul_comm _ _
    omega

/-- C17: for a range of `size = end_ - begin_` elements and lane width `L`, the two loops of
a range body run, with the fuel the range body gives them and with any larger fuel, the
vector blocks at `d = 0, L, …, (size / L - 1) * L` and then the remainder elements
`d = size - size % L, …, size - 1`, each once and in this order; the vectorized loop stops at
`d = size - size % L = (size / L) * L`, and the indices of the blocks followed by the
remainder indices are `0, 1, …, size - 1`, each exactly once. In the generic kernel, whatever
the arithmetic `A`, the block at `d` writes the elements `begin_ + d ≤ i < begin_ + d + L`
and no other, the remainder iteration at `d` writes element `begin_ + d` and no other, and
after the range body every element of `[begin_, end_)` holds the result of one update of
its old value, by the vectorized statements when `i < begin_ + (size - size % L)` and by the
remainder statements otherwise, every element outside the range being as before. -/
theorem C17_loop_coverage (vbody sbody : Nat → Bufs α → Bufs α) (L begin_ end_ : Nat)
    (m : Bufs α) (env : Env α) (scalar_t : PlainType) (s : Scalars α) (amsgrad : Bool) :
    ((∀ fuel, end_ - begin_ ≤ fuel →
        vec_loop vbody (end_ - begin_) L fuel 0 m =
          ((end_ - begin_) - (end_ - begin_) % L,
           (List.range' 0 ((end_ - begin_) / L)).foldl (fun acc k => vbody (k * L) acc) m)) ∧
      (∀ fuel m', end_ - begin_ ≤ fuel →
        scalar_loop sbody (end_ - begin_) fuel ((end_ - begin_) - (end_ - begin_) % L) m' =
          (List.range' ((end_ - begin_) - (end_ - begin_) % L)
            ((end_ - begin_) % L)).foldl (fun acc j => sbody j acc) m') ∧
      range_loops vbody sbody L begin_ end_ m =
        (List.range' ((end_ - begin_) - (end_ - begin_) % L)
          ((end_ - begin_) % L)).foldl (fun acc j => sbody j acc)
          ((List.range' 0 ((end_ - begin_) / L)).foldl (fun acc k => vbody (k * L) acc) m) ∧
      range_body env scalar_t s amsgrad begin_ end_ m =
        (List.range' ((end_ - begin_) - (end_ - begin_) % env.Vec_size scalar_t)
          ((end_ - begin_) % env.Vec_size scalar_t)).foldl
          (fun acc j => scalar_body env s amsgrad begin_ j acc)
          ((List.range' 0 ((end_ - begin_) / env.Vec_size scalar_t)).foldl
            (fun acc k => vec_body env (env.Vec_size scalar_t) s amsgrad begin_
              (k * env.Vec_size scalar_t) acc) m) ∧
      (end_ - begin_) - (end_ - begin_) % L = (end_ - begin_) / L * L ∧
      (List.range' 0 ((end_ - begin_) / L)).flatMap (fun k => List.range' (k * L) L) ++
        List.range' ((end_ - begin_) - (end_ - begin_) % L) ((end_ - begin_) % L) =
        List.range (end_ - begin_)) ∧
    (∀ (A : Ops α) (d : Nat) (m' : Bufs α), Fits amsgrad false (begin_ + d + L) m' →
      ∀ i, (vec_body_ops A env L s amsgrad begin_ d m').elem i =
        if begin_ + d ≤ i ∧ i < begin_ + d + L then
          vec_steps A env s amsgrad (m'.elem i)
            (ops_grad_val A s (rd m'.param i) (rd m'.grad i))
        else m'.elem i) ∧
    (∀ (A : Ops α) (d : Nat) (m' : Bufs α), Fits amsgrad false (begin_ + d + 1) m' →
      ∀ i, (scalar_body_ops A env s amsgrad begin_ d m').elem i =
        if i = begin_ + d then
          scalar_steps A env s amsgrad (m'.elem i)
            (ops_grad_val A s (rd m'.param i) (rd m'.grad i))
        else m'.elem i) ∧
    (∀ (A : Ops α), begin_ ≤ end_ → Fits amsgrad false end_ m →
      (range_body_ops A env scalar_t s amsgrad begin_ end_ m).grad = m.grad ∧
      ∀ i, (range_body_ops A env scalar_t s amsgrad begin_ end_ m).elem i =
        if begin_ ≤ i ∧ i < end_ then
          (if i < begin_ + ((end_ - begin_) - (end_ - begin_) % env.Vec_size scalar_t) then
            vec_steps A env s amsgrad (m.elem i)
              (ops_grad_val A s (rd m.param i) (rd m.grad i))
          else
            scalar_steps A env s amsgrad (m.elem i)
              (ops_grad_val A s (rd m.param i) (rd m.grad i)))
        else m.elem i) ∧
    range_body_ops (fieldOps α) env scalar_t s amsgrad begin_ end_ m =
      range_body env scalar_t s amsgrad begin_ end_ m := by
  refine ⟨range_loops_schedule vbody sbody L begin_ end_ m env scalar_t s amsgrad, ?_, ?_, ?_,
    range_body_ops_field env scalar_t s amsgrad begin_ end_ m⟩
  · intro A d m' hfit i
    by_cases hin : begin_ + d ≤ i ∧ i < begin_ + d + L
    · rw [if_pos hin]
      exact vec_body_ops_block A env L s amsgrad begin_ d i m' hfit hin.1 hin.2
    · rw [if_neg hin]
      exact vec_body_ops_outside A env L s amsgrad begin_ d i m' hin
  · intro A d m' hfit i
    have hU := scalar_body_ops_updatedOn A env s amsgrad begin_ d m' hfit
    by_cases hin : i = begin_ + d
    · rw [if_pos hin]
      exact (hU.2.2 i).1 (by omega)
    · rw [if_neg hin]
      exact (hU.2.2 i).2 (by omega)
  · intro A hle hfit
    have hU := range_body_ops_updatedOn A env scalar_t s amsgrad begin_ end_ m hle hfit
    refine ⟨hU.1, fun i => ?_⟩
    by_cases hin : begin_ ≤ i ∧ i < end_
    · rw [if_pos hin]
      exact range_body_ops_elem A env scalar_t s amsgrad begin_ end_ i m hin.1 hin.2 hfit
    · rw [if_neg hin]
      exact (hU.2.2 i).2 hin

/-- C17, on a concrete input: `refBufs` with two float lanes; element 1 is in the vector
block, element 2 is left to the remainder loop. -/
theorem C17_loop_coverage_witness :
    (0 ≤ 3 ∧ Fits true false 3 refBufs) ∧
    (range_body_ops (fieldOps ℚ) refEnv PlainType.float
        (kernel_scalars refEnv 1 (9 / 10) (999 / 1000) (1 / 1000) (1 / 100) (1 / 100000000))
        true 0 3 refBufs).elem 2 =
      (if 0 ≤ 2 ∧ 2 < 3 then
        (if 2 < 0 + ((3 - 0) - (3 - 0) % refEnv.Vec_size PlainType.float) then
          vec_steps (fieldOps ℚ) refEnv
            (kernel_scalars refEnv 1 (9 / 10) (999 / 1000) (1 / 1000) (1 / 100)
              (1 / 100000000))
            true (refBufs.elem 2)
            (ops_grad_val (fieldOps ℚ)
              (kernel_scalars refEnv 1 (9 / 10) (999 / 1000) (1 / 1000) (1 / 100)
                (1 / 100000000))
              (rd refBufs.param 2) (rd refBufs.grad 2))
        else
          scalar_steps (fieldOps ℚ) refEnv
            (kernel_scalars refEnv 1 (9 / 10) (999 / 1000) (1 / 1000) (1 / 100)
              (1 / 100000000))
            true (refBufs.elem 2)
            (ops_grad_val (fieldOps ℚ)
              (kernel_scalars refEnv 1 (9 / 10) (999 / 1000) (1 / 1000) (1 / 100)
                (1 / 100000000))
              (rd refBufs.param 2) (rd refBufs.grad 2)))
      else refBufs.elem 2) :=
  have hf : Fits true false 3 refBufs := by
    unfold Fits
    decide
  ⟨⟨by decide, hf⟩,
    ((C17_loop_coverage (fun _ m => m) (fun _ m => m) 2 0 3 refBufs refEnv PlainType.float
      (kernel_scalars refEnv 1 (9 / 10) (999 / 1000) (1 / 1000) (1 / 100) (1 / 100000000))
      true).2.2.2.1 (fieldOps ℚ) (by decide) hf).2 2⟩

end ControlFlowClaim

end AdamFusedStep
